import Mathlib

/-!
Verification of the rvcodec.js RISC-V instruction decoder
(file `src/unnamed/part_000`, the `Decoder` class and its helper
functions) against its natural-language specification.

Binary instruction words are modelled, as in the source, as text:
`Str := List Char` of '0'/'1' characters, most-significant bit first.
The static tables (`FIELDS`, `OPCODE`, the `ISA_*` dispatch tables,
`CSR`, the ABI register names) live in `Constants.js` / `Config.js` /
`Instruction.js`, which are not part of the provided sources; those
definitions are modelled from the specification and are marked as such.
All decoder logic is translated directly from `src/unnamed/part_000`.
-/

namespace Rvcodec

/-- Binary (and general) text is a list of characters, MSB first. -/
abbrev Str := List Char

/-- Value of one binary character: '1' counts 1, anything else 0
(`parseInt(s, 2)` over validated binary text). -/
def bitVal (c : Char) : Nat := if c = '1' then 1 else 0

/-- `parseInt(s, 2)` on a binary string: MSB-first accumulation. -/
def binToNat (l : Str) : Nat := l.foldl (fun a c => 2 * a + bitVal c) 0

/-- The text consists only of '0'/'1' characters. -/
def IsBin (l : Str) : Prop := ∀ c ∈ l, c = '0' ∨ c = '1'

instance (l : Str) : Decidable (IsBin l) := by
  unfold IsBin; infer_instance

/-- Decimal digit character for `n < 10`. -/
def digitChar (n : Nat) : Char := Char.ofNat (48 + n)

/-- Fuel-driven decimal rendering of a natural number
(JS `String(n)`); `natToDec` supplies sufficient fuel. -/
def natToDecAux : Nat → Nat → Str
  | 0, _ => []
  | fuel + 1, n =>
    if n < 10 then [digitChar n]
    else natToDecAux fuel (n / 10) ++ [digitChar (n % 10)]

/-- Decimal rendering of a natural number, as JS `String(n)`. -/
def natToDec (n : Nat) : Str := natToDecAux (n + 1) n

/-- Lowercase hex digit character for `n < 16`. -/
def hexChar (n : Nat) : Char :=
  if n < 10 then digitChar n else Char.ofNat (87 + n)

/-- Fuel-driven lowercase hexadecimal rendering (JS `n.toString(16)`). -/
def natToHexAux : Nat → Nat → Str
  | 0, _ => []
  | fuel + 1, n =>
    if n < 16 then [hexChar n]
    else natToHexAux fuel (n / 16) ++ [hexChar (n % 16)]

/-- Lowercase hexadecimal rendering of a natural number. -/
def natToHex (n : Nat) : Str := natToHexAux (n + 1) n

/-- JS `String(i)` for an integer: decimal digits with a leading '-'
for negative values. -/
def intToDec (i : Int) : Str :=
  if i < 0 then '-' :: natToDec i.natAbs else natToDec i.toNat

/-- Decoder failures. The source throws plain strings; each
constructor corresponds to one family of throw sites in
`src/unnamed/part_000`, tagged with the error kinds of spec section 7,
and carries the dynamic data interpolated into the thrown message. -/
inductive DecErr where
  /-- `getBits`: "position error". -/
  | malformedField (pos : Nat × Nat)
  /-- `#convertBinToAsm`: "Invalid opcode". -/
  | invalidOpcode (opcode : Str)
  /-- handler lookup failures: "Detected X instruction but invalid ... field". -/
  | invalidFunct (opcodeName : Str)
  /-- `#decodeSYSTEM`: "Detected SYSTEM instruction but invalid funct12 field". -/
  | invalidFunct12
  /-- register checks: "Registers rd and rs1 should be 0". -/
  | nonZeroReserved
  /-- `#decodeOP_IMM`: "invalid shamt field for RV32I (out of range)". -/
  | shiftOutOfRange (opcodeName : Str) (shamt : Int)
  /-- `#decodeOP_IMM`: "shift instruction but invalid shtyp field". -/
  | badShtyp (opcodeName : Str)
  /-- `decMem`: "Invalid IO/Mem field". -/
  | invalidFence
  /-- `#convertBinToAsm`: "Detected RV64 instruction but configuration ISA set to RV32I". -/
  | isaMismatch (isa : Str)
  /-- unreachable states (JS would crash on an `undefined` mnemonic). -/
  | internalError
deriving DecidableEq

/-- The fragment record (`Frag` in `Instruction.js`, shape fixed by the
spec data model and its use throughout the decoder):
assembly token, binary slice, field name, memory-operand marker. -/
structure Frag where
  asm : Str
  bits : Str
  field : Str
  mem : Bool
deriving DecidableEq, Inhabited

/-- Modelled from the spec: the recognized `COPTS_ISA` options of
`Config.js` (not under `src/`): RV32I or RV64I. -/
inductive CoptsIsa where
  | RV32I
  | RV64I
deriving DecidableEq

/-- Decoder configuration: ISA profile and ABI-name toggle. -/
structure Config where
  ISA : CoptsIsa
  ABI : Bool
deriving DecidableEq

/-- A field descriptor: `(high_bit, width)` position plus display name. -/
structure FieldInfo where
  pos : Nat × Nat
  name : Str
deriving DecidableEq

/-- Modelled from the spec: the `FIELDS` table of `Constants.js` is not
under `src/`; positions are the bit layouts of spec section 6
(`(high_bit, width)`, bit 0 least significant), names follow the
spec's fragment examples (immediate field names start with `imm` as
required by the memory-operand rendering). -/
def FIELDS.opcode : FieldInfo := ⟨(6, 7), "opcode".toList⟩

def FIELDS.funct3 : FieldInfo := ⟨(14, 3), "funct3".toList⟩

def FIELDS.rd : FieldInfo := ⟨(11, 5), "rd".toList⟩

def FIELDS.rs1 : FieldInfo := ⟨(19, 5), "rs1".toList⟩

def FIELDS.rs2 : FieldInfo := ⟨(24, 5), "rs2".toList⟩

def FIELDS.r_funct5 : FieldInfo := ⟨(31, 5), "funct5".toList⟩

def FIELDS.r_funct7 : FieldInfo := ⟨(31, 7), "funct7".toList⟩

def FIELDS.r_aq : FieldInfo := ⟨(26, 1), "aq".toList⟩

def FIELDS.r_rl : FieldInfo := ⟨(25, 1), "rl".toList⟩

def FIELDS.r_fp_fmt : FieldInfo := ⟨(26, 2), "fmt".toList⟩

def FIELDS.i_imm_11_0 : FieldInfo := ⟨(31, 12), "imm[11:0]".toList⟩

def FIELDS.i_imm_4_0 : FieldInfo := ⟨(19, 5), "imm[4:0]".toList⟩

def FIELDS.i_shtyp : FieldInfo := ⟨(30, 1), "shtyp".toList⟩

def FIELDS.i_shamt : FieldInfo := ⟨(24, 5), "shamt[4:0]".toList⟩

def FIELDS.i_shamt_5 : FieldInfo := ⟨(25, 1), "shamt[5]".toList⟩

def FIELDS.i_shamt_5_0 : FieldInfo := ⟨(25, 6), "shamt[5:0]".toList⟩

def FIELDS.i_shtyp_11_5 : FieldInfo := ⟨(31, 7), "shtyp[11:5]".toList⟩

def FIELDS.i_shtyp_11_6 : FieldInfo := ⟨(31, 6), "shtyp[11:6]".toList⟩

def FIELDS.i_funct12 : FieldInfo := ⟨(31, 12), "funct12".toList⟩

def FIELDS.i_csr : FieldInfo := ⟨(31, 12), "csr".toList⟩

def FIELDS.i_fm : FieldInfo := ⟨(31, 4), "fm".toList⟩

def FIELDS.i_pred : FieldInfo := ⟨(27, 4), "pred".toList⟩

def FIELDS.i_succ : FieldInfo := ⟨(23, 4), "succ".toList⟩

def FIELDS.s_imm_11_5 : FieldInfo := ⟨(31, 7), "imm[11:5]".toList⟩

def FIELDS.s_imm_4_0 : FieldInfo := ⟨(11, 5), "imm[4:0]".toList⟩

def FIELDS.b_imm_12 : FieldInfo := ⟨(31, 1), "imm[12]".toList⟩

def FIELDS.b_imm_11 : FieldInfo := ⟨(7, 1), "imm[11]".toList⟩

def FIELDS.b_imm_10_5 : FieldInfo := ⟨(30, 6), "imm[10:5]".toList⟩

def FIELDS.b_imm_4_1 : FieldInfo := ⟨(11, 4), "imm[4:1]".toList⟩

def FIELDS.u_imm_31_12 : FieldInfo := ⟨(31, 20), "imm[31:12]".toList⟩

def FIELDS.j_imm_20 : FieldInfo := ⟨(31, 1), "imm[20]".toList⟩

def FIELDS.j_imm_10_1 : FieldInfo := ⟨(30, 10), "imm[10:1]".toList⟩

def FIELDS.j_imm_11 : FieldInfo := ⟨(20, 1), "imm[11]".toList⟩

def FIELDS.j_imm_19_12 : FieldInfo := ⟨(19, 8), "imm[19:12]".toList⟩

/-- Modelled from the spec: the `OPCODE` constants of `Constants.js`
are not under `src/`; values are the standard RISC-V major opcodes the
spec's handler list names. -/
def OPCODE.OP : Str := "0110011".toList

def OPCODE.OP_32 : Str := "0111011".toList

def OPCODE.OP_IMM : Str := "0010011".toList

def OPCODE.OP_IMM_32 : Str := "0011011".toList

def OPCODE.LOAD : Str := "0000011".toList

def OPCODE.LOAD_FP : Str := "0000111".toList

def OPCODE.STORE : Str := "0100011".toList

def OPCODE.STORE_FP : Str := "0100111".toList

def OPCODE.BRANCH : Str := "1100011".toList

def OPCODE.JALR : Str := "1100111".toList

def OPCODE.JAL : Str := "1101111".toList

def OPCODE.LUI : Str := "0110111".toList

def OPCODE.AUIPC : Str := "0010111".toList

def OPCODE.SYSTEM : Str := "1110011".toList

def OPCODE.MISC_MEM : Str := "0001111".toList

def OPCODE.AMO : Str := "0101111".toList

def OPCODE.OP_FP : Str := "1010011".toList

def OPCODE.MADD : Str := "1000011".toList

def OPCODE.MSUB : Str := "1000111".toList

def OPCODE.NMADD : Str := "1001011".toList

def OPCODE.NMSUB : Str := "1001111".toList

/-- JS `String.prototype.substring(a, b)`: both arguments are clamped
into `[0, length]` and swapped when out of order; returns the
characters in `[lo, hi)`. -/
def jsSubstring (l : Str) (a b : Int) : Str :=
  let n : Int := l.length
  let a' : Nat := (min (max a 0) n).toNat
  let b' : Nat := (min (max b 0) n).toNat
  (l.take (max a' b')).drop (min a' b')

/-- `getBits(binary, pos)` from the source: extract the bit slice at
`pos = (high_bit, width)`; "position error" when `start > end` or the
word is shorter than `end`. -/
def getBits (binary : Str) (pos : Nat × Nat) : Except DecErr Str :=
  let e : Int := pos.1 + 1
  let s : Int := e - pos.2
  if s > e ∨ (binary.length : Int) < e then
    .error (.malformedField pos)
  else
    .ok (jsSubstring binary ((binary.length : Int) - e) ((binary.length : Int) - s))

/-- The well-formed bit slice of a 32-character word:
bits `[high .. high-width+1]`, MSB first. -/
def slice (bin : Str) (high width : Nat) : Str :=
  (bin.drop (31 - high)).take width

/-- `decImm(immediate, signExtend)` from the source: parse binary text,
two's-complement when sign extension is requested and the MSB is '1'. -/
def decImm (immediate : Str) (signExtend : Bool) : Int :=
  if signExtend = true ∧ immediate.head? = some '1' then
    (binToNat immediate : Int) - ((2 ^ immediate.length : Nat) : Int)
  else
    (binToNat immediate : Int)

/-- `decReg(reg, floatReg)` from the source: 'x' (or 'f') followed by
the decimal register number. -/
def decReg (reg : Str) (floatReg : Bool) : Str :=
  (if floatReg then 'f' else 'x') :: natToDec (binToNat reg)

/-- `decMem(bits)` from the source: letters `i,o,r,w` for the set bits
of a fence mask, MSB to LSB (the source loops index-wise over at most
the four access letters; the mask arguments are always 4 bits wide);
an empty result is the "Invalid IO/Mem field" error. -/
def decMem (bits : Str) : Except DecErr Str :=
  let access : Str := ['i', 'o', 'r', 'w']
  let output := (bits.zip access).filterMap
    (fun p => if p.1 = '1' then some p.2 else none)
  if output = [] then .error .invalidFence else .ok output

/-- Modelled from the spec: the `CSR` name table of `Constants.js` is
not under `src/`; entries are the standard addresses of the CSR names
the spec lists (the table's exact extent does not affect the claims,
which only distinguish found from not-found addresses). -/
def CSR : List (Str × Nat) :=
  [("cycle".toList, 0xc00), ("time".toList, 0xc01), ("instret".toList, 0xc02),
   ("mstatus".toList, 0x300), ("misa".toList, 0x301), ("mtvec".toList, 0x305),
   ("mepc".toList, 0x341), ("mcause".toList, 0x342)]

/-- `decCSR(binStr)` from the source: the CSR name when the address is
in the table, otherwise '0x' plus the address in lowercase hex padded
to three digits. -/
def decCSR (binStr : Str) : Str :=
  let val := binToNat binStr
  match CSR.find? (fun e => e.2 == val) with
  | some e => e.1
  | none =>
      let ds := natToHex val
      '0' :: 'x' :: (List.replicate (3 - ds.length) '0' ++ ds)

/-- Lookup in an association table keyed by exact binary text
(JS object property access on the dispatch tables). -/
def tblLookup (tbl : List (Str × α)) (k : Str) : Option α :=
  (tbl.find? (fun e => e.1 == k)).map (fun e => e.2)

/-- A dispatch-table entry that is either a mnemonic or a nested
sub-table (spec section 9: tagged variant per table entry). -/
inductive TblEntry where
  | direct (mne : Str)
  | sub (tbl : List (Str × Str))
deriving DecidableEq

/-- Modelled from the spec: `ISA_OP` of `Constants.js` (not under
`src/`), keyed by `funct7 ‖ funct3`: the standard RV32I
register-register instructions plus the M extension. -/
def ISA_OP : List (Str × Str) :=
  [("0000000000".toList, "add".toList), ("0100000000".toList, "sub".toList),
   ("0000000001".toList, "sll".toList), ("0000000010".toList, "slt".toList),
   ("0000000011".toList, "sltu".toList), ("0000000100".toList, "xor".toList),
   ("0000000101".toList, "srl".toList), ("0100000101".toList, "sra".toList),
   ("0000000110".toList, "or".toList), ("0000000111".toList, "and".toList),
   ("0000001000".toList, "mul".toList), ("0000001001".toList, "mulh".toList),
   ("0000001010".toList, "mulhsu".toList), ("0000001011".toList, "mulhu".toList),
   ("0000001100".toList, "div".toList), ("0000001101".toList, "divu".toList),
   ("0000001110".toList, "rem".toList), ("0000001111".toList, "remu".toList)]

/-- Modelled from the spec: `ISA_OP_32` of `Constants.js`, keyed by
`funct7 ‖ funct3`: the RV64I word-sized register-register instructions. -/
def ISA_OP_32 : List (Str × Str) :=
  [("0000000000".toList, "addw".toList), ("0100000000".toList, "subw".toList),
   ("0000000001".toList, "sllw".toList), ("0000000101".toList, "srlw".toList),
   ("0100000101".toList, "sraw".toList),
   ("0000001000".toList, "mulw".toList), ("0000001100".toList, "divw".toList),
   ("0000001101".toList, "divuw".toList), ("0000001110".toList, "remw".toList),
   ("0000001111".toList, "remuw".toList)]

/-- Modelled from the spec: `ISA_OP_IMM` of `Constants.js`, keyed by
`funct3`, with a nested sub-table for the right-shift mnemonics keyed
by `shtyp`. -/
def ISA_OP_IMM : List (Str × TblEntry) :=
  [("000".toList, .direct "addi".toList), ("001".toList, .direct "slli".toList),
   ("010".toList, .direct "slti".toList), ("011".toList, .direct "sltiu".toList),
   ("100".toList, .direct "xori".toList),
   ("101".toList, .sub [("0".toList, "srli".toList), ("1".toList, "srai".toList)]),
   ("110".toList, .direct "ori".toList), ("111".toList, .direct "andi".toList)]

/-- Modelled from the spec: `ISA_OP_IMM_32` of `Constants.js`, keyed by
`funct3`, with a nested sub-table for the right-shift mnemonics. -/
def ISA_OP_IMM_32 : List (Str × TblEntry) :=
  [("000".toList, .direct "addiw".toList), ("001".toList, .direct "slliw".toList),
   ("101".toList, .sub [("0".toList, "srliw".toList), ("1".toList, "sraiw".toList)])]

/-- Modelled from the spec: `ISA_LOAD` of `Constants.js`, keyed by `funct3`. -/
def ISA_LOAD : List (Str × Str) :=
  [("000".toList, "lb".toList), ("001".toList, "lh".toList),
   ("010".toList, "lw".toList), ("011".toList, "ld".toList),
   ("100".toList, "lbu".toList), ("101".toList, "lhu".toList),
   ("110".toList, "lwu".toList)]

/-- Modelled from the spec: `ISA_LOAD_FP` of `Constants.js`, keyed by `funct3`. -/
def ISA_LOAD_FP : List (Str × Str) :=
  [("010".toList, "flw".toList), ("011".toList, "fld".toList)]

/-- Modelled from the spec: `ISA_STORE` of `Constants.js`, keyed by `funct3`. -/
def ISA_STORE : List (Str × Str) :=
  [("000".toList, "sb".toList), ("001".toList, "sh".toList),
   ("010".toList, "sw".toList), ("011".toList, "sd".toList)]

/-- Modelled from the spec: `ISA_STORE_FP` of `Constants.js`, keyed by `funct3`. -/
def ISA_STORE_FP : List (Str × Str) :=
  [("010".toList, "fsw".toList), ("011".toList, "fsd".toList)]

/-- Modelled from the spec: `ISA_BRANCH` of `Constants.js`, keyed by `funct3`. -/
def ISA_BRANCH : List (Str × Str) :=
  [("000".toList, "beq".toList), ("001".toList, "bne".toList),
   ("100".toList, "blt".toList), ("101".toList, "bge".toList),
   ("110".toList, "bltu".toList), ("111".toList, "bgeu".toList)]

/-- Modelled from the spec: `ISA_MISC_MEM` of `Constants.js`, keyed by `funct3`. -/
def ISA_MISC_MEM : List (Str × Str) :=
  [("000".toList, "fence".toList), ("001".toList, "fence.i".toList)]

/-- Modelled from the spec: `ISA_SYSTEM` of `Constants.js`, keyed by
`funct3`: the trap sub-table keyed by `funct12` at `funct3 = 000`,
otherwise the Zicsr mnemonics. -/
def ISA_SYSTEM : List (Str × TblEntry) :=
  [("000".toList, .sub [("000000000000".toList, "ecall".toList),
                        ("000000000001".toList, "ebreak".toList)]),
   ("001".toList, .direct "csrrw".toList), ("010".toList, .direct "csrrs".toList),
   ("011".toList, .direct "csrrc".toList), ("101".toList, .direct "csrrwi".toList),
   ("110".toList, .direct "csrrsi".toList), ("111".toList, .direct "csrrci".toList)]

/-- Modelled from the spec: `ISA_AMO` of `Constants.js`, keyed by
`funct5 ‖ funct3`: the A-extension instructions. -/
def ISA_AMO : List (Str × Str) :=
  [("00010010".toList, "lr.w".toList), ("00011010".toList, "sc.w".toList),
   ("00001010".toList, "amoswap.w".toList), ("00000010".toList, "amoadd.w".toList),
   ("00100010".toList, "amoxor.w".toList), ("01100010".toList, "amoand.w".toList),
   ("01000010".toList, "amoor.w".toList), ("10000010".toList, "amomin.w".toList),
   ("10100010".toList, "amomax.w".toList), ("11000010".toList, "amominu.w".toList),
   ("11100010".toList, "amomaxu.w".toList),
   ("00010011".toList, "lr.d".toList), ("00011011".toList, "sc.d".toList),
   ("00001011".toList, "amoswap.d".toList), ("00000011".toList, "amoadd.d".toList),
   ("00100011".toList, "amoxor.d".toList), ("01100011".toList, "amoand.d".toList),
   ("01000011".toList, "amoor.d".toList), ("10000011".toList, "amomin.d".toList),
   ("10100011".toList, "amomax.d".toList), ("11000011".toList, "amominu.d".toList),
   ("11100011".toList, "amomaxu.d".toList)]

/-- Modelled from the spec: `ISA_OP_FP` of `Constants.js`, keyed by
`funct5`, then by the two `fmt` bits, then either a mnemonic or a
sub-table keyed by `rs2` (conversions) or `funct3` (arithmetic);
a representative portion of the standard F/D tables (its exact extent
does not affect the claims, none of which concerns OP-FP). -/
def ISA_OP_FP : List (Str × List (Str × TblEntry)) :=
  [("00000".toList, [("00".toList, .direct "fadd.s".toList),
                     ("01".toList, .direct "fadd.d".toList)]),
   ("00001".toList, [("00".toList, .direct "fsub.s".toList),
                     ("01".toList, .direct "fsub.d".toList)]),
   ("00010".toList, [("00".toList, .direct "fmul.s".toList),
                     ("01".toList, .direct "fmul.d".toList)]),
   ("00011".toList, [("00".toList, .direct "fdiv.s".toList),
                     ("01".toList, .direct "fdiv.d".toList)]),
   ("01011".toList, [("00".toList, .direct "fsqrt.s".toList),
                     ("01".toList, .direct "fsqrt.d".toList)]),
   ("00100".toList, [("00".toList, .sub [("000".toList, "fsgnj.s".toList),
                                         ("001".toList, "fsgnjn.s".toList),
                                         ("010".toList, "fsgnjx.s".toList)]),
                     ("01".toList, .sub [("000".toList, "fsgnj.d".toList),
                                         ("001".toList, "fsgnjn.d".toList),
                                         ("010".toList, "fsgnjx.d".toList)])]),
   ("00101".toList, [("00".toList, .sub [("000".toList, "fmin.s".toList),
                                         ("001".toList, "fmax.s".toList)]),
                     ("01".toList, .sub [("000".toList, "fmin.d".toList),
                                         ("001".toList, "fmax.d".toList)])]),
   ("10100".toList, [("00".toList, .sub [("010".toList, "feq.s".toList),
                                         ("001".toList, "flt.s".toList),
                                         ("000".toList, "fle.s".toList)]),
                     ("01".toList, .sub [("010".toList, "feq.d".toList),
                                         ("001".toList, "flt.d".toList),
                                         ("000".toList, "fle.d".toList)])]),
   ("11000".toList, [("00".toList, .sub [("00000".toList, "fcvt.w.s".toList),
                                         ("00001".toList, "fcvt.wu.s".toList)]),
                     ("01".toList, .sub [("00000".toList, "fcvt.w.d".toList),
                                         ("00001".toList, "fcvt.wu.d".toList)])]),
   ("11010".toList, [("00".toList, .sub [("00000".toList, "fcvt.s.w".toList),
                                         ("00001".toList, "fcvt.s.wu".toList)]),
                     ("01".toList, .sub [("00000".toList, "fcvt.d.w".toList),
                                         ("00001".toList, "fcvt.d.wu".toList)])]),
   ("01000".toList, [("00".toList, .sub [("00001".toList, "fcvt.s.d".toList)]),
                     ("01".toList, .sub [("00000".toList, "fcvt.d.s".toList)])]),
   ("11100".toList, [("00".toList, .sub [("000".toList, "fmv.x.w".toList),
                                         ("001".toList, "fclass.s".toList)]),
                     ("01".toList, .sub [("001".toList, "fclass.d".toList)])]),
   ("11110".toList, [("00".toList, .direct "fmv.w.x".toList)])]

/-- Modelled from the spec: the R4-type dispatch tables of
`Constants.js`, keyed by the two `fmt` bits. -/
def ISA_MADD : List (Str × Str) :=
  [("00".toList, "fmadd.s".toList), ("01".toList, "fmadd.d".toList)]

/-- Modelled from the spec: `ISA_MSUB`, keyed by the two `fmt` bits. -/
def ISA_MSUB : List (Str × Str) :=
  [("00".toList, "fmsub.s".toList), ("01".toList, "fmsub.d".toList)]

/-- Modelled from the spec: `ISA_NMADD`, keyed by the two `fmt` bits. -/
def ISA_NMADD : List (Str × Str) :=
  [("00".toList, "fnmadd.s".toList), ("01".toList, "fnmadd.d".toList)]

/-- Modelled from the spec: `ISA_NMSUB`, keyed by the two `fmt` bits. -/
def ISA_NMSUB : List (Str × Str) :=
  [("00".toList, "fnmsub.s".toList), ("01".toList, "fnmsub.d".toList)]

/-- One entry of the global mnemonic table `ISA`: format tag, ISA tag,
and the fixed fields the decoder consults (`funct3` for `slli` and the
rounding-mode decision, `rs2` for the OP-FP operand-count decision). -/
structure IsaEntry where
  fmt : Str
  isa : Str
  funct3 : Option Str
  rs2 : Option Str
deriving DecidableEq

/-- Abbreviation for a table entry with no fixed `funct3`/`rs2`. -/
def mkIsa (fmt isa : String) : IsaEntry :=
  ⟨fmt.toList, isa.toList, none, none⟩

/-- Entry with a fixed `funct3`. -/
def mkIsaF3 (fmt isa f3 : String) : IsaEntry :=
  ⟨fmt.toList, isa.toList, some f3.toList, none⟩

/-- Entry with fixed `funct3` and `rs2`. -/
def mkIsaF3Rs2 (fmt isa f3 r2 : String) : IsaEntry :=
  ⟨fmt.toList, isa.toList, some f3.toList, some r2.toList⟩

/-- Entry with a fixed `rs2`. -/
def mkIsaRs2 (fmt isa r2 : String) : IsaEntry :=
  ⟨fmt.toList, isa.toList, none, some r2.toList⟩

/-- Modelled from the spec: the global mnemonic table `ISA` of
`Constants.js` (not under `src/`): for each mnemonic its format and
ISA tags per spec sections 4.2 and 6, with the fixed `funct3`/`rs2`
values the decoder consults. -/
def ISA : List (Str × IsaEntry) :=
  [("add".toList, mkIsaF3 "R-type" "RV32I" "000"),
   ("sub".toList, mkIsaF3 "R-type" "RV32I" "000"),
   ("sll".toList, mkIsaF3 "R-type" "RV32I" "001"),
   ("slt".toList, mkIsaF3 "R-type" "RV32I" "010"),
   ("sltu".toList, mkIsaF3 "R-type" "RV32I" "011"),
   ("xor".toList, mkIsaF3 "R-type" "RV32I" "100"),
   ("srl".toList, mkIsaF3 "R-type" "RV32I" "101"),
   ("sra".toList, mkIsaF3 "R-type" "RV32I" "101"),
   ("or".toList, mkIsaF3 "R-type" "RV32I" "110"),
   ("and".toList, mkIsaF3 "R-type" "RV32I" "111"),
   ("mul".toList, mkIsaF3 "R-type" "EXT_M" "000"),
   ("mulh".toList, mkIsaF3 "R-type" "EXT_M" "001"),
   ("mulhsu".toList, mkIsaF3 "R-type" "EXT_M" "010"),
   ("mulhu".toList, mkIsaF3 "R-type" "EXT_M" "011"),
   ("div".toList, mkIsaF3 "R-type" "EXT_M" "100"),
   ("divu".toList, mkIsaF3 "R-type" "EXT_M" "101"),
   ("rem".toList, mkIsaF3 "R-type" "EXT_M" "110"),
   ("remu".toList, mkIsaF3 "R-type" "EXT_M" "111"),
   ("addw".toList, mkIsaF3 "R-type" "RV64I" "000"),
   ("subw".toList, mkIsaF3 "R-type" "RV64I" "000"),
   ("sllw".toList, mkIsaF3 "R-type" "RV64I" "001"),
   ("srlw".toList, mkIsaF3 "R-type" "RV64I" "101"),
   ("sraw".toList, mkIsaF3 "R-type" "RV64I" "101"),
   ("mulw".toList, mkIsaF3 "R-type" "RV64M" "000"),
   ("divw".toList, mkIsaF3 "R-type" "RV64M" "100"),
   ("divuw".toList, mkIsaF3 "R-type" "RV64M" "101"),
   ("remw".toList, mkIsaF3 "R-type" "RV64M" "110"),
   ("remuw".toList, mkIsaF3 "R-type" "RV64M" "111"),
   ("addi".toList, mkIsaF3 "I-type" "RV32I" "000"),
   ("slti".toList, mkIsaF3 "I-type" "RV32I" "010"),
   ("sltiu".toList, mkIsaF3 "I-type" "RV32I" "011"),
   ("xori".toList, mkIsaF3 "I-type" "RV32I" "100"),
   ("ori".toList, mkIsaF3 "I-type" "RV32I" "110"),
   ("andi".toList, mkIsaF3 "I-type" "RV32I" "111"),
   ("slli".toList, mkIsaF3 "I-type" "RV32I" "001"),
   ("srli".toList, mkIsaF3 "I-type" "RV32I" "101"),
   ("srai".toList, mkIsaF3 "I-type" "RV32I" "101"),
   ("addiw".toList, mkIsaF3 "I-type" "RV64I" "000"),
   ("slliw".toList, mkIsaF3 "I-type" "RV64I" "001"),
   ("srliw".toList, mkIsaF3 "I-type" "RV64I" "101"),
   ("sraiw".toList, mkIsaF3 "I-type" "RV64I" "101"),
   ("jalr".toList, mkIsaF3 "I-type" "RV32I" "000"),
   ("lb".toList, mkIsaF3 "I-type" "RV32I" "000"),
   ("lh".toList, mkIsaF3 "I-type" "RV32I" "001"),
   ("lw".toList, mkIsaF3 "I-type" "RV32I" "010"),
   ("ld".toList, mkIsaF3 "I-type" "RV64I" "011"),
   ("lbu".toList, mkIsaF3 "I-type" "RV32I" "100"),
   ("lhu".toList, mkIsaF3 "I-type" "RV32I" "101"),
   ("lwu".toList, mkIsaF3 "I-type" "RV64I" "110"),
   ("flw".toList, mkIsaF3 "I-type" "EXT_F" "010"),
   ("fld".toList, mkIsaF3 "I-type" "EXT_D" "011"),
   ("sb".toList, mkIsaF3 "S-type" "RV32I" "000"),
   ("sh".toList, mkIsaF3 "S-type" "RV32I" "001"),
   ("sw".toList, mkIsaF3 "S-type" "RV32I" "010"),
   ("sd".toList, mkIsaF3 "S-type" "RV64I" "011"),
   ("fsw".toList, mkIsaF3 "S-type" "EXT_F" "010"),
   ("fsd".toList, mkIsaF3 "S-type" "EXT_D" "011"),
   ("beq".toList, mkIsaF3 "B-type" "RV32I" "000"),
   ("bne".toList, mkIsaF3 "B-type" "RV32I" "001"),
   ("blt".toList, mkIsaF3 "B-type" "RV32I" "100"),
   ("bge".toList, mkIsaF3 "B-type" "RV32I" "101"),
   ("bltu".toList, mkIsaF3 "B-type" "RV32I" "110"),
   ("bgeu".toList, mkIsaF3 "B-type" "RV32I" "111"),
   ("lui".toList, mkIsa "U-type" "RV32I"),
   ("auipc".toList, mkIsa "U-type" "RV32I"),
   ("jal".toList, mkIsa "J-type" "RV32I"),
   ("fence".toList, mkIsaF3 "I-type" "RV32I" "000"),
   ("fence.i".toList, mkIsaF3 "I-type" "EXT_Zifencei" "001"),
   ("ecall".toList, mkIsaF3 "I-type" "RV32I" "000"),
   ("ebreak".toList, mkIsaF3 "I-type" "RV32I" "000"),
   ("csrrw".toList, mkIsaF3 "I-type" "EXT_Zicsr" "001"),
   ("csrrs".toList, mkIsaF3 "I-type" "EXT_Zicsr" "010"),
   ("csrrc".toList, mkIsaF3 "I-type" "EXT_Zicsr" "011"),
   ("csrrwi".toList, mkIsaF3 "I-type" "EXT_Zicsr" "101"),
   ("csrrsi".toList, mkIsaF3 "I-type" "EXT_Zicsr" "110"),
   ("csrrci".toList, mkIsaF3 "I-type" "EXT_Zicsr" "111"),
   ("lr.w".toList, mkIsaF3Rs2 "R-type" "EXT_A" "010" "00000"),
   ("sc.w".toList, mkIsaF3 "R-type" "EXT_A" "010"),
   ("amoswap.w".toList, mkIsaF3 "R-type" "EXT_A" "010"),
   ("amoadd.w".toList, mkIsaF3 "R-type" "EXT_A" "010"),
   ("amoxor.w".toList, mkIsaF3 "R-type" "EXT_A" "010"),
   ("amoand.w".toList, mkIsaF3 "R-type" "EXT_A" "010"),
   ("amoor.w".toList, mkIsaF3 "R-type" "EXT_A" "010"),
   ("amomin.w".toList, mkIsaF3 "R-type" "EXT_A" "010"),
   ("amomax.w".toList, mkIsaF3 "R-type" "EXT_A" "010"),
   ("amominu.w".toList, mkIsaF3 "R-type" "EXT_A" "010"),
   ("amomaxu.w".toList, mkIsaF3 "R-type" "EXT_A" "010"),
   ("lr.d".toList, mkIsaF3Rs2 "R-type" "EXT_A" "011" "00000"),
   ("sc.d".toList, mkIsaF3 "R-type" "EXT_A" "011"),
   ("amoswap.d".toList, mkIsaF3 "R-type" "EXT_A" "011"),
   ("amoadd.d".toList, mkIsaF3 "R-type" "EXT_A" "011"),
   ("amoxor.d".toList, mkIsaF3 "R-type" "EXT_A" "011"),
   ("amoand.d".toList, mkIsaF3 "R-type" "EXT_A" "011"),
   ("amoor.d".toList, mkIsaF3 "R-type" "EXT_A" "011"),
   ("amomin.d".toList, mkIsaF3 "R-type" "EXT_A" "011"),
   ("amomax.d".toList, mkIsaF3 "R-type" "EXT_A" "011"),
   ("amominu.d".toList, mkIsaF3 "R-type" "EXT_A" "011"),
   ("amomaxu.d".toList, mkIsaF3 "R-type" "EXT_A" "011"),
   ("fadd.s".toList, mkIsa "R-type" "EXT_F"),
   ("fsub.s".toList, mkIsa "R-type" "EXT_F"),
   ("fmul.s".toList, mkIsa "R-type" "EXT_F"),
   ("fdiv.s".toList, mkIsa "R-type" "EXT_F"),
   ("fsqrt.s".toList, mkIsaRs2 "R-type" "EXT_F" "00000"),
   ("fsgnj.s".toList, mkIsaF3 "R-type" "EXT_F" "000"),
   ("fsgnjn.s".toList, mkIsaF3 "R-type" "EXT_F" "001"),
   ("fsgnjx.s".toList, mkIsaF3 "R-type" "EXT_F" "010"),
   ("fmin.s".toList, mkIsaF3 "R-type" "EXT_F" "000"),
   ("fmax.s".toList, mkIsaF3 "R-type" "EXT_F" "001"),
   ("feq.s".toList, mkIsaF3 "R-type" "EXT_F" "010"),
   ("flt.s".toList, mkIsaF3 "R-type" "EXT_F" "001"),
   ("fle.s".toList, mkIsaF3 "R-type" "EXT_F" "000"),
   ("fcvt.w.s".toList, mkIsaRs2 "R-type" "EXT_F" "00000"),
   ("fcvt.wu.s".toList, mkIsaRs2 "R-type" "EXT_F" "00001"),
   ("fcvt.s.w".toList, mkIsaRs2 "R-type" "EXT_F" "00000"),
   ("fcvt.s.wu".toList, mkIsaRs2 "R-type" "EXT_F" "00001"),
   ("fcvt.s.d".toList, mkIsaRs2 "R-type" "EXT_D" "00001"),
   ("fcvt.d.s".toList, mkIsaRs2 "R-type" "EXT_D" "00000"),
   ("fmv.x.w".toList, mkIsaF3Rs2 "R-type" "EXT_F" "000" "00000"),
   ("fmv.w.x".toList, mkIsaF3Rs2 "R-type" "EXT_F" "000" "00000"),
   ("fclass.s".toList, mkIsaF3Rs2 "R-type" "EXT_F" "001" "00000"),
   ("fadd.d".toList, mkIsa "R-type" "EXT_D"),
   ("fsub.d".toList, mkIsa "R-type" "EXT_D"),
   ("fmul.d".toList, mkIsa "R-type" "EXT_D"),
   ("fdiv.d".toList, mkIsa "R-type" "EXT_D"),
   ("fsqrt.d".toList, mkIsaRs2 "R-type" "EXT_D" "00000"),
   ("fsgnj.d".toList, mkIsaF3 "R-type" "EXT_D" "000"),
   ("fsgnjn.d".toList, mkIsaF3 "R-type" "EXT_D" "001"),
   ("fsgnjx.d".toList, mkIsaF3 "R-type" "EXT_D" "010"),
   ("fmin.d".toList, mkIsaF3 "R-type" "EXT_D" "000"),
   ("fmax.d".toList, mkIsaF3 "R-type" "EXT_D" "001"),
   ("feq.d".toList, mkIsaF3 "R-type" "EXT_D" "010"),
   ("flt.d".toList, mkIsaF3 "R-type" "EXT_D" "001"),
   ("fle.d".toList, mkIsaF3 "R-type" "EXT_D" "000"),
   ("fcvt.w.d".toList, mkIsaRs2 "R-type" "EXT_D" "00000"),
   ("fcvt.wu.d".toList, mkIsaRs2 "R-type" "EXT_D" "00001"),
   ("fcvt.d.w".toList, mkIsaRs2 "R-type" "EXT_D" "00000"),
   ("fcvt.d.wu".toList, mkIsaRs2 "R-type" "EXT_D" "00001"),
   ("fclass.d".toList, mkIsaF3Rs2 "R-type" "EXT_D" "001" "00000"),
   ("fmadd.s".toList, mkIsa "R4-type" "EXT_F"),
   ("fmsub.s".toList, mkIsa "R4-type" "EXT_F"),
   ("fnmadd.s".toList, mkIsa "R4-type" "EXT_F"),
   ("fnmsub.s".toList, mkIsa "R4-type" "EXT_F"),
   ("fmadd.d".toList, mkIsa "R4-type" "EXT_D"),
   ("fmsub.d".toList, mkIsa "R4-type" "EXT_D"),
   ("fnmadd.d".toList, mkIsa "R4-type" "EXT_D"),
   ("fnmsub.d".toList, mkIsa "R4-type" "EXT_D")]

/-- The fixed `funct3` the source reads off the `slli` entry
(`ISA['slli'].funct3`). -/
def ISA_slli_funct3 : Str :=
  ((tblLookup ISA "slli".toList).bind (fun e => e.funct3)).getD []

/-- The fields `extractRFields` reads from an R-type word. -/
structure RFields where
  rs2 : Str
  rs1 : Str
  funct3 : Str
  rd : Str
  funct5 : Str
  funct7 : Str
  aq : Str
  rl : Str
  fmt : Str

/-- `extractRFields(binary)` from the source. -/
def extractRFields (binary : Str) : Except DecErr RFields := do
  let rs2 ← getBits binary FIELDS.rs2.pos
  let rs1 ← getBits binary FIELDS.rs1.pos
  let funct3 ← getBits binary FIELDS.funct3.pos
  let rd ← getBits binary FIELDS.rd.pos
  let funct5 ← getBits binary FIELDS.r_funct5.pos
  let funct7 ← getBits binary FIELDS.r_funct7.pos
  let aq ← getBits binary FIELDS.r_aq.pos
  let rl ← getBits binary FIELDS.r_rl.pos
  let fmt ← getBits binary FIELDS.r_fp_fmt.pos
  return ⟨rs2, rs1, funct3, rd, funct5, funct7, aq, rl, fmt⟩

/-- The fields `extractIFields` reads from an I-type word. -/
structure IFields where
  imm : Str
  rs1 : Str
  funct3 : Str
  rd : Str
  shtyp : Str
  shamt : Str
  shamt_5 : Str
  funct12 : Str
  fm : Str
  pred : Str
  succ : Str

/-- `extractIFields(binary)` from the source. -/
def extractIFields (binary : Str) : Except DecErr IFields := do
  let imm ← getBits binary FIELDS.i_imm_11_0.pos
  let rs1 ← getBits binary FIELDS.rs1.pos
  let funct3 ← getBits binary FIELDS.funct3.pos
  let rd ← getBits binary FIELDS.rd.pos
  let shtyp ← getBits binary FIELDS.i_shtyp.pos
  let shamt ← getBits binary FIELDS.i_shamt.pos
  let shamt_5 ← getBits binary FIELDS.i_shamt_5.pos
  let funct12 ← getBits binary FIELDS.i_funct12.pos
  let fm ← getBits binary FIELDS.i_fm.pos
  let pred ← getBits binary FIELDS.i_pred.pos
  let succ ← getBits binary FIELDS.i_succ.pos
  return ⟨imm, rs1, funct3, rd, shtyp, shamt, shamt_5, funct12, fm, pred, succ⟩

/-- The fields `extractSFields` reads from an S-type word. -/
structure SFields where
  imm_11_5 : Str
  rs2 : Str
  rs1 : Str
  funct3 : Str
  imm_4_0 : Str

/-- `extractSFields(binary)` from the source. -/
def extractSFields (binary : Str) : Except DecErr SFields := do
  let imm_11_5 ← getBits binary FIELDS.s_imm_11_5.pos
  let rs2 ← getBits binary FIELDS.rs2.pos
  let rs1 ← getBits binary FIELDS.rs1.pos
  let funct3 ← getBits binary FIELDS.funct3.pos
  let imm_4_0 ← getBits binary FIELDS.s_imm_4_0.pos
  return ⟨imm_11_5, rs2, rs1, funct3, imm_4_0⟩

/-- The fields `extractBFields` reads from a B-type word. -/
structure BFields where
  imm_12 : Str
  imm_10_5 : Str
  rs2 : Str
  rs1 : Str
  funct3 : Str
  imm_4_1 : Str
  imm_11 : Str

/-- `extractBFields(binary)` from the source. -/
def extractBFields (binary : Str) : Except DecErr BFields := do
  let imm_12 ← getBits binary FIELDS.b_imm_12.pos
  let imm_10_5 ← getBits binary FIELDS.b_imm_10_5.pos
  let rs2 ← getBits binary FIELDS.rs2.pos
  let rs1 ← getBits binary FIELDS.rs1.pos
  let funct3 ← getBits binary FIELDS.funct3.pos
  let imm_4_1 ← getBits binary FIELDS.b_imm_4_1.pos
  let imm_11 ← getBits binary FIELDS.b_imm_11.pos
  return ⟨imm_12, imm_10_5, rs2, rs1, funct3, imm_4_1, imm_11⟩

/-- What a format handler produces: the mnemonic, the handler-assigned
ISA override (`this.isa`, set only by the shift decode), and the two
fragment lists. -/
structure DecRes where
  mne : Str
  isaOv : Option Str
  asmFrags : List Frag
  binFrags : List Frag
deriving DecidableEq

/-- `#decodeOP` from the source: OP / OP-32 register-register decode. -/
def decodeOP (bin : Str) (opcode : Str) : Except DecErr DecRes := do
  let fields ← extractRFields bin
  let funct7 := fields.funct7
  let funct3 := fields.funct3
  let rs2 := fields.rs2
  let rs1 := fields.rs1
  let rd := fields.rd
  let op_32 := opcode == OPCODE.OP_32
  let opcodeName := if op_32 then "OP-32".toList else "OP".toList
  let mne? := if op_32 then tblLookup ISA_OP_32 (funct7 ++ funct3)
              else tblLookup ISA_OP (funct7 ++ funct3)
  match mne? with
  | none => .error (.invalidFunct opcodeName)
  | some mne =>
    let src1 := decReg rs1 false
    let src2 := decReg rs2 false
    let dest := decReg rd false
    let fOpcode : Frag := ⟨mne, opcode, FIELDS.opcode.name, false⟩
    let fFunct3 : Frag := ⟨mne, funct3, FIELDS.funct3.name, false⟩
    let fFunct7 : Frag := ⟨mne, funct7, FIELDS.r_funct7.name, false⟩
    let fRd : Frag := ⟨dest, rd, FIELDS.rd.name, false⟩
    let fRs1 : Frag := ⟨src1, rs1, FIELDS.rs1.name, false⟩
    let fRs2 : Frag := ⟨src2, rs2, FIELDS.rs2.name, false⟩
    return ⟨mne, none,
      [fOpcode, fRd, fRs1, fRs2],
      [fFunct7, fRs2, fRs1, fFunct3, fRd, fOpcode]⟩

/-- `#decodeOP_FP` from the source: floating-point R-type decode with
up to three nested lookups and funct5-driven int/float register
selection. -/
def decodeOP_FP (bin : Str) (opcode : Str) : Except DecErr DecRes := do
  let fields ← extractRFields bin
  let funct5 := fields.funct5
  let funct3 := fields.funct3
  let fmt := fields.fmt
  let rs2 := fields.rs2
  let rs1 := fields.rs1
  let rd := fields.rd
  let entry? := (tblLookup ISA_OP_FP funct5).bind (fun t => tblLookup t fmt)
  let mne? := match entry? with
    | none => none
    | some (.direct mne) => some mne
    | some (.sub t) =>
      match tblLookup t rs2 with
      | some mne => some mne
      | none => tblLookup t funct3
  match mne? with
  | none => .error (.invalidFunct "OP-FP".toList)
  | some mne =>
    match tblLookup ISA mne with
    | none => .error .internalError
    | some inst =>
      let useRs2 := inst.rs2 == none
      let floatRd := !(funct5.head? == some '1' && !(funct5.get? 3 == some '1'))
      let floatRs1 := !(funct5.head? == some '1' && funct5.get? 3 == some '1')
      let src1 := decReg rs1 floatRs1
      let src2 := decReg rs2 true
      let dest := decReg rd floatRd
      let useRm := inst.funct3 == none
      let fOpcode : Frag := ⟨mne, opcode, FIELDS.opcode.name, false⟩
      let fFunct3 : Frag := ⟨mne, funct3,
        if useRm then "rm".toList else FIELDS.funct3.name, false⟩
      let fFunct5 : Frag := ⟨mne, funct5, FIELDS.r_funct5.name, false⟩
      let fFmt : Frag := ⟨mne, fmt, FIELDS.r_fp_fmt.name, false⟩
      let fRd : Frag := ⟨dest, rd, FIELDS.rd.name, false⟩
      let fRs1 : Frag := ⟨src1, rs1, FIELDS.rs1.name, false⟩
      let fRs2 : Frag := ⟨src2, rs2, FIELDS.rs2.name, false⟩
      return ⟨mne, none,
        [fOpcode, fRd, fRs1] ++ (if useRs2 then [fRs2] else []),
        [fFunct5, fFmt, fRs2, fRs1, fFunct3, fRd, fOpcode]⟩

/-- `#decodeJALR` from the source. -/
def decodeJALR (bin : Str) (opcode : Str) : Except DecErr DecRes := do
  let fields ← extractIFields bin
  let imm := fields.imm
  let rs1 := fields.rs1
  let funct3 := fields.funct3
  let rd := fields.rd
  let mne := "jalr".toList
  let base := decReg rs1 false
  let dest := decReg rd false
  let offset := decImm imm true
  let fOpcode : Frag := ⟨mne, opcode, FIELDS.opcode.name, false⟩
  let fFunct3 : Frag := ⟨mne, funct3, FIELDS.funct3.name, false⟩
  let fRd : Frag := ⟨dest, rd, FIELDS.rd.name, false⟩
  let fRs1 : Frag := ⟨base, rs1, FIELDS.rs1.name, false⟩
  let fImm : Frag := ⟨intToDec offset, imm, FIELDS.i_imm_11_0.name, false⟩
  return ⟨mne, none,
    [fOpcode, fRd, fRs1, fImm],
    [fImm, fRs1, fFunct3, fRd, fOpcode]⟩

/-- `#decodeLOAD` from the source: LOAD / LOAD-FP decode; the base
register fragment is a memory operand. -/
def decodeLOAD (bin : Str) (opcode : Str) : Except DecErr DecRes := do
  let fields ← extractIFields bin
  let imm := fields.imm
  let rs1 := fields.rs1
  let funct3 := fields.funct3
  let rd := fields.rd
  let floatInst := opcode == OPCODE.LOAD_FP
  let mne? := if floatInst then tblLookup ISA_LOAD_FP funct3
              else tblLookup ISA_LOAD funct3
  match mne? with
  | none => .error (.invalidFunct
      (if floatInst then "LOAD-FP".toList else "LOAD".toList))
  | some mne =>
    let base := decReg rs1 false
    let dest := decReg rd floatInst
    let offset := decImm imm true
    let fOpcode : Frag := ⟨mne, opcode, FIELDS.opcode.name, false⟩
    let fFunct3 : Frag := ⟨mne, funct3, FIELDS.funct3.name, false⟩
    let fRd : Frag := ⟨dest, rd, FIELDS.rd.name, false⟩
    let fRs1 : Frag := ⟨base, rs1, FIELDS.rs1.name, true⟩
    let fImm : Frag := ⟨intToDec offset, imm, FIELDS.i_imm_11_0.name, false⟩
    return ⟨mne, none,
      [fOpcode, fRd, fImm, fRs1],
      [fImm, fRs1, fFunct3, fRd, fOpcode]⟩

/-- `#decodeOP_IMM` from the source: OP-IMM / OP-IMM-32 decode,
including the shift-amount width logic. -/
def decodeOP_IMM (bin : Str) (opcode : Str) (cfg : Config) :
    Except DecErr DecRes := do
  let fields ← extractIFields bin
  let imm := fields.imm
  let rs1 := fields.rs1
  let funct3 := fields.funct3
  let rd := fields.rd
  let op_imm_32 := opcode == OPCODE.OP_IMM_32
  let opcodeName := if op_imm_32 then "OP-IMM-32".toList else "OP-IMM".toList
  let entry? := if op_imm_32 then tblLookup ISA_OP_IMM_32 funct3
                else tblLookup ISA_OP_IMM funct3
  match entry? with
  | none => .error (.invalidFunct opcodeName)
  | some entry =>
    let shiftMne : Bool × Option Str := match entry with
      | .sub t => (true, tblLookup t fields.shtyp)
      | .direct mne => (funct3 == ISA_slli_funct3, some mne)
    match shiftMne.2 with
    | none => .error .internalError
    | some mne =>
      let src := decReg rs1 false
      let dest := decReg rd false
      let fOpcode : Frag := ⟨mne, opcode, FIELDS.opcode.name, false⟩
      let fFunct3 : Frag := ⟨mne, funct3, FIELDS.funct3.name, false⟩
      let fRd : Frag := ⟨dest, rd, FIELDS.rd.name, false⟩
      let fRs1 : Frag := ⟨src, rs1, FIELDS.rs1.name, false⟩
      if shiftMne.1 then
        let shtyp := fields.shtyp
        let shamt_4_0 := fields.shamt
        let shamt_5 := fields.shamt_5
        let imm_11_6 := '0' :: shtyp ++ "0000".toList
        let imm_11_5 := imm_11_6 ++ ['0']
        let shamt_64 := !op_imm_32 &&
          (cfg.ISA == CoptsIsa.RV64I || shamt_5 == ['1'])
        if shamt_64 then
          let shamt_5_0 := shamt_5 ++ shamt_4_0
          let shamt := decImm shamt_5_0 false
          if cfg.ISA == CoptsIsa.RV32I then
            .error (.shiftOutOfRange opcodeName shamt)
          else if imm_11_6 ≠ imm.take 6 then
            .error (.badShtyp opcodeName)
          else
            let fImm : Frag := ⟨intToDec shamt, shamt_5_0, FIELDS.i_shamt_5_0.name, false⟩
            let fShift : Frag := ⟨mne, imm_11_6, FIELDS.i_shtyp_11_6.name, false⟩
            return ⟨mne, some "RV64I".toList,
              [fOpcode, fRd, fRs1, fImm],
              [fShift, fImm, fRs1, fFunct3, fRd, fOpcode]⟩
        else
          if imm_11_5 ≠ imm.take 7 then
            .error (.badShtyp opcodeName)
          else
            let shamt := decImm shamt_4_0 false
            let fImm : Frag := ⟨intToDec shamt, shamt_4_0, FIELDS.i_shamt.name, false⟩
            let fShift : Frag := ⟨mne, imm_11_5, FIELDS.i_shtyp_11_5.name, false⟩
            return ⟨mne, none,
              [fOpcode, fRd, fRs1, fImm],
              [fShift, fImm, fRs1, fFunct3, fRd, fOpcode]⟩
      else
        let immediate := decImm imm true
        let fImm : Frag := ⟨intToDec immediate, imm, FIELDS.i_imm_11_0.name, false⟩
        return ⟨mne, none,
          [fOpcode, fRd, fRs1, fImm],
          [fImm, fRs1, fFunct3, fRd, fOpcode]⟩

/-- `#decodeMISC_MEM` from the source: `fence` / `fence.i`; both
require zero `rd` and `rs1`. -/
def decodeMISC_MEM (bin : Str) (opcode : Str) : Except DecErr DecRes := do
  let fields ← extractIFields bin
  let imm := fields.imm
  let fm := fields.fm
  let pred := fields.pred
  let succ := fields.succ
  let rs1 := fields.rs1
  let funct3 := fields.funct3
  let rd := fields.rd
  match tblLookup ISA_MISC_MEM funct3 with
  | none => .error (.invalidFunct "LOAD".toList)
  | some mne =>
    if rd ≠ "00000".toList ∨ rs1 ≠ "00000".toList then
      .error .nonZeroReserved
    else
      let fOpcode : Frag := ⟨mne, opcode, FIELDS.opcode.name, false⟩
      let fFunct3 : Frag := ⟨mne, funct3, FIELDS.funct3.name, false⟩
      let fRd : Frag := ⟨mne, rd, FIELDS.rd.name, false⟩
      let fRs1 : Frag := ⟨mne, rs1, FIELDS.rs1.name, false⟩
      if mne == "fence".toList then do
        let predecessor ← decMem pred
        let successor ← decMem succ
        let fFm : Frag := ⟨mne, fm, FIELDS.i_fm.name, false⟩
        let fPred : Frag := ⟨predecessor, pred, FIELDS.i_pred.name, false⟩
        let fSucc : Frag := ⟨successor, succ, FIELDS.i_succ.name, false⟩
        return ⟨mne, none,
          [fOpcode, fPred, fSucc],
          [fFm, fPred, fSucc, fRs1, fFunct3, fRd, fOpcode]⟩
      else
        let fImm : Frag := ⟨mne, imm, FIELDS.i_imm_11_0.name, false⟩
        return ⟨mne, none,
          [fOpcode],
          [fImm, fRs1, fFunct3, fRd, fOpcode]⟩

/-- `#decodeSYSTEM` from the source: trap instructions on
`funct3 = 000` (dispatch on funct12, zero registers required),
otherwise the Zicsr decode with funct3-MSB-driven register/immediate
source operand. -/
def decodeSYSTEM (bin : Str) (opcode : Str) : Except DecErr DecRes := do
  let fields ← extractIFields bin
  let funct12 := fields.imm
  let rs1 := fields.rs1
  let funct3 := fields.funct3
  let rd := fields.rd
  match tblLookup ISA_SYSTEM funct3 with
  | none => .error (.invalidFunct "SYSTEM".toList)
  | some entry =>
    match entry with
    | .sub t =>
      match tblLookup t funct12 with
      | none => .error .invalidFunct12
      | some mne =>
        if rd ≠ "00000".toList ∨ rs1 ≠ "00000".toList then
          .error .nonZeroReserved
        else
          let fOpcode : Frag := ⟨mne, opcode, FIELDS.opcode.name, false⟩
          let fFunct3 : Frag := ⟨mne, funct3, FIELDS.funct3.name, false⟩
          let fRd : Frag := ⟨mne, rd, FIELDS.rd.name, false⟩
          let fRs1 : Frag := ⟨mne, rs1, FIELDS.rs1.name, false⟩
          let fFunct12 : Frag := ⟨mne, funct12, FIELDS.i_funct12.name, false⟩
          return ⟨mne, none,
            [fOpcode],
            [fFunct12, fRs1, fFunct3, fRd, fOpcode]⟩
    | .direct mne =>
      let csrBin := funct12
      let dest := decReg rd false
      let csr := decCSR csrBin
      let srcField : Str × Str :=
        if funct3.head? = some '0' then
          (decReg rs1 false, FIELDS.rs1.name)
        else
          (intToDec (decImm rs1 false), FIELDS.i_imm_4_0.name)
      let fOpcode : Frag := ⟨mne, opcode, FIELDS.opcode.name, false⟩
      let fFunct3 : Frag := ⟨mne, funct3, FIELDS.funct3.name, false⟩
      let fRd : Frag := ⟨dest, rd, FIELDS.rd.name, false⟩
      let fCsr : Frag := ⟨csr, csrBin, FIELDS.i_csr.name, false⟩
      let fRs1 : Frag := ⟨srcField.1, rs1, srcField.2, false⟩
      return ⟨mne, none,
        [fOpcode, fRd, fCsr, fRs1],
        [fCsr, fRs1, fFunct3, fRd, fOpcode]⟩

/-- `#decodeSTORE` from the source: STORE / STORE-FP decode. -/
def decodeSTORE (bin : Str) (opcode : Str) : Except DecErr DecRes := do
  let fields ← extractSFields bin
  let imm_11_5 := fields.imm_11_5
  let rs2 := fields.rs2
  let rs1 := fields.rs1
  let funct3 := fields.funct3
  let imm_4_0 := fields.imm_4_0
  let imm := imm_11_5 ++ imm_4_0
  let floatInst := opcode == OPCODE.STORE_FP
  let mne? := if floatInst then tblLookup ISA_STORE_FP funct3
              else tblLookup ISA_STORE funct3
  match mne? with
  | none => .error (.invalidFunct
      (if floatInst then "STORE-FP".toList else "STORE".toList))
  | some mne =>
    let offset := decImm imm true
    let base := decReg rs1 false
    let src := decReg rs2 floatInst
    let fOpcode : Frag := ⟨mne, opcode, FIELDS.opcode.name, false⟩
    let fFunct3 : Frag := ⟨mne, funct3, FIELDS.funct3.name, false⟩
    let fRs1 : Frag := ⟨base, rs1, FIELDS.rs1.name, true⟩
    let fRs2 : Frag := ⟨src, rs2, FIELDS.rs2.name, false⟩
    let fImm_4_0 : Frag := ⟨intToDec offset, imm_4_0, FIELDS.s_imm_4_0.name, false⟩
    let fImm_11_5 : Frag := ⟨intToDec offset, imm_11_5, FIELDS.s_imm_11_5.name, false⟩
    let fImm : Frag := ⟨intToDec offset, imm, "imm".toList, false⟩
    return ⟨mne, none,
      [fOpcode, fRs2, fImm, fRs1],
      [fImm_11_5, fRs2, fRs1, fFunct3, fImm_4_0, fOpcode]⟩

/-- `#decodeBRANCH` from the source: B-type decode. The immediate is
`imm_12 ‖ imm_11 ‖ imm_10_5 ‖ imm_4_1 ‖ 0`; note the binary fragment
list the source pushes omits the `imm_12` and `imm_11` fragments. -/
def decodeBRANCH (bin : Str) (opcode : Str) : Except DecErr DecRes := do
  let fields ← extractBFields bin
  let imm_12 := fields.imm_12
  let imm_10_5 := fields.imm_10_5
  let rs2 := fields.rs2
  let rs1 := fields.rs1
  let funct3 := fields.funct3
  let imm_4_1 := fields.imm_4_1
  let imm_11 := fields.imm_11
  let imm := imm_12 ++ imm_11 ++ imm_10_5 ++ imm_4_1 ++ ['0']
  match tblLookup ISA_BRANCH funct3 with
  | none => .error (.invalidFunct "BRANCH".toList)
  | some mne =>
    let offset := decImm imm true
    let src2 := decReg rs2 false
    let src1 := decReg rs1 false
    let fOpcode : Frag := ⟨mne, opcode, FIELDS.opcode.name, false⟩
    let fFunct3 : Frag := ⟨mne, funct3, FIELDS.funct3.name, false⟩
    let fRs1 : Frag := ⟨src1, rs1, FIELDS.rs1.name, false⟩
    let fRs2 : Frag := ⟨src2, rs2, FIELDS.rs2.name, false⟩
    let fImm_4_1 : Frag := ⟨intToDec offset, imm_4_1, FIELDS.b_imm_4_1.name, false⟩
    let fImm_10_5 : Frag := ⟨intToDec offset, imm_10_5, FIELDS.b_imm_10_5.name, false⟩
    let fImm : Frag := ⟨intToDec offset, imm, "imm".toList, false⟩
    return ⟨mne, none,
      [fOpcode, fRs1, fRs2, fImm],
      [fImm_10_5, fRs2, fRs1, fFunct3, fImm_4_1, fOpcode]⟩

/-- `#decodeUType` from the source: LUI / AUIPC decode; the immediate
is passed to `decImm` with its default (sign-extending) behavior. -/
def decodeUType (bin : Str) (opcode : Str) : Except DecErr DecRes := do
  let imm ← getBits bin FIELDS.u_imm_31_12.pos
  let rd ← getBits bin FIELDS.rd.pos
  let immediate := decImm imm true
  let dest := decReg rd false
  let mne := if opcode == OPCODE.AUIPC then "auipc".toList else "lui".toList
  let fOpcode : Frag := ⟨mne, opcode, FIELDS.opcode.name, false⟩
  let fImm : Frag := ⟨intToDec immediate, imm, FIELDS.u_imm_31_12.name, false⟩
  let fRd : Frag := ⟨dest, rd, FIELDS.rd.name, false⟩
  return ⟨mne, none,
    [fOpcode, fRd, fImm],
    [fImm, fRd, fOpcode]⟩

/-- `#decodeJAL` from the source: J-type decode. -/
def decodeJAL (bin : Str) (opcode : Str) : Except DecErr DecRes := do
  let imm_20 ← getBits bin FIELDS.j_imm_20.pos
  let imm_10_1 ← getBits bin FIELDS.j_imm_10_1.pos
  let imm_11 ← getBits bin FIELDS.j_imm_11.pos
  let imm_19_12 ← getBits bin FIELDS.j_imm_19_12.pos
  let rd ← getBits bin FIELDS.rd.pos
  let imm := imm_20 ++ imm_19_12 ++ imm_11 ++ imm_10_1 ++ ['0']
  let mne := "jal".toList
  let offset := decImm imm true
  let dest := decReg rd false
  let fOpcode : Frag := ⟨mne, opcode, FIELDS.opcode.name, false⟩
  let fRd : Frag := ⟨dest, rd, FIELDS.rd.name, false⟩
  let fImm_20 : Frag := ⟨intToDec offset, imm_20, FIELDS.j_imm_20.name, false⟩
  let fImm_10_1 : Frag := ⟨intToDec offset, imm_10_1, FIELDS.j_imm_10_1.name, false⟩
  let fImm_11 : Frag := ⟨intToDec offset, imm_11, FIELDS.j_imm_11.name, false⟩
  let fImm_19_12 : Frag := ⟨intToDec offset, imm_19_12, FIELDS.j_imm_19_12.name, false⟩
  let fImm : Frag := ⟨intToDec offset, imm, "imm".toList, false⟩
  return ⟨mne, none,
    [fOpcode, fRd, fImm],
    [fImm_20, fImm_10_1, fImm_11, fImm_19_12, fRd, fOpcode]⟩

/-- `#decodeAMO` from the source: A-extension decode with `lr.*`
detection (no `rs2` operand). -/
def decodeAMO (bin : Str) (opcode : Str) : Except DecErr DecRes := do
  let fields ← extractRFields bin
  let funct5 := fields.funct5
  let aq := fields.aq
  let rl := fields.rl
  let rs2 := fields.rs2
  let rs1 := fields.rs1
  let funct3 := fields.funct3
  let rd := fields.rd
  match tblLookup ISA_AMO (funct5 ++ funct3) with
  | none => .error (.invalidFunct "AMO".toList)
  | some mne =>
    let lr := mne == "lr.w".toList || mne == "lr.d".toList
    let dest := decReg rd false
    let addr := decReg rs1 false
    let src := if lr then "n/a".toList else decReg rs2 false
    let fOpcode : Frag := ⟨mne, opcode, FIELDS.opcode.name, false⟩
    let fRd : Frag := ⟨dest, rd, FIELDS.rd.name, false⟩
    let fFunct3 : Frag := ⟨mne, funct3, FIELDS.funct3.name, false⟩
    let fRs1 : Frag := ⟨addr, rs1, FIELDS.rs1.name, true⟩
    let fRs2 : Frag := ⟨src, rs2, FIELDS.rs2.name, false⟩
    let fRl : Frag := ⟨mne, rl, FIELDS.r_rl.name, false⟩
    let fAq : Frag := ⟨mne, aq, FIELDS.r_aq.name, false⟩
    let fFunct5 : Frag := ⟨mne, funct5, FIELDS.r_funct5.name, false⟩
    return ⟨mne, none,
      [fOpcode, fRd] ++ (if lr then [] else [fRs2]) ++ [fRs1],
      [fFunct5, fAq, fRl, fRs2, fRs1, fFunct3, fRd, fOpcode]⟩

/-- `#decodeR4` from the source: fused multiply-add decode. -/
def decodeR4 (bin : Str) (opcode : Str) : Except DecErr DecRes := do
  let fields ← extractRFields bin
  let rs3 := fields.funct5
  let fmt := fields.fmt
  let rs2 := fields.rs2
  let rs1 := fields.rs1
  let rm := fields.funct3
  let rd := fields.rd
  let mne? :=
    if opcode == OPCODE.MADD then tblLookup ISA_MADD fmt
    else if opcode == OPCODE.MSUB then tblLookup ISA_MSUB fmt
    else if opcode == OPCODE.NMADD then tblLookup ISA_NMADD fmt
    else if opcode == OPCODE.NMSUB then tblLookup ISA_NMSUB fmt
    else none
  match mne? with
  | none => .error (.invalidFunct "R4".toList)
  | some mne =>
    let src1 := decReg rs1 true
    let src2 := decReg rs2 true
    let src3 := decReg rs3 true
    let dest := decReg rd true
    let fOpcode : Frag := ⟨mne, opcode, FIELDS.opcode.name, false⟩
    let fFmt : Frag := ⟨mne, fmt, FIELDS.r_fp_fmt.name, false⟩
    let fRm : Frag := ⟨mne, rm, "rm".toList, false⟩
    let fRd : Frag := ⟨dest, rd, FIELDS.rd.name, false⟩
    let fRs1 : Frag := ⟨src1, rs1, FIELDS.rs1.name, false⟩
    let fRs2 : Frag := ⟨src2, rs2, FIELDS.rs2.name, false⟩
    let fRs3 : Frag := ⟨src3, rs3, "rs3".toList, false⟩
    return ⟨mne, none,
      [fOpcode, fRd, fRs1, fRs2, fRs3],
      [fRs3, fFmt, fRs2, fRs1, fRm, fRd, fOpcode]⟩

/-- Modelled from the spec: the integer ABI register names of spec
section 6 (the `REGISTER` table of `Constants.js` is not under `src/`). -/
def ABI_X : List Str :=
  (["zero", "ra", "sp", "gp", "tp", "t0", "t1", "t2", "s0", "s1",
    "a0", "a1", "a2", "a3", "a4", "a5", "a6", "a7",
    "s2", "s3", "s4", "s5", "s6", "s7", "s8", "s9", "s10", "s11",
    "t3", "t4", "t5", "t6"]).map String.toList

/-- Modelled from the spec: the float ABI register names of spec
section 6. -/
def ABI_F : List Str :=
  (["ft0", "ft1", "ft2", "ft3", "ft4", "ft5", "ft6", "ft7", "fs0", "fs1",
    "fa0", "fa1", "fa2", "fa3", "fa4", "fa5", "fa6", "fa7",
    "fs2", "fs3", "fs4", "fs5", "fs6", "fs7", "fs8", "fs9", "fs10", "fs11",
    "ft8", "ft9", "ft10", "ft11"]).map String.toList

/-- Modelled from the spec: `convertRegToAbi` of `Instruction.js` (not
under `src/`): replace a numeric register token by its ABI name. Only
invoked when the ABI option is on; the claims fix the ABI off. -/
def convertRegToAbi (tok : Str) : Str :=
  match tok with
  | 'x' :: ds =>
    match (List.range 32).find? (fun n => natToDec n == ds) with
    | some n => ABI_X.getD n tok
    | none => tok
  | 'f' :: ds =>
    match (List.range 32).find? (fun n => natToDec n == ds) with
    | some n => ABI_F.getD n tok
    | none => tok
  | _ => tok

/-- JS whitespace for `String.prototype.trim`. -/
def isWsChar (c : Char) : Bool :=
  c = ' ' || c = '\t' || c = '\n' || c = '\r'

/-- JS `String.prototype.trim`: strip whitespace from both ends. -/
def trimStr (l : Str) : Str :=
  ((l.dropWhile isWsChar).reverse.dropWhile isWsChar).reverse

/-- The field-name test `/^imm/.test(field)` of `renderAsm`. -/
def isImmField (field : Str) : Bool := field.take 3 == "imm".toList

/-- One rendered assembly token of `renderAsm`: optional ABI
conversion, parenthesized when it is a memory operand. -/
def renderFrag (abi : Bool) (fr : Frag) : Str :=
  let a := if abi then convertRegToAbi fr.asm else fr.asm
  if fr.mem then '(' :: a ++ [')'] else a

/-- The tail of the `renderAsm` loop (indices `i ≥ 2`): each fragment
is preceded by ", " unless it is a memory operand directly after an
immediate field. -/
def renderRest (abi : Bool) : Frag → List Frag → Str
  | _, [] => []
  | prev, fr :: rest =>
    (if fr.mem && isImmField prev.field then [] else [',', ' ']) ++
      renderFrag abi fr ++ renderRest abi fr rest

/-- `renderAsm(asmFrags, abi)` from the source: the first fragment's
token, a space, then the remaining tokens with separators; the result
is trimmed. -/
def renderAsm (asmFrags : List Frag) (abi : Bool) : Str :=
  match asmFrags with
  | [] => []
  | f0 :: rest =>
    trimStr (f0.asm ++
      (match rest with
       | [] => []
       | f1 :: rest2 => ' ' :: (renderFrag abi f1 ++ renderRest abi f1 rest2)))

/-- The uniform decode result (`hex`/`bin` derive from the input word
and are omitted): assembly text, format and ISA tags, both fragment
lists, and the mnemonic (`#mne`). -/
structure InstrResult where
  asm : Str
  fmt : Str
  isa : Str
  mne : Str
  asmFrags : List Frag
  binFrags : List Frag
deriving DecidableEq

/-- The `/^RV64.$/` test of `#convertBinToAsm`. -/
def isRV64 (isa : Str) : Bool :=
  isa.length == 5 && isa.take 4 == "RV64".toList

/-- The opcode switch of `#convertBinToAsm` (lines 77-142 of the
source), routing to the format-specific handler. -/
def dispatch (bin : Str) (opcode : Str) (cfg : Config) :
    Except DecErr DecRes :=
  if opcode == OPCODE.OP || opcode == OPCODE.OP_32 then decodeOP bin opcode
  else if opcode == OPCODE.OP_FP then decodeOP_FP bin opcode
  else if opcode == OPCODE.AMO then decodeAMO bin opcode
  else if opcode == OPCODE.JALR then decodeJALR bin opcode
  else if opcode == OPCODE.LOAD || opcode == OPCODE.LOAD_FP then
    decodeLOAD bin opcode
  else if opcode == OPCODE.OP_IMM || opcode == OPCODE.OP_IMM_32 then
    decodeOP_IMM bin opcode cfg
  else if opcode == OPCODE.MISC_MEM then decodeMISC_MEM bin opcode
  else if opcode == OPCODE.SYSTEM then decodeSYSTEM bin opcode
  else if opcode == OPCODE.STORE || opcode == OPCODE.STORE_FP then
    decodeSTORE bin opcode
  else if opcode == OPCODE.BRANCH then decodeBRANCH bin opcode
  else if opcode == OPCODE.LUI || opcode == OPCODE.AUIPC then
    decodeUType bin opcode
  else if opcode == OPCODE.JAL then decodeJAL bin opcode
  else if opcode == OPCODE.MADD || opcode == OPCODE.MSUB ||
          opcode == OPCODE.NMADD || opcode == OPCODE.NMSUB then
    decodeR4 bin opcode
  else .error (.invalidOpcode opcode)

/-- `#convertBinToAsm` from the source: extract the opcode, dispatch,
set format and ISA (a handler-assigned ISA wins), reject an RV64-only
decode under an RV32I configuration, and render the assembly text. -/
def convertBinToAsm (bin : Str) (cfg : Config) : Except DecErr InstrResult := do
  let opcode ← getBits bin FIELDS.opcode.pos
  let r ← dispatch bin opcode cfg
  match tblLookup ISA r.mne with
  | none => .error .internalError
  | some entry =>
    let isa := r.isaOv.getD entry.isa
    if cfg.ISA == CoptsIsa.RV32I && isRV64 isa then
      .error (.isaMismatch isa)
    else
      return ⟨renderAsm r.asmFrags cfg.ABI, entry.fmt, isa, r.mne,
        r.asmFrags, r.binFrags⟩

/-! ### Supporting lemmas -/

deriving instance DecidableEq for Except

theorem bindOk (a : α) (f : α → Except ε β) :
    (Except.ok a : Except ε α) >>= f = f a := rfl

theorem bindErr (e : ε) (f : α → Except ε β) :
    (Except.error e : Except ε α) >>= f = Except.error e := rfl

/-- On a 32-character word, `getBits` at a well-formed position is the
plain slice. -/
theorem getBits_ok {bin : Str} (h32 : bin.length = 32) {hi w : Nat}
    (hhi : hi < 32) (hw : w ≤ hi + 1) :
    getBits bin (hi, w) = .ok (slice bin hi w) := by
  unfold getBits jsSubstring slice
  have hc : ¬((hi : Int) + 1 - w > hi + 1 ∨ ((bin.length : Int) < hi + 1)) := by
    rw [h32]; omega
  rw [if_neg hc]
  have ha : (min (max ((bin.length : Int) - (hi + 1)) 0) (bin.length : Int)).toNat
      = 31 - hi := by rw [h32]; omega
  have hb : (min (max ((bin.length : Int) - ((hi : Int) + 1 - w)) 0)
      (bin.length : Int)).toNat = 31 - hi + w := by rw [h32]; omega
  simp only [ha, hb]
  have hmin : min (31 - hi) (31 - hi + w) = 31 - hi := by omega
  have hmax : max (31 - hi) (31 - hi + w) = 31 - hi + w := by omega
  rw [hmin, hmax, List.drop_take]
  have hww : 31 - hi + w - (31 - hi) = w := by omega
  rw [hww]

/-- Length of a well-formed slice. -/
theorem slice_length {bin : Str} (h32 : bin.length = 32) {hi w : Nat}
    (hhi : hi < 32) (hw : w ≤ hi + 1) :
    (slice bin hi w).length = w := by
  unfold slice
  rw [List.length_take, List.length_drop, h32]
  omega

/-- Slices of a binary word are binary. -/
theorem IsBin.slice {bin : Str} (hb : IsBin bin) (hi w : Nat) :
    IsBin (Rvcodec.slice bin hi w) := by
  intro c hc
  exact hb c (List.mem_of_mem_drop (List.mem_of_mem_take hc))

/-- A 1-character binary text is '0' or '1'. -/
theorem bin1_cases {l : Str} (h : l.length = 1) (hb : IsBin l) :
    l = ['0'] ∨ l = ['1'] := by
  obtain ⟨a, rfl⟩ := List.length_eq_one.mp h
  rcases hb a (by simp) with rfl | rfl
  · exact Or.inl rfl
  · exact Or.inr rfl

/-- A 3-character binary text is one of the eight patterns. -/
theorem bin3_cases {l : Str} (h : l.length = 3) (hb : IsBin l) :
    l = "000".toList ∨ l = "001".toList ∨ l = "010".toList ∨
    l = "011".toList ∨ l = "100".toList ∨ l = "101".toList ∨
    l = "110".toList ∨ l = "111".toList := by
  match l, h with
  | [a, b, c], _ =>
    rcases hb a (by simp) with rfl | rfl <;>
      rcases hb b (by simp) with rfl | rfl <;>
        rcases hb c (by simp) with rfl | rfl <;> simp

/-- `binToNat` is bounded by `2 ^ length` (foldl generalization). -/
theorem binToNat_foldl_lt (l : Str) (a : Nat) :
    l.foldl (fun a c => 2 * a + bitVal c) a < (a + 1) * 2 ^ l.length := by
  induction l generalizing a with
  | nil => simp only [List.foldl_nil, List.length_nil, pow_zero, Nat.mul_one]
           omega
  | cons c t ih =>
    have hc : bitVal c ≤ 1 := by unfold bitVal; split <;> omega
    calc List.foldl (fun a c => 2 * a + bitVal c) (2 * a + bitVal c) t
        < (2 * a + bitVal c + 1) * 2 ^ t.length := ih _
      _ ≤ ((a + 1) * 2) * 2 ^ t.length := by
          have : 2 * a + bitVal c + 1 ≤ (a + 1) * 2 := by omega
          exact Nat.mul_le_mul_right _ this
      _ = (a + 1) * 2 ^ (c :: t).length := by
          rw [List.length_cons, pow_succ]; ring

/-- `binToNat` of an `n`-character text is below `2 ^ n`. -/
theorem binToNat_lt (l : Str) : binToNat l < 2 ^ l.length := by
  have := binToNat_foldl_lt l 0
  simpa [binToNat] using this

/-- The code point of a decimal digit character. -/
theorem digitChar_toNat {n : Nat} (h : n < 10) :
    (digitChar n).toNat = 48 + n := by
  interval_cases n <;> decide

/-- Every character `natToDecAux` emits is a decimal digit. -/
theorem natToDecAux_digits (fuel n : Nat) :
    ∀ c ∈ natToDecAux fuel n, 48 ≤ c.toNat ∧ c.toNat ≤ 57 := by
  induction fuel generalizing n with
  | zero => intro c hc; simp [natToDecAux] at hc
  | succ fuel ih =>
    intro c hc
    unfold natToDecAux at hc
    split at hc
    · next h =>
      simp only [List.mem_singleton] at hc
      subst hc
      rw [digitChar_toNat h]
      omega
    · next h =>
      rcases List.mem_append.mp hc with h1 | h1
      · exact ih _ c h1
      · simp only [List.mem_singleton] at h1
        subst h1
        have hm : n % 10 < 10 := Nat.mod_lt _ (by omega)
        rw [digitChar_toNat hm]
        omega

/-- Decimal renderings contain no whitespace. -/
theorem natToDec_not_ws {n : Nat} {c : Char} (hc : c ∈ natToDec n) :
    isWsChar c = false := by
  have h := natToDecAux_digits (n + 1) n c hc
  have h1 : c ≠ ' ' := by intro hEq; subst hEq; revert h; decide
  have h2 : c ≠ '\t' := by intro hEq; subst hEq; revert h; decide
  have h3 : c ≠ '\n' := by intro hEq; subst hEq; revert h; decide
  have h4 : c ≠ '\r' := by intro hEq; subst hEq; revert h; decide
  simp [isWsChar, h1, h2, h3, h4]

/-- `natToDecAux` with positive fuel is non-empty. -/
theorem natToDecAux_ne_nil (fuel n : Nat) : natToDecAux (fuel + 1) n ≠ [] := by
  unfold natToDecAux
  split
  · simp
  · simp

/-- Decimal renderings are non-empty. -/
theorem natToDec_ne_nil (n : Nat) : natToDec n ≠ [] := natToDecAux_ne_nil n n

/-- Trimming fixes a text with non-whitespace first and last characters. -/
theorem trimStr_eq_self {l : Str}
    (h1 : ∀ c, l.head? = some c → isWsChar c = false)
    (h2 : ∀ c, l.getLast? = some c → isWsChar c = false) :
    trimStr l = l := by
  unfold trimStr
  match l, h1, h2 with
  | [], _, _ => rfl
  | a :: t, h1, h2 =>
    rw [List.dropWhile_cons_of_neg (by simp [h1 a rfl])]
    have hlast : (a :: t).reverse.head? = some ((a :: t).getLast (by simp)) := by
      rw [List.head?_reverse, List.getLast?_eq_getLast]
    have hws : isWsChar ((a :: t).getLast (by simp)) = false := by
      apply h2
      rw [List.getLast?_eq_getLast]
    match hrev : (a :: t).reverse with
    | [] => simp at hrev
    | b :: r =>
      rw [hrev] at hlast
      simp only [List.head?_cons, Option.some_inj] at hlast
      rw [List.dropWhile_cons_of_neg (by rw [hlast]; simp [hws])]
      rw [← hrev, List.reverse_reverse]

/-- A successful table lookup returns a value stored in the table. -/
theorem tblLookup_mem {tbl : List (Str × α)} {k : Str} {v : α}
    (h : tblLookup tbl k = some v) : ∃ p ∈ tbl, p.2 = v := by
  unfold tblLookup at h
  simp only [Option.map_eq_some'] at h
  obtain ⟨e, he, rfl⟩ := h
  exact ⟨e, List.mem_of_find?_eq_some he, rfl⟩

/-- On a 32-character word, `extractRFields` succeeds with the
expected slices. -/
theorem extractRFields_eq {bin : Str} (h32 : bin.length = 32) :
    extractRFields bin = .ok ⟨slice bin 24 5, slice bin 19 5, slice bin 14 3,
      slice bin 11 5, slice bin 31 5, slice bin 31 7, slice bin 26 1,
      slice bin 25 1, slice bin 26 2⟩ := by
  unfold extractRFields
  rw [show FIELDS.rs2.pos = (24, 5) from rfl,
    getBits_ok h32 (by omega) (by omega), bindOk,
    show FIELDS.rs1.pos = (19, 5) from rfl,
    getBits_ok h32 (by omega) (by omega), bindOk,
    show FIELDS.funct3.pos = (14, 3) from rfl,
    getBits_ok h32 (by omega) (by omega), bindOk,
    show FIELDS.rd.pos = (11, 5) from rfl,
    getBits_ok h32 (by omega) (by omega), bindOk,
    show FIELDS.r_funct5.pos = (31, 5) from rfl,
    getBits_ok h32 (by omega) (by omega), bindOk,
    show FIELDS.r_funct7.pos = (31, 7) from rfl,
    getBits_ok h32 (by omega) (by omega), bindOk,
    show FIELDS.r_aq.pos = (26, 1) from rfl,
    getBits_ok h32 (by omega) (by omega), bindOk,
    show FIELDS.r_rl.pos = (25, 1) from rfl,
    getBits_ok h32 (by omega) (by omega), bindOk,
    show FIELDS.r_fp_fmt.pos = (26, 2) from rfl,
    getBits_ok h32 (by omega) (by omega), bindOk]
  rfl

/-- On a 32-character word, `extractIFields` succeeds with the
expected slices. -/
theorem extractIFields_eq {bin : Str} (h32 : bin.length = 32) :
    extractIFields bin = .ok ⟨slice bin 31 12, slice bin 19 5, slice bin 14 3,
      slice bin 11 5, slice bin 30 1, slice bin 24 5, slice bin 25 1,
      slice bin 31 12, slice bin 31 4, slice bin 27 4, slice bin 23 4⟩ := by
  unfold extractIFields
  rw [show FIELDS.i_imm_11_0.pos = (31, 12) from rfl,
    getBits_ok h32 (by omega) (by omega), bindOk,
    show FIELDS.rs1.pos = (19, 5) from rfl,
    getBits_ok h32 (by omega) (by omega), bindOk,
    show FIELDS.funct3.pos = (14, 3) from rfl,
    getBits_ok h32 (by omega) (by omega), bindOk,
    show FIELDS.rd.pos = (11, 5) from rfl,
    getBits_ok h32 (by omega) (by omega), bindOk,
    show FIELDS.i_shtyp.pos = (30, 1) from rfl,
    getBits_ok h32 (by omega) (by omega), bindOk,
    show FIELDS.i_shamt.pos = (24, 5) from rfl,
    getBits_ok h32 (by omega) (by omega), bindOk,
    show FIELDS.i_shamt_5.pos = (25, 1) from rfl,
    getBits_ok h32 (by omega) (by omega), bindOk,
    show FIELDS.i_funct12.pos = (31, 12) from rfl,
    getBits_ok h32 (by omega) (by omega), bindOk,
    show FIELDS.i_fm.pos = (31, 4) from rfl,
    getBits_ok h32 (by omega) (by omega), bindOk,
    show FIELDS.i_pred.pos = (27, 4) from rfl,
    getBits_ok h32 (by omega) (by omega), bindOk,
    show FIELDS.i_succ.pos = (23, 4) from rfl,
    getBits_ok h32 (by omega) (by omega), bindOk]
  rfl

/-- On a 32-character word, `extractBFields` succeeds with the
expected slices. -/
theorem extractBFields_eq {bin : Str} (h32 : bin.length = 32) :
    extractBFields bin = .ok ⟨slice bin 31 1, slice bin 30 6, slice bin 24 5,
      slice bin 19 5, slice bin 14 3, slice bin 11 4, slice bin 7 1⟩ := by
  unfold extractBFields
  rw [show FIELDS.b_imm_12.pos = (31, 1) from rfl,
    getBits_ok h32 (by omega) (by omega), bindOk,
    show FIELDS.b_imm_10_5.pos = (30, 6) from rfl,
    getBits_ok h32 (by omega) (by omega), bindOk,
    show FIELDS.rs2.pos = (24, 5) from rfl,
    getBits_ok h32 (by omega) (by omega), bindOk,
    show FIELDS.rs1.pos = (19, 5) from rfl,
    getBits_ok h32 (by omega) (by omega), bindOk,
    show FIELDS.funct3.pos = (14, 3) from rfl,
    getBits_ok h32 (by omega) (by omega), bindOk,
    show FIELDS.b_imm_4_1.pos = (11, 4) from rfl,
    getBits_ok h32 (by omega) (by omega), bindOk,
    show FIELDS.b_imm_11.pos = (7, 1) from rfl,
    getBits_ok h32 (by omega) (by omega), bindOk]
  rfl

/-- `#convertBinToAsm`, unfolded one step on a 32-character word:
opcode extraction succeeds, then dispatch and the shared tail. -/
theorem convertBinToAsm_eq {bin : Str} (h32 : bin.length = 32) (cfg : Config) :
    convertBinToAsm bin cfg = (dispatch bin (slice bin 6 7) cfg) >>= (fun r =>
      match tblLookup ISA r.mne with
      | none => .error .internalError
      | some entry =>
        let isa := r.isaOv.getD entry.isa
        if cfg.ISA == CoptsIsa.RV32I && isRV64 isa then
          .error (.isaMismatch isa)
        else
          .ok ⟨renderAsm r.asmFrags cfg.ABI, entry.fmt, isa, r.mne,
            r.asmFrags, r.binFrags⟩) := by
  unfold convertBinToAsm
  rw [show FIELDS.opcode.pos = (6, 7) from rfl,
    getBits_ok h32 (by omega) (by omega), bindOk]
  rfl

theorem mapOk (f : α → β) (a : α) :
    (Except.ok a : Except ε α).map f = .ok (f a) := rfl

/-- A top slice starts with the word's first character. -/
theorem slice_31_take {bin : Str} (w : Nat) : slice bin 31 w = bin.take w := by
  unfold slice
  norm_num

/-- `decImm` with sign extension, in arithmetic form. -/
theorem decImm_true_eq (l : Str) :
    decImm l true = (binToNat l : Int) -
      (if l.head? = some '1' then ((2 ^ l.length : Nat) : Int) else 0) := by
  unfold decImm
  rcases h : l.head? with _ | c
  · simp [h]
  · by_cases hc : c = '1'
    · subst hc; simp [h]
    · rw [if_neg (by simp [h, hc]), if_neg (by simp [h, hc])]
      simp

/-- The head of a top slice, as a 1-bit slice condition: on a
32-character word, `slice bin 31 1 = ['1']` exactly when a wider top
slice starts with '1'. -/
theorem slice_31_head {bin : Str} (h32 : bin.length = 32) {w : Nat}
    (hw : 0 < w) :
    ((slice bin 31 w).head? = some '1') ↔ slice bin 31 1 = ['1'] := by
  rw [slice_31_take, slice_31_take]
  match bin, h32 with
  | c :: t, _ =>
    obtain ⟨w', rfl⟩ : ∃ v, w = v + 1 := ⟨w - 1, by omega⟩
    simp [List.take_succ_cons]

/-- `#decodeUType` on a LUI word, fully evaluated. -/
theorem decodeUType_LUI {bin : Str} (h32 : bin.length = 32) :
    decodeUType bin OPCODE.LUI = .ok ⟨"lui".toList, none,
      [⟨"lui".toList, OPCODE.LUI, "opcode".toList, false⟩,
       ⟨decReg (slice bin 11 5) false, slice bin 11 5, "rd".toList, false⟩,
       ⟨intToDec (decImm (slice bin 31 20) true), slice bin 31 20,
         "imm[31:12]".toList, false⟩],
      [⟨intToDec (decImm (slice bin 31 20) true), slice bin 31 20,
         "imm[31:12]".toList, false⟩,
       ⟨decReg (slice bin 11 5) false, slice bin 11 5, "rd".toList, false⟩,
       ⟨"lui".toList, OPCODE.LUI, "opcode".toList, false⟩]⟩ := by
  unfold decodeUType
  rw [show FIELDS.u_imm_31_12.pos = (31, 20) from rfl,
    getBits_ok h32 (by omega) (by omega), bindOk,
    show FIELDS.rd.pos = (11, 5) from rfl,
    getBits_ok h32 (by omega) (by omega), bindOk]
  rfl

/-- `#decodeUType` on an AUIPC word, fully evaluated. -/
theorem decodeUType_AUIPC {bin : Str} (h32 : bin.length = 32) :
    decodeUType bin OPCODE.AUIPC = .ok ⟨"auipc".toList, none,
      [⟨"auipc".toList, OPCODE.AUIPC, "opcode".toList, false⟩,
       ⟨decReg (slice bin 11 5) false, slice bin 11 5, "rd".toList, false⟩,
       ⟨intToDec (decImm (slice bin 31 20) true), slice bin 31 20,
         "imm[31:12]".toList, false⟩],
      [⟨intToDec (decImm (slice bin 31 20) true), slice bin 31 20,
         "imm[31:12]".toList, false⟩,
       ⟨decReg (slice bin 11 5) false, slice bin 11 5, "rd".toList, false⟩,
       ⟨"auipc".toList, OPCODE.AUIPC, "opcode".toList, false⟩]⟩ := by
  unfold decodeUType
  rw [show FIELDS.u_imm_31_12.pos = (31, 20) from rfl,
    getBits_ok h32 (by omega) (by omega), bindOk,
    show FIELDS.rd.pos = (11, 5) from rfl,
    getBits_ok h32 (by omega) (by omega), bindOk]
  rfl

/-- The word `lui x1, 0x80000` (0x800000b7): U-type immediate field
with bit 31 set. -/
def wLui : Str := "10000000000000000000000010110111".toList

/-- The default configuration: RV32I, ABI names off. -/
def cfgRV32 : Config := ⟨CoptsIsa.RV32I, false⟩

/-- The RV64I configuration, ABI names off. -/
def cfgRV64 : Config := ⟨CoptsIsa.RV64I, false⟩

/-- Decoding a LUI word always succeeds, with the U-type fragment
lists. -/
theorem convert_LUI_eq {bin : Str} (h32 : bin.length = 32) (cfg : Config)
    (hop : slice bin 6 7 = OPCODE.LUI) :
    convertBinToAsm bin cfg = .ok
      ⟨renderAsm
        [⟨"lui".toList, OPCODE.LUI, "opcode".toList, false⟩,
         ⟨decReg (slice bin 11 5) false, slice bin 11 5, "rd".toList, false⟩,
         ⟨intToDec (decImm (slice bin 31 20) true), slice bin 31 20,
           "imm[31:12]".toList, false⟩] cfg.ABI,
       "U-type".toList, "RV32I".toList, "lui".toList,
       [⟨"lui".toList, OPCODE.LUI, "opcode".toList, false⟩,
        ⟨decReg (slice bin 11 5) false, slice bin 11 5, "rd".toList, false⟩,
        ⟨intToDec (decImm (slice bin 31 20) true), slice bin 31 20,
          "imm[31:12]".toList, false⟩],
       [⟨intToDec (decImm (slice bin 31 20) true), slice bin 31 20,
          "imm[31:12]".toList, false⟩,
        ⟨decReg (slice bin 11 5) false, slice bin 11 5, "rd".toList, false⟩,
        ⟨"lui".toList, OPCODE.LUI, "opcode".toList, false⟩]⟩ := by
  rw [convertBinToAsm_eq h32 cfg, hop,
    show dispatch bin OPCODE.LUI cfg = decodeUType bin OPCODE.LUI from rfl,
    decodeUType_LUI h32, bindOk]
  rcases cfg with ⟨cisa, cabi⟩
  rcases cisa <;> rfl

/-- Decoding an AUIPC word always succeeds, with the U-type fragment
lists. -/
theorem convert_AUIPC_eq {bin : Str} (h32 : bin.length = 32) (cfg : Config)
    (hop : slice bin 6 7 = OPCODE.AUIPC) :
    convertBinToAsm bin cfg = .ok
      ⟨renderAsm
        [⟨"auipc".toList, OPCODE.AUIPC, "opcode".toList, false⟩,
         ⟨decReg (slice bin 11 5) false, slice bin 11 5, "rd".toList, false⟩,
         ⟨intToDec (decImm (slice bin 31 20) true), slice bin 31 20,
           "imm[31:12]".toList, false⟩] cfg.ABI,
       "U-type".toList, "RV32I".toList, "auipc".toList,
       [⟨"auipc".toList, OPCODE.AUIPC, "opcode".toList, false⟩,
        ⟨decReg (slice bin 11 5) false, slice bin 11 5, "rd".toList, false⟩,
        ⟨intToDec (decImm (slice bin 31 20) true), slice bin 31 20,
          "imm[31:12]".toList, false⟩],
       [⟨intToDec (decImm (slice bin 31 20) true), slice bin 31 20,
          "imm[31:12]".toList, false⟩,
        ⟨decReg (slice bin 11 5) false, slice bin 11 5, "rd".toList, false⟩,
        ⟨"auipc".toList, OPCODE.AUIPC, "opcode".toList, false⟩]⟩ := by
  rw [convertBinToAsm_eq h32 cfg, hop,
    show dispatch bin OPCODE.AUIPC cfg = decodeUType bin OPCODE.AUIPC from rfl,
    decodeUType_AUIPC h32, bindOk]
  rcases cfg with ⟨cisa, cabi⟩
  rcases cisa <;> rfl

/-- C2, amended: for every successful decode of a LUI or AUIPC word,
the immediate fragment's assembly token is the raw 20-bit field
`imm[31:12]` interpreted as a signed (sign-extended) two's-complement
value: the field value minus 2^20 when bit 31 of the word is 1,
otherwise the plain field value. -/
theorem claim_C2_utype_imm_signed (bin : Str) (cfg : Config)
    (h32 : bin.length = 32)
    (hop : slice bin 6 7 = OPCODE.LUI ∨ slice bin 6 7 = OPCODE.AUIPC)
    (res : InstrResult) (hok : convertBinToAsm bin cfg = .ok res) :
    ∃ fr : Frag, res.asmFrags.getLast? = some fr ∧
      fr.bits = slice bin 31 20 ∧
      fr.asm = intToDec ((binToNat (slice bin 31 20) : Int) -
        (if slice bin 31 1 = ['1'] then 1048576 else 0)) := by
  have himm : decImm (slice bin 31 20) true =
      (binToNat (slice bin 31 20) : Int) -
        (if slice bin 31 1 = ['1'] then 1048576 else 0) := by
    rw [decImm_true_eq, slice_length h32 (by omega) (by omega)]
    by_cases h : slice bin 31 1 = ['1']
    · rw [if_pos ((slice_31_head h32 (by omega)).mpr h), if_pos h]
      norm_num
    · rw [if_neg (fun hh => h ((slice_31_head h32 (by omega)).mp hh)), if_neg h]
  rcases hop with hop | hop
  · rw [convert_LUI_eq h32 cfg hop] at hok
    have hres := Except.ok.inj hok
    subst hres
    exact ⟨⟨intToDec (decImm (slice bin 31 20) true), slice bin 31 20,
      "imm[31:12]".toList, false⟩, rfl, rfl, by rw [← himm]⟩
  · rw [convert_AUIPC_eq h32 cfg hop] at hok
    have hres := Except.ok.inj hok
    subst hres
    exact ⟨⟨intToDec (decImm (slice bin 31 20) true), slice bin 31 20,
      "imm[31:12]".toList, false⟩, rfl, rfl, by rw [← himm]⟩

/-- C2, counterexample to the claim as stated: the LUI word
0x800000b7 has raw immediate field value 524288, but the rendered
immediate token is "-524288", not the non-negative field value. -/
theorem claim_C2_counterexample :
    (convertBinToAsm wLui cfgRV32).map (fun r => r.asmFrags.map Frag.asm) =
      .ok ["lui".toList, "x1".toList, "-524288".toList] ∧
    binToNat (slice wLui 31 20) = 524288 := by
  constructor
  · decide
  · decide

/-- C2, witness: the amended claim evaluated on the concrete word
0x800000b7. -/
theorem claim_C2_witness :
    (convertBinToAsm wLui cfgRV32).map
      (fun r => r.asmFrags.getLast?.map Frag.asm) =
    .ok (some "-524288".toList) := by
  have hOk : (convertBinToAsm wLui cfgRV32).isOk = true := by decide
  rcases hcomp : convertBinToAsm wLui cfgRV32 with e | res
  · rw [hcomp] at hOk
    simp [Except.isOk, Except.toBool] at hOk
  · obtain ⟨fr, hlast, _, hasm⟩ := claim_C2_utype_imm_signed wLui cfgRV32
      (by decide) (Or.inl (by decide)) res hcomp
    rw [mapOk, hlast, Option.map_some', hasm]
    decide

/-- The word `beq x0, x0, -4` (0xfe000ee3): a B-type instruction with
a negative offset. -/
def wBeq : Str := "11111110000000000000111011100011".toList

/-- C1: evaluation at the failing input 0xfe000ee3. The BRANCH decode
succeeds, but its `binFrags` concatenate to a 30-character string (the
`imm[12]` fragment for bit 31 and the `imm[11]` fragment for bit 7 are
constructed but never pushed), so the fragments do not partition the
32-bit word. -/
theorem claim_C1_branch_partition_violated :
    (convertBinToAsm wBeq cfgRV32).map
      (fun r => (r.binFrags.map Frag.bits).flatten) =
      .ok "111111000000000000011101100011".toList ∧
    ("111111000000000000011101100011".toList).length = 30 ∧
    wBeq.length = 32 := by
  refine ⟨by decide, by decide, by decide⟩

/-- C5, counterexample to the claim as stated: a slice request of
width 0 at `high = 0` does not fail with `MalformedField`; `getBits`
returns the empty string. -/
theorem claim_C5_counterexample :
    getBits wBeq (0, 0) = .ok [] := by decide

/-- C5, amended: on a 32-character word, `getBits` fails (with
`MalformedField`) exactly when `high ≥ 32`; a request with
`width = 0`, or with `high - width + 1 < 0`, does not fail. For every
well-formed position (`1 ≤ width ≤ high + 1 ≤ 32` — including
`width = 0`, which yields the empty slice) it returns the
`width`-character MSB-first slice of bits `[high .. high-width+1]`. -/
theorem claim_C5_getBits (bin : Str) (h32 : bin.length = 32)
    (high width : Nat) :
    ((∃ err, getBits bin (high, width) = .error err) ↔ 32 ≤ high) ∧
    (high < 32 → width ≤ high + 1 →
      getBits bin (high, width) = .ok ((bin.drop (31 - high)).take width)) := by
  constructor
  · constructor
    · rintro ⟨err, herr⟩
      unfold getBits at herr
      dsimp only at herr
      split at herr
      · next hcond =>
        rcases hcond with h | h
        · omega
        · rw [h32] at h
          exact_mod_cast by omega
      · exact absurd herr (by simp)
    · intro h
      refine ⟨.malformedField (high, width), ?_⟩
      unfold getBits
      rw [if_pos ?_]
      right
      rw [h32]
      exact_mod_cast by omega
  · intro h1 h2
    exact getBits_ok h32 h1 h2

/-- C5, witness: the amended claim evaluated at the opcode position of
the concrete word 0xfe000ee3. -/
theorem claim_C5_witness :
    getBits wBeq (6, 7) = .ok "1100011".toList := by
  have h := (claim_C5_getBits wBeq (by decide) 6 7).2 (by omega) (by omega)
  rw [h]
  decide

/-- Inversion for the shared decode tail (format/ISA assignment and
ISA-mismatch check of `#convertBinToAsm`): a successful decode comes
from a table entry, the handler's ISA override winning. -/
theorem tail_cases {c : Config} {r : DecRes} {res : InstrResult}
    (hok : (match tblLookup ISA r.mne with
      | none => Except.error DecErr.internalError
      | some entry =>
        let isa := r.isaOv.getD entry.isa
        if c.ISA == CoptsIsa.RV32I && isRV64 isa then
          Except.error (DecErr.isaMismatch isa)
        else
          Except.ok ⟨renderAsm r.asmFrags c.ABI, entry.fmt, isa, r.mne,
            r.asmFrags, r.binFrags⟩) = Except.ok res) :
    ∃ entry, tblLookup ISA r.mne = some entry ∧
      (c.ISA == CoptsIsa.RV32I && isRV64 (r.isaOv.getD entry.isa)) = false ∧
      res = ⟨renderAsm r.asmFrags c.ABI, entry.fmt,
        r.isaOv.getD entry.isa, r.mne, r.asmFrags, r.binFrags⟩ := by
  rcases h : tblLookup ISA r.mne with _ | entry
  · rw [h] at hok
    exact absurd hok (by simp)
  · rw [h] at hok
    dsimp only at hok
    split at hok
    · exact absurd hok (by simp)
    · next hcond =>
      exact ⟨entry, rfl, by simpa using hcond, (Except.ok.inj hok).symm⟩

/-- `#decodeOP` on an OP word, reduced to the dispatch-table lookup. -/
theorem decodeOP_OP_eq {bin : Str} (h32 : bin.length = 32) :
    decodeOP bin OPCODE.OP =
      (match tblLookup ISA_OP (slice bin 31 7 ++ slice bin 14 3) with
      | none => .error (.invalidFunct "OP".toList)
      | some mne => .ok ⟨mne, none,
          [⟨mne, OPCODE.OP, "opcode".toList, false⟩,
           ⟨decReg (slice bin 11 5) false, slice bin 11 5, "rd".toList, false⟩,
           ⟨decReg (slice bin 19 5) false, slice bin 19 5, "rs1".toList, false⟩,
           ⟨decReg (slice bin 24 5) false, slice bin 24 5, "rs2".toList, false⟩],
          [⟨mne, slice bin 31 7, "funct7".toList, false⟩,
           ⟨decReg (slice bin 24 5) false, slice bin 24 5, "rs2".toList, false⟩,
           ⟨decReg (slice bin 19 5) false, slice bin 19 5, "rs1".toList, false⟩,
           ⟨mne, slice bin 14 3, "funct3".toList, false⟩,
           ⟨decReg (slice bin 11 5) false, slice bin 11 5, "rd".toList, false⟩,
           ⟨mne, OPCODE.OP, "opcode".toList, false⟩]⟩) := by
  unfold decodeOP
  rw [extractRFields_eq h32, bindOk]
  rfl

/-- `#decodeOP` on an OP-32 word, reduced to the dispatch-table lookup. -/
theorem decodeOP_OP32_eq {bin : Str} (h32 : bin.length = 32) :
    decodeOP bin OPCODE.OP_32 =
      (match tblLookup ISA_OP_32 (slice bin 31 7 ++ slice bin 14 3) with
      | none => .error (.invalidFunct "OP-32".toList)
      | some mne => .ok ⟨mne, none,
          [⟨mne, OPCODE.OP_32, "opcode".toList, false⟩,
           ⟨decReg (slice bin 11 5) false, slice bin 11 5, "rd".toList, false⟩,
           ⟨decReg (slice bin 19 5) false, slice bin 19 5, "rs1".toList, false⟩,
           ⟨decReg (slice bin 24 5) false, slice bin 24 5, "rs2".toList, false⟩],
          [⟨mne, slice bin 31 7, "funct7".toList, false⟩,
           ⟨decReg (slice bin 24 5) false, slice bin 24 5, "rs2".toList, false⟩,
           ⟨decReg (slice bin 19 5) false, slice bin 19 5, "rs1".toList, false⟩,
           ⟨mne, slice bin 14 3, "funct3".toList, false⟩,
           ⟨decReg (slice bin 11 5) false, slice bin 11 5, "rd".toList, false⟩,
           ⟨mne, OPCODE.OP_32, "opcode".toList, false⟩]⟩) := by
  unfold decodeOP
  rw [extractRFields_eq h32, bindOk]
  rfl

/-- C9: register rendering is total — `decReg` maps every 5-bit field
to 'x' followed by the decimal field value, which lies in 0..31 — and
in every successful OP / OP-32 decode the register fragments' assembly
tokens are exactly those renderings. -/
theorem claim_C9_registers (bin : Str) (cfg : Config) (h32 : bin.length = 32)
    (hop : slice bin 6 7 = OPCODE.OP ∨ slice bin 6 7 = OPCODE.OP_32)
    (res : InstrResult) (hok : convertBinToAsm bin cfg = .ok res) :
    (∀ reg : Str, reg.length = 5 →
      decReg reg false = 'x' :: natToDec (binToNat reg) ∧ binToNat reg < 32) ∧
    res.asmFrags.map Frag.asm = [res.mne,
      'x' :: natToDec (binToNat (slice bin 11 5)),
      'x' :: natToDec (binToNat (slice bin 19 5)),
      'x' :: natToDec (binToNat (slice bin 24 5))] ∧
    binToNat (slice bin 11 5) < 32 ∧
    binToNat (slice bin 19 5) < 32 ∧
    binToNat (slice bin 24 5) < 32 := by
  have hbnd : ∀ reg : Str, reg.length = 5 → binToNat reg < 32 := by
    intro reg hlen
    have h := binToNat_lt reg
    rw [hlen] at h
    simpa using h
  refine ⟨fun reg hlen => ⟨rfl, hbnd reg hlen⟩, ?_,
    hbnd _ (slice_length h32 (by omega) (by omega)),
    hbnd _ (slice_length h32 (by omega) (by omega)),
    hbnd _ (slice_length h32 (by omega) (by omega))⟩
  rcases hop with hop | hop
  · rw [convertBinToAsm_eq h32 cfg, hop,
      show dispatch bin OPCODE.OP cfg = decodeOP bin OPCODE.OP from rfl,
      decodeOP_OP_eq h32] at hok
    rcases htbl : tblLookup ISA_OP (slice bin 31 7 ++ slice bin 14 3)
      with _ | mne
    · rw [htbl] at hok
      dsimp only at hok
      rw [bindErr] at hok
      exact absurd hok (by simp)
    · rw [htbl] at hok
      obtain ⟨entry, hisa, hcond, hres⟩ := tail_cases (c := cfg)
        (r := ⟨mne, none,
          [⟨mne, OPCODE.OP, "opcode".toList, false⟩,
           ⟨decReg (slice bin 11 5) false, slice bin 11 5, "rd".toList, false⟩,
           ⟨decReg (slice bin 19 5) false, slice bin 19 5, "rs1".toList, false⟩,
           ⟨decReg (slice bin 24 5) false, slice bin 24 5, "rs2".toList, false⟩],
          [⟨mne, slice bin 31 7, "funct7".toList, false⟩,
           ⟨decReg (slice bin 24 5) false, slice bin 24 5, "rs2".toList, false⟩,
           ⟨decReg (slice bin 19 5) false, slice bin 19 5, "rs1".toList, false⟩,
           ⟨mne, slice bin 14 3, "funct3".toList, false⟩,
           ⟨decReg (slice bin 11 5) false, slice bin 11 5, "rd".toList, false⟩,
           ⟨mne, OPCODE.OP, "opcode".toList, false⟩]⟩) hok
      subst hres
      rfl
  · rw [convertBinToAsm_eq h32 cfg, hop,
      show dispatch bin OPCODE.OP_32 cfg = decodeOP bin OPCODE.OP_32 from rfl,
      decodeOP_OP32_eq h32] at hok
    rcases htbl : tblLookup ISA_OP_32 (slice bin 31 7 ++ slice bin 14 3)
      with _ | mne
    · rw [htbl] at hok
      dsimp only at hok
      rw [bindErr] at hok
      exact absurd hok (by simp)
    · rw [htbl] at hok
      obtain ⟨entry, hisa, hcond, hres⟩ := tail_cases (c := cfg)
        (r := ⟨mne, none,
          [⟨mne, OPCODE.OP_32, "opcode".toList, false⟩,
           ⟨decReg (slice bin 11 5) false, slice bin 11 5, "rd".toList, false⟩,
           ⟨decReg (slice bin 19 5) false, slice bin 19 5, "rs1".toList, false⟩,
           ⟨decReg (slice bin 24 5) false, slice bin 24 5, "rs2".toList, false⟩],
          [⟨mne, slice bin 31 7, "funct7".toList, false⟩,
           ⟨decReg (slice bin 24 5) false, slice bin 24 5, "rs2".toList, false⟩,
           ⟨decReg (slice bin 19 5) false, slice bin 19 5, "rs1".toList, false⟩,
           ⟨mne, slice bin 14 3, "funct3".toList, false⟩,
           ⟨decReg (slice bin 11 5) false, slice bin 11 5, "rd".toList, false⟩,
           ⟨mne, OPCODE.OP_32, "opcode".toList, false⟩]⟩) hok
      subst hres
      rfl

/-- The word `add x10, x11, x12` (0x00c58533). -/
def wAdd : Str := "00000000110001011000010100110011".toList

/-- C9, witness: the theorem evaluated on the concrete word
0x00c58533 (`add x10, x11, x12`). -/
theorem claim_C9_witness :
    (convertBinToAsm wAdd cfgRV32).map (fun r => r.asmFrags.map Frag.asm) =
      .ok ["add".toList, "x10".toList, "x11".toList, "x12".toList] := by
  have hOk : (convertBinToAsm wAdd cfgRV32).isOk = true := by decide
  rcases hcomp : convertBinToAsm wAdd cfgRV32 with e | res
  · rw [hcomp] at hOk
    simp [Except.isOk, Except.toBool] at hOk
  · obtain ⟨_, hmap, _⟩ := claim_C9_registers wAdd cfgRV32 (by decide)
      (Or.inl (by decide)) res hcomp
    have hmne : res.mne = "add".toList := by
      have h2 : (convertBinToAsm wAdd cfgRV32).map InstrResult.mne =
          .ok "add".toList := by decide
      rw [hcomp, mapOk] at h2
      exact Except.ok.inj h2
    rw [mapOk, hmap, hmne]
    decide

/-- `#decodeBRANCH` on a BRANCH word, reduced to the dispatch-table
lookup. -/
theorem decodeBRANCH_eq {bin : Str} (h32 : bin.length = 32) :
    decodeBRANCH bin OPCODE.BRANCH =
      (match tblLookup ISA_BRANCH (slice bin 14 3) with
      | none => .error (.invalidFunct "BRANCH".toList)
      | some mne => .ok ⟨mne, none,
          [⟨mne, OPCODE.BRANCH, "opcode".toList, false⟩,
           ⟨decReg (slice bin 19 5) false, slice bin 19 5, "rs1".toList, false⟩,
           ⟨decReg (slice bin 24 5) false, slice bin 24 5, "rs2".toList, false⟩,
           ⟨intToDec (decImm (slice bin 31 1 ++ slice bin 7 1 ++
              slice bin 30 6 ++ slice bin 11 4 ++ ['0']) true),
            slice bin 31 1 ++ slice bin 7 1 ++ slice bin 30 6 ++
              slice bin 11 4 ++ ['0'], "imm".toList, false⟩],
          [⟨intToDec (decImm (slice bin 31 1 ++ slice bin 7 1 ++
              slice bin 30 6 ++ slice bin 11 4 ++ ['0']) true),
            slice bin 30 6, "imm[10:5]".toList, false⟩,
           ⟨decReg (slice bin 24 5) false, slice bin 24 5, "rs2".toList, false⟩,
           ⟨decReg (slice bin 19 5) false, slice bin 19 5, "rs1".toList, false⟩,
           ⟨mne, slice bin 14 3, "funct3".toList, false⟩,
           ⟨intToDec (decImm (slice bin 31 1 ++ slice bin 7 1 ++
              slice bin 30 6 ++ slice bin 11 4 ++ ['0']) true),
            slice bin 11 4, "imm[4:1]".toList, false⟩,
           ⟨mne, OPCODE.BRANCH, "opcode".toList, false⟩]⟩) := by
  unfold decodeBRANCH
  rw [extractBFields_eq h32, bindOk]
  rfl

/-- C6: in every successful BRANCH decode, the rendered offset token
is the signed two's-complement value of the 13-bit concatenation
`imm_12 ‖ imm_11 ‖ imm_10_5 ‖ imm_4_1 ‖ 0`: the concatenation's value
minus 2^13 when `imm_12` is 1. -/
theorem claim_C6_branch_offset (bin : Str) (cfg : Config)
    (h32 : bin.length = 32)
    (hop : slice bin 6 7 = OPCODE.BRANCH)
    (res : InstrResult) (hok : convertBinToAsm bin cfg = .ok res) :
    ∃ fr : Frag, res.asmFrags.getLast? = some fr ∧
      fr.bits = slice bin 31 1 ++ slice bin 7 1 ++ slice bin 30 6 ++
        slice bin 11 4 ++ ['0'] ∧
      fr.asm = intToDec ((binToNat (slice bin 31 1 ++ slice bin 7 1 ++
          slice bin 30 6 ++ slice bin 11 4 ++ ['0']) : Int) -
        (if slice bin 31 1 = ['1'] then 8192 else 0)) := by
  have h1 : (slice bin 31 1).length = 1 := slice_length h32 (by omega) (by omega)
  obtain ⟨c, hc⟩ := List.length_eq_one.mp h1
  have himm : decImm (slice bin 31 1 ++ slice bin 7 1 ++ slice bin 30 6 ++
      slice bin 11 4 ++ ['0']) true =
      (binToNat (slice bin 31 1 ++ slice bin 7 1 ++ slice bin 30 6 ++
        slice bin 11 4 ++ ['0']) : Int) -
      (if slice bin 31 1 = ['1'] then 8192 else 0) := by
    rw [decImm_true_eq]
    congr 1
    have hlen : (slice bin 31 1 ++ slice bin 7 1 ++ slice bin 30 6 ++
        slice bin 11 4 ++ ['0']).length = 13 := by
      simp only [List.length_append, h1,
        @slice_length bin h32 7 1 (by omega) (by omega),
        @slice_length bin h32 30 6 (by omega) (by omega),
        @slice_length bin h32 11 4 (by omega) (by omega),
        List.length_singleton]
    rw [hlen]
    have hhead : (slice bin 31 1 ++ slice bin 7 1 ++ slice bin 30 6 ++
        slice bin 11 4 ++ ['0']).head? = some c := by
      rw [hc]
      simp [List.cons_append]
    rw [hhead, hc]
    by_cases hc1 : c = '1'
    · rw [if_pos (by rw [hc1]), if_pos (by rw [hc1])]
      norm_num
    · rw [if_neg (by simp [hc1]), if_neg (by simp [hc1])]
  rw [convertBinToAsm_eq h32 cfg, hop,
    show dispatch bin OPCODE.BRANCH cfg = decodeBRANCH bin OPCODE.BRANCH
      from rfl,
    decodeBRANCH_eq h32] at hok
  rcases htbl : tblLookup ISA_BRANCH (slice bin 14 3) with _ | mne
  · rw [htbl] at hok
    dsimp only at hok
    rw [bindErr] at hok
    exact absurd hok (by simp)
  · rw [htbl] at hok
    obtain ⟨entry, hisa, hcond, hres⟩ := tail_cases (c := cfg)
      (r := ⟨mne, none,
        [⟨mne, OPCODE.BRANCH, "opcode".toList, false⟩,
         ⟨decReg (slice bin 19 5) false, slice bin 19 5, "rs1".toList, false⟩,
         ⟨decReg (slice bin 24 5) false, slice bin 24 5, "rs2".toList, false⟩,
         ⟨intToDec (decImm (slice bin 31 1 ++ slice bin 7 1 ++
            slice bin 30 6 ++ slice bin 11 4 ++ ['0']) true),
          slice bin 31 1 ++ slice bin 7 1 ++ slice bin 30 6 ++
            slice bin 11 4 ++ ['0'], "imm".toList, false⟩],
        [⟨intToDec (decImm (slice bin 31 1 ++ slice bin 7 1 ++
            slice bin 30 6 ++ slice bin 11 4 ++ ['0']) true),
          slice bin 30 6, "imm[10:5]".toList, false⟩,
         ⟨decReg (slice bin 24 5) false, slice bin 24 5, "rs2".toList, false⟩,
         ⟨decReg (slice bin 19 5) false, slice bin 19 5, "rs1".toList, false⟩,
         ⟨mne, slice bin 14 3, "funct3".toList, false⟩,
         ⟨intToDec (decImm (slice bin 31 1 ++ slice bin 7 1 ++
            slice bin 30 6 ++ slice bin 11 4 ++ ['0']) true),
          slice bin 11 4, "imm[4:1]".toList, false⟩,
         ⟨mne, OPCODE.BRANCH, "opcode".toList, false⟩]⟩) hok
    subst hres
    exact ⟨⟨intToDec (decImm (slice bin 31 1 ++ slice bin 7 1 ++
        slice bin 30 6 ++ slice bin 11 4 ++ ['0']) true),
      slice bin 31 1 ++ slice bin 7 1 ++ slice bin 30 6 ++
        slice bin 11 4 ++ ['0'], "imm".toList, false⟩,
      rfl, rfl, by rw [← himm]⟩

/-- C6, witness: the theorem evaluated on the concrete word
0xfe000ee3 (`beq x0, x0, -4`): the offset token is "-4". -/
theorem claim_C6_witness :
    (convertBinToAsm wBeq cfgRV32).map
      (fun r => r.asmFrags.getLast?.map Frag.asm) =
    .ok (some "-4".toList) := by
  have hOk : (convertBinToAsm wBeq cfgRV32).isOk = true := by decide
  rcases hcomp : convertBinToAsm wBeq cfgRV32 with e | res
  · rw [hcomp] at hOk
    simp [Except.isOk, Except.toBool] at hOk
  · obtain ⟨fr, hlast, _, hasm⟩ := claim_C6_branch_offset wBeq cfgRV32
      (by decide) (by decide) res hcomp
    rw [mapOk, hlast, Option.map_some', hasm]
    decide

/-- `decMem` on an explicit 4-bit mask: the concatenation of the
letters `i, o, r, w` for the set bits, MSB to LSB. -/
theorem decMem_explicit (a b c d : Char) :
    decMem [a, b, c, d] =
      (if ((if a = '1' then ['i'] else []) ++ (if b = '1' then ['o'] else []) ++
          (if c = '1' then ['r'] else []) ++ (if d = '1' then ['w'] else [])) = []
       then .error .invalidFence
       else .ok ((if a = '1' then ['i'] else []) ++ (if b = '1' then ['o'] else []) ++
          (if c = '1' then ['r'] else []) ++ (if d = '1' then ['w'] else []))) := by
  unfold decMem
  by_cases ha : a = '1' <;> by_cases hb : b = '1' <;>
    by_cases hc : c = '1' <;> by_cases hd : d = '1' <;>
      simp [ha, hb, hc, hd]

/-- The only `decMem` failure is the invalid-fence error. -/
theorem decMem_error_eq {l : Str} {e : DecErr} (h : decMem l = .error e) :
    e = DecErr.invalidFence := by
  unfold decMem at h
  dsimp only at h
  split at h
  · exact (Except.error.inj h).symm
  · exact absurd h (by simp)

/-- `#decodeMISC_MEM` on a fence word (funct3 = 000, zero registers),
reduced to the two mask decodings. -/
theorem decodeMISC_MEM_fence_eq {bin : Str} (h32 : bin.length = 32)
    (hf3 : slice bin 14 3 = "000".toList)
    (hrd : slice bin 11 5 = "00000".toList)
    (hrs1 : slice bin 19 5 = "00000".toList) :
    decodeMISC_MEM bin OPCODE.MISC_MEM =
      (decMem (slice bin 27 4)) >>= (fun predecessor =>
      (decMem (slice bin 23 4)) >>= (fun successor =>
      Except.ok ⟨"fence".toList, none,
        [⟨"fence".toList, OPCODE.MISC_MEM, "opcode".toList, false⟩,
         ⟨predecessor, slice bin 27 4, "pred".toList, false⟩,
         ⟨successor, slice bin 23 4, "succ".toList, false⟩],
        [⟨"fence".toList, slice bin 31 4, "fm".toList, false⟩,
         ⟨predecessor, slice bin 27 4, "pred".toList, false⟩,
         ⟨successor, slice bin 23 4, "succ".toList, false⟩,
         ⟨"fence".toList, "00000".toList, "rs1".toList, false⟩,
         ⟨"fence".toList, "000".toList, "funct3".toList, false⟩,
         ⟨"fence".toList, "00000".toList, "rd".toList, false⟩,
         ⟨"fence".toList, OPCODE.MISC_MEM, "opcode".toList, false⟩]⟩)) := by
  have hext := extractIFields_eq h32
  rw [hf3, hrd, hrs1] at hext
  unfold decodeMISC_MEM
  rw [hext, bindOk]
  rfl

/-- C8: on a fence word (MISC-MEM, funct3 = 000, zero rd and rs1),
decoding fails with `InvalidFence` whenever either 4-bit mask is all
zero, and on success the `pred` and `succ` tokens are the
concatenation of the letters `i, o, r, w` for the set bits, MSB to
LSB, in that fixed order. -/
theorem claim_C8_fence (bin : Str) (cfg : Config) (h32 : bin.length = 32)
    (hop : slice bin 6 7 = OPCODE.MISC_MEM)
    (hf3 : slice bin 14 3 = "000".toList)
    (hrd : slice bin 11 5 = "00000".toList)
    (hrs1 : slice bin 19 5 = "00000".toList) :
    ((slice bin 27 4 = "0000".toList ∨ slice bin 23 4 = "0000".toList) →
      convertBinToAsm bin cfg = .error .invalidFence) ∧
    (∀ res, convertBinToAsm bin cfg = .ok res →
      ∀ a b c d e f g h, slice bin 27 4 = [a, b, c, d] →
        slice bin 23 4 = [e, f, g, h] →
        res.asmFrags.map Frag.asm = ["fence".toList,
          (if a = '1' then ['i'] else []) ++ (if b = '1' then ['o'] else []) ++
            (if c = '1' then ['r'] else []) ++ (if d = '1' then ['w'] else []),
          (if e = '1' then ['i'] else []) ++ (if f = '1' then ['o'] else []) ++
            (if g = '1' then ['r'] else []) ++ (if h = '1' then ['w'] else [])]) := by
  have hcv : convertBinToAsm bin cfg =
      (decodeMISC_MEM bin OPCODE.MISC_MEM) >>= (fun r =>
        match tblLookup ISA r.mne with
        | none => Except.error DecErr.internalError
        | some entry =>
          let isa := r.isaOv.getD entry.isa
          if cfg.ISA == CoptsIsa.RV32I && isRV64 isa then
            Except.error (DecErr.isaMismatch isa)
          else
            Except.ok ⟨renderAsm r.asmFrags cfg.ABI, entry.fmt, isa, r.mne,
              r.asmFrags, r.binFrags⟩) := by
    rw [convertBinToAsm_eq h32 cfg, hop]
    rfl
  rw [decodeMISC_MEM_fence_eq h32 hf3 hrd hrs1] at hcv
  constructor
  · rintro (hz | hz)
    · rw [hcv, hz]
      rfl
    · rcases hpred : decMem (slice bin 27 4) with e | p
      · rw [hcv, hpred, decMem_error_eq hpred]
        rfl
      · rw [hcv, hpred, hz]
        rfl
  · intro res hok a b c d e f g h hq1 hq2
    rw [hcv] at hok
    rcases hpred : decMem (slice bin 27 4) with e1 | p
    · rw [hpred, bindErr, bindErr] at hok
      exact absurd hok (by simp)
    · rw [hpred, bindOk] at hok
      rcases hsucc : decMem (slice bin 23 4) with e2 | s
      · rw [hsucc, bindErr, bindErr] at hok
        exact absurd hok (by simp)
      · rw [hsucc, bindOk] at hok
        obtain ⟨entry, hisa, hcond, hres⟩ := tail_cases (c := cfg)
          (r := ⟨"fence".toList, none,
            [⟨"fence".toList, OPCODE.MISC_MEM, "opcode".toList, false⟩,
             ⟨p, slice bin 27 4, "pred".toList, false⟩,
             ⟨s, slice bin 23 4, "succ".toList, false⟩],
            [⟨"fence".toList, slice bin 31 4, "fm".toList, false⟩,
             ⟨p, slice bin 27 4, "pred".toList, false⟩,
             ⟨s, slice bin 23 4, "succ".toList, false⟩,
             ⟨"fence".toList, "00000".toList, "rs1".toList, false⟩,
             ⟨"fence".toList, "000".toList, "funct3".toList, false⟩,
             ⟨"fence".toList, "00000".toList, "rd".toList, false⟩,
             ⟨"fence".toList, OPCODE.MISC_MEM, "opcode".toList, false⟩]⟩) hok
        subst hres
        rw [hq1, decMem_explicit] at hpred
        rw [hq2, decMem_explicit] at hsucc
        have hp : p = (if a = '1' then ['i'] else []) ++
            (if b = '1' then ['o'] else []) ++ (if c = '1' then ['r'] else []) ++
            (if d = '1' then ['w'] else []) := by
          by_cases hout : ((if a = '1' then ['i'] else []) ++
              (if b = '1' then ['o'] else []) ++ (if c = '1' then ['r'] else []) ++
              (if d = '1' then ['w'] else [])) = []
          · rw [if_pos hout] at hpred
            exact absurd hpred (by simp)
          · rw [if_neg hout] at hpred
            exact (Except.ok.inj hpred).symm
        have hs : s = (if e = '1' then ['i'] else []) ++
            (if f = '1' then ['o'] else []) ++ (if g = '1' then ['r'] else []) ++
            (if h = '1' then ['w'] else []) := by
          by_cases hout : ((if e = '1' then ['i'] else []) ++
              (if f = '1' then ['o'] else []) ++ (if g = '1' then ['r'] else []) ++
              (if h = '1' then ['w'] else [])) = []
          · rw [if_pos hout] at hsucc
            exact absurd hsucc (by simp)
          · rw [if_neg hout] at hsucc
            exact (Except.ok.inj hsucc).symm
        rw [← hp, ← hs]
        rfl

/-- A narrower slice is a prefix of a wider slice at the same high
bit. -/
theorem slice_take {bin : Str} (hi w w' : Nat) (hw : w' ≤ w) :
    slice bin hi w' = (slice bin hi w).take w' := by
  unfold slice
  rw [List.take_take, min_eq_left hw]

/-- The code point test for a lowercase hex digit. -/
def isHexLower (c : Char) : Bool := c.isDigit || ('a' ≤ c && c ≤ 'f')

/-- `hexChar` produces lowercase hex digits. -/
theorem hexChar_isHexLower {n : Nat} (h : n < 16) :
    isHexLower (hexChar n) = true := by
  interval_cases n <;> decide

/-- Every character `natToHexAux` emits is a lowercase hex digit. -/
theorem natToHexAux_hexdigits (fuel n : Nat) :
    ∀ c ∈ natToHexAux fuel n, isHexLower c = true := by
  induction fuel generalizing n with
  | zero => intro c hc; simp [natToHexAux] at hc
  | succ fuel ih =>
    intro c hc
    unfold natToHexAux at hc
    split at hc
    · next h =>
      simp only [List.mem_singleton] at hc
      subst hc
      exact hexChar_isHexLower h
    · next h =>
      rcases List.mem_append.mp hc with h1 | h1
      · exact ih _ c h1
      · simp only [List.mem_singleton] at h1
        subst h1
        exact hexChar_isHexLower (Nat.mod_lt _ (by omega))

/-- Length bounds for the fuel-driven hex rendering. -/
theorem natToHexAux_len (fuel : Nat) :
    ∀ n k, n < fuel → 1 ≤ k → n < 16 ^ k →
      1 ≤ (natToHexAux fuel n).length ∧ (natToHexAux fuel n).length ≤ k := by
  induction fuel with
  | zero => intro n k hn _ _; omega
  | succ fuel ih =>
    intro n k hn hk hpow
    unfold natToHexAux
    split
    · simp only [List.length_singleton]
      omega
    · next h =>
      have h16 : 16 ≤ n := by omega
      match k, hk with
      | 1, _ => omega
      | k + 2, _ =>
        have hfuel : n / 16 < fuel := by
          have := Nat.div_lt_self (show 0 < n by omega) (show 1 < 16 by omega)
          omega
        have hpow2 : n / 16 < 16 ^ (k + 1) := by
          rw [Nat.div_lt_iff_lt_mul (by omega)]
          calc n < 16 ^ (k + 2) := hpow
            _ = 16 ^ (k + 1) * 16 := by ring
        have hrec := ih (n / 16) (k + 1) hfuel (by omega) hpow2
        rw [List.length_append, List.length_singleton]
        omega

/-- `decCSR` on a 12-bit address: either a name from the `CSR` table
whose stored address is the field value, or '0x' followed by exactly
three lowercase hex digits. -/
theorem decCSR_spec (l : Str) (hlen : l.length = 12) :
    (∃ p ∈ CSR, p.2 = binToNat l ∧ decCSR l = p.1) ∨
    (∃ ds, decCSR l = '0' :: 'x' :: ds ∧ ds.length = 3 ∧
      ∀ c ∈ ds, isHexLower c = true) := by
  unfold decCSR
  dsimp only
  rcases hfind : CSR.find? (fun e => e.2 == binToNat l) with _ | e
  all_goals rw [hfind]
  · right
    have hval : binToNat l < 4096 := by
      have := binToNat_lt l
      rw [hlen] at this
      simpa using this
    have hhex := natToHexAux_len (binToNat l + 1) (binToNat l) 3 (by omega)
      (by omega) (by omega)
    refine ⟨List.replicate (3 - (natToHex (binToNat l)).length) '0' ++
      natToHex (binToNat l), rfl, ?_, ?_⟩
    · rw [List.length_append, List.length_replicate]
      have h1 := hhex.1
      have h2 := hhex.2
      unfold natToHex at h1 h2 ⊢
      omega
    · intro c hc
      rcases List.mem_append.mp hc with h1 | h1
      · rw [List.eq_of_mem_replicate h1]
        decide
      · exact natToHexAux_hexdigits _ _ c h1
  · left
    refine ⟨e, List.mem_of_find?_eq_some hfind, ?_, rfl⟩
    have := List.find?_some hfind
    simpa using this

/-- `#decodeSYSTEM` on a Zicsr word whose funct3 MSB is 0: the source
operand is a register. -/
theorem decodeSYSTEM_zicsr_reg {b : Str} (h32 : b.length = 32) (m : Str)
    {f3 : Str} (hfc : slice b 14 3 = f3)
    (htbl : tblLookup ISA_SYSTEM f3 = some (.direct m))
    (hhead : f3.head? = some '0') :
    decodeSYSTEM b OPCODE.SYSTEM = .ok ⟨m, none,
      [⟨m, OPCODE.SYSTEM, "opcode".toList, false⟩,
       ⟨decReg (slice b 11 5) false, slice b 11 5, "rd".toList, false⟩,
       ⟨decCSR (slice b 31 12), slice b 31 12, "csr".toList, false⟩,
       ⟨decReg (slice b 19 5) false, slice b 19 5, "rs1".toList, false⟩],
      [⟨decCSR (slice b 31 12), slice b 31 12, "csr".toList, false⟩,
       ⟨decReg (slice b 19 5) false, slice b 19 5, "rs1".toList, false⟩,
       ⟨m, f3, "funct3".toList, false⟩,
       ⟨decReg (slice b 11 5) false, slice b 11 5, "rd".toList, false⟩,
       ⟨m, OPCODE.SYSTEM, "opcode".toList, false⟩]⟩ := by
  have hext := extractIFields_eq h32
  rw [hfc] at hext
  unfold decodeSYSTEM
  rw [hext, bindOk]
  dsimp only
  rw [htbl, hhead]
  rfl

/-- `#decodeSYSTEM` on a Zicsr word whose funct3 MSB is 1: the source
operand is a 5-bit unsigned immediate. -/
theorem decodeSYSTEM_zicsr_imm {b : Str} (h32 : b.length = 32) (m : Str)
    {f3 : Str} (hfc : slice b 14 3 = f3)
    (htbl : tblLookup ISA_SYSTEM f3 = some (.direct m))
    (hhead : f3.head? = some '1') :
    decodeSYSTEM b OPCODE.SYSTEM = .ok ⟨m, none,
      [⟨m, OPCODE.SYSTEM, "opcode".toList, false⟩,
       ⟨decReg (slice b 11 5) false, slice b 11 5, "rd".toList, false⟩,
       ⟨decCSR (slice b 31 12), slice b 31 12, "csr".toList, false⟩,
       ⟨intToDec (decImm (slice b 19 5) false), slice b 19 5,
         "imm[4:0]".toList, false⟩],
      [⟨decCSR (slice b 31 12), slice b 31 12, "csr".toList, false⟩,
       ⟨intToDec (decImm (slice b 19 5) false), slice b 19 5,
         "imm[4:0]".toList, false⟩,
       ⟨m, f3, "funct3".toList, false⟩,
       ⟨decReg (slice b 11 5) false, slice b 11 5, "rd".toList, false⟩,
       ⟨m, OPCODE.SYSTEM, "opcode".toList, false⟩]⟩ := by
  have hext := extractIFields_eq h32
  rw [hfc] at hext
  unfold decodeSYSTEM
  rw [hext, bindOk]
  dsimp only
  rw [htbl, hhead]
  rfl

/-- C7: in every successful SYSTEM decode with nonzero funct3 (the
Zicsr family), the source operand is a register token when the funct3
MSB (bit 14) is 0 and the plain 5-bit unsigned immediate when it is 1;
the csr token is the table name when the 12-bit address is known,
otherwise '0x' followed by exactly three lowercase hex digits. -/
theorem claim_C7_zicsr (bin : Str) (cfg : Config) (h32 : bin.length = 32)
    (hb : IsBin bin) (hop : slice bin 6 7 = OPCODE.SYSTEM)
    (hf3 : slice bin 14 3 ≠ "000".toList)
    (res : InstrResult) (hok : convertBinToAsm bin cfg = .ok res) :
    ∃ csrFr srcFr : Frag,
      res.asmFrags = [⟨res.mne, OPCODE.SYSTEM, "opcode".toList, false⟩,
        ⟨decReg (slice bin 11 5) false, slice bin 11 5, "rd".toList, false⟩,
        csrFr, srcFr] ∧
      csrFr.bits = slice bin 31 12 ∧
      csrFr.asm = decCSR (slice bin 31 12) ∧
      ((∃ p ∈ CSR, p.2 = binToNat (slice bin 31 12) ∧ csrFr.asm = p.1) ∨
       (∃ ds, csrFr.asm = '0' :: 'x' :: ds ∧ ds.length = 3 ∧
         ∀ c ∈ ds, isHexLower c = true)) ∧
      (slice bin 14 1 = ['0'] →
        srcFr = ⟨decReg (slice bin 19 5) false, slice bin 19 5,
          "rs1".toList, false⟩) ∧
      (slice bin 14 1 = ['1'] →
        srcFr = ⟨intToDec (binToNat (slice bin 19 5)), slice bin 19 5,
          "imm[4:0]".toList, false⟩ ∧ binToNat (slice bin 19 5) < 32) := by
  have hcv : convertBinToAsm bin cfg =
      (decodeSYSTEM bin OPCODE.SYSTEM) >>= (fun r =>
        match tblLookup ISA r.mne with
        | none => Except.error DecErr.internalError
        | some entry =>
          let isa := r.isaOv.getD entry.isa
          if cfg.ISA == CoptsIsa.RV32I && isRV64 isa then
            Except.error (DecErr.isaMismatch isa)
          else
            Except.ok ⟨renderAsm r.asmFrags cfg.ABI, entry.fmt, isa, r.mne,
              r.asmFrags, r.binFrags⟩) := by
    rw [convertBinToAsm_eq h32 cfg, hop]
    rfl
  have hlen3 : (slice bin 14 3).length = 3 :=
    @slice_length bin h32 14 3 (by omega) (by omega)
  have hlen12 : (slice bin 31 12).length = 12 :=
    @slice_length bin h32 31 12 (by omega) (by omega)
  have hb3 : IsBin (slice bin 14 3) := hb.slice 14 3
  rcases bin3_cases hlen3 hb3 with hfc | hfc | hfc | hfc | hfc | hfc | hfc | hfc
  · exact absurd hfc hf3
  · rw [hcv, decodeSYSTEM_zicsr_reg h32 ("csrrw".toList) hfc (by decide)
      (by decide), bindOk] at hok
    obtain ⟨entry, hisa, hcond, hres⟩ := tail_cases (c := cfg)
      (r := ⟨"csrrw".toList, none,
        [⟨"csrrw".toList, OPCODE.SYSTEM, "opcode".toList, false⟩,
         ⟨decReg (slice bin 11 5) false, slice bin 11 5, "rd".toList, false⟩,
         ⟨decCSR (slice bin 31 12), slice bin 31 12, "csr".toList, false⟩,
         ⟨decReg (slice bin 19 5) false, slice bin 19 5, "rs1".toList, false⟩],
        [⟨decCSR (slice bin 31 12), slice bin 31 12, "csr".toList, false⟩,
         ⟨decReg (slice bin 19 5) false, slice bin 19 5, "rs1".toList, false⟩,
         ⟨"csrrw".toList, "001".toList, "funct3".toList, false⟩,
         ⟨decReg (slice bin 11 5) false, slice bin 11 5, "rd".toList, false⟩,
         ⟨"csrrw".toList, OPCODE.SYSTEM, "opcode".toList, false⟩]⟩) hok
    subst hres
    have h141 : slice bin 14 1 = ['0'] := by
      rw [slice_take 14 3 1 (by omega), hfc]
      decide
    exact ⟨⟨decCSR (slice bin 31 12), slice bin 31 12, "csr".toList, false⟩,
      ⟨decReg (slice bin 19 5) false, slice bin 19 5, "rs1".toList, false⟩,
      rfl, rfl, rfl, decCSR_spec _ hlen12, fun _ => rfl,
      fun hcontra => absurd (h141.symm.trans hcontra) (by decide)⟩
  · rw [hcv, decodeSYSTEM_zicsr_reg h32 ("csrrs".toList) hfc (by decide)
      (by decide), bindOk] at hok
    obtain ⟨entry, hisa, hcond, hres⟩ := tail_cases (c := cfg)
      (r := ⟨"csrrs".toList, none,
        [⟨"csrrs".toList, OPCODE.SYSTEM, "opcode".toList, false⟩,
         ⟨decReg (slice bin 11 5) false, slice bin 11 5, "rd".toList, false⟩,
         ⟨decCSR (slice bin 31 12), slice bin 31 12, "csr".toList, false⟩,
         ⟨decReg (slice bin 19 5) false, slice bin 19 5, "rs1".toList, false⟩],
        [⟨decCSR (slice bin 31 12), slice bin 31 12, "csr".toList, false⟩,
         ⟨decReg (slice bin 19 5) false, slice bin 19 5, "rs1".toList, false⟩,
         ⟨"csrrs".toList, "010".toList, "funct3".toList, false⟩,
         ⟨decReg (slice bin 11 5) false, slice bin 11 5, "rd".toList, false⟩,
         ⟨"csrrs".toList, OPCODE.SYSTEM, "opcode".toList, false⟩]⟩) hok
    subst hres
    have h141 : slice bin 14 1 = ['0'] := by
      rw [slice_take 14 3 1 (by omega), hfc]
      decide
    exact ⟨⟨decCSR (slice bin 31 12), slice bin 31 12, "csr".toList, false⟩,
      ⟨decReg (slice bin 19 5) false, slice bin 19 5, "rs1".toList, false⟩,
      rfl, rfl, rfl, decCSR_spec _ hlen12, fun _ => rfl,
      fun hcontra => absurd (h141.symm.trans hcontra) (by decide)⟩
  · rw [hcv, decodeSYSTEM_zicsr_reg h32 ("csrrc".toList) hfc (by decide)
      (by decide), bindOk] at hok
    obtain ⟨entry, hisa, hcond, hres⟩ := tail_cases (c := cfg)
      (r := ⟨"csrrc".toList, none,
        [⟨"csrrc".toList, OPCODE.SYSTEM, "opcode".toList, false⟩,
         ⟨decReg (slice bin 11 5) false, slice bin 11 5, "rd".toList, false⟩,
         ⟨decCSR (slice bin 31 12), slice bin 31 12, "csr".toList, false⟩,
         ⟨decReg (slice bin 19 5) false, slice bin 19 5, "rs1".toList, false⟩],
        [⟨decCSR (slice bin 31 12), slice bin 31 12, "csr".toList, false⟩,
         ⟨decReg (slice bin 19 5) false, slice bin 19 5, "rs1".toList, false⟩,
         ⟨"csrrc".toList, "011".toList, "funct3".toList, false⟩,
         ⟨decReg (slice bin 11 5) false, slice bin 11 5, "rd".toList, false⟩,
         ⟨"csrrc".toList, OPCODE.SYSTEM, "opcode".toList, false⟩]⟩) hok
    subst hres
    have h141 : slice bin 14 1 = ['0'] := by
      rw [slice_take 14 3 1 (by omega), hfc]
      decide
    exact ⟨⟨decCSR (slice bin 31 12), slice bin 31 12, "csr".toList, false⟩,
      ⟨decReg (slice bin 19 5) false, slice bin 19 5, "rs1".toList, false⟩,
      rfl, rfl, rfl, decCSR_spec _ hlen12, fun _ => rfl,
      fun hcontra => absurd (h141.symm.trans hcontra) (by decide)⟩
  · have hsys : decodeSYSTEM bin OPCODE.SYSTEM =
        .error (.invalidFunct "SYSTEM".toList) := by
      have hext := extractIFields_eq h32
      rw [hfc] at hext
      unfold decodeSYSTEM
      rw [hext, bindOk]
      rfl
    rw [hcv, hsys, bindErr] at hok
    exact absurd hok (by simp)
  · rw [hcv, decodeSYSTEM_zicsr_imm h32 ("csrrwi".toList) hfc (by decide)
      (by decide), bindOk] at hok
    obtain ⟨entry, hisa, hcond, hres⟩ := tail_cases (c := cfg)
      (r := ⟨"csrrwi".toList, none,
        [⟨"csrrwi".toList, OPCODE.SYSTEM, "opcode".toList, false⟩,
         ⟨decReg (slice bin 11 5) false, slice bin 11 5, "rd".toList, false⟩,
         ⟨decCSR (slice bin 31 12), slice bin 31 12, "csr".toList, false⟩,
         ⟨intToDec (decImm (slice bin 19 5) false), slice bin 19 5,
           "imm[4:0]".toList, false⟩],
        [⟨decCSR (slice bin 31 12), slice bin 31 12, "csr".toList, false⟩,
         ⟨intToDec (decImm (slice bin 19 5) false), slice bin 19 5,
           "imm[4:0]".toList, false⟩,
         ⟨"csrrwi".toList, "101".toList, "funct3".toList, false⟩,
         ⟨decReg (slice bin 11 5) false, slice bin 11 5, "rd".toList, false⟩,
         ⟨"csrrwi".toList, OPCODE.SYSTEM, "opcode".toList, false⟩]⟩) hok
    subst hres
    have h141 : slice bin 14 1 = ['1'] := by
      rw [slice_take 14 3 1 (by omega), hfc]
      decide
    refine ⟨⟨decCSR (slice bin 31 12), slice bin 31 12, "csr".toList, false⟩,
      ⟨intToDec (decImm (slice bin 19 5) false), slice bin 19 5,
        "imm[4:0]".toList, false⟩,
      rfl, rfl, rfl, decCSR_spec _ hlen12,
      fun hcontra => absurd (h141.symm.trans hcontra) (by decide),
      fun _ => ⟨rfl, ?_⟩⟩
    have h := binToNat_lt (slice bin 19 5)
    rw [@slice_length bin h32 19 5 (by omega) (by omega)] at h
    simpa using h
  · rw [hcv, decodeSYSTEM_zicsr_imm h32 ("csrrsi".toList) hfc (by decide)
      (by decide), bindOk] at hok
    obtain ⟨entry, hisa, hcond, hres⟩ := tail_cases (c := cfg)
      (r := ⟨"csrrsi".toList, none,
        [⟨"csrrsi".toList, OPCODE.SYSTEM, "opcode".toList, false⟩,
         ⟨decReg (slice bin 11 5) false, slice bin 11 5, "rd".toList, false⟩,
         ⟨decCSR (slice bin 31 12), slice bin 31 12, "csr".toList, false⟩,
         ⟨intToDec (decImm (slice bin 19 5) false), slice bin 19 5,
           "imm[4:0]".toList, false⟩],
        [⟨decCSR (slice bin 31 12), slice bin 31 12, "csr".toList, false⟩,
         ⟨intToDec (decImm (slice bin 19 5) false), slice bin 19 5,
           "imm[4:0]".toList, false⟩,
         ⟨"csrrsi".toList, "110".toList, "funct3".toList, false⟩,
         ⟨decReg (slice bin 11 5) false, slice bin 11 5, "rd".toList, false⟩,
         ⟨"csrrsi".toList, OPCODE.SYSTEM, "opcode".toList, false⟩]⟩) hok
    subst hres
    have h141 : slice bin 14 1 = ['1'] := by
      rw [slice_take 14 3 1 (by omega), hfc]
      decide
    refine ⟨⟨decCSR (slice bin 31 12), slice bin 31 12, "csr".toList, false⟩,
      ⟨intToDec (decImm (slice bin 19 5) false), slice bin 19 5,
        "imm[4:0]".toList, false⟩,
      rfl, rfl, rfl, decCSR_spec _ hlen12,
      fun hcontra => absurd (h141.symm.trans hcontra) (by decide),
      fun _ => ⟨rfl, ?_⟩⟩
    have h := binToNat_lt (slice bin 19 5)
    rw [@slice_length bin h32 19 5 (by omega) (by omega)] at h
    simpa using h
  · rw [hcv, decodeSYSTEM_zicsr_imm h32 ("csrrci".toList) hfc (by decide)
      (by decide), bindOk] at hok
    obtain ⟨entry, hisa, hcond, hres⟩ := tail_cases (c := cfg)
      (r := ⟨"csrrci".toList, none,
        [⟨"csrrci".toList, OPCODE.SYSTEM, "opcode".toList, false⟩,
         ⟨decReg (slice bin 11 5) false, slice bin 11 5, "rd".toList, false⟩,
         ⟨decCSR (slice bin 31 12), slice bin 31 12, "csr".toList, false⟩,
         ⟨intToDec (decImm (slice bin 19 5) false), slice bin 19 5,
           "imm[4:0]".toList, false⟩],
        [⟨decCSR (slice bin 31 12), slice bin 31 12, "csr".toList, false⟩,
         ⟨intToDec (decImm (slice bin 19 5) false), slice bin 19 5,
           "imm[4:0]".toList, false⟩,
         ⟨"csrrci".toList, "111".toList, "funct3".toList, false⟩,
         ⟨decReg (slice bin 11 5) false, slice bin 11 5, "rd".toList, false⟩,
         ⟨"csrrci".toList, OPCODE.SYSTEM, "opcode".toList, false⟩]⟩) hok
    subst hres
    have h141 : slice bin 14 1 = ['1'] := by
      rw [slice_take 14 3 1 (by omega), hfc]
      decide
    refine ⟨⟨decCSR (slice bin 31 12), slice bin 31 12, "csr".toList, false⟩,
      ⟨intToDec (decImm (slice bin 19 5) false), slice bin 19 5,
        "imm[4:0]".toList, false⟩,
      rfl, rfl, rfl, decCSR_spec _ hlen12,
      fun hcontra => absurd (h141.symm.trans hcontra) (by decide),
      fun _ => ⟨rfl, ?_⟩⟩
    have h := binToNat_lt (slice bin 19 5)
    rw [@slice_length bin h32 19 5 (by omega) (by omega)] at h
    simpa using h

/-- C3: for OP-IMM shift words, the shift amount is decoded as 6 bits
exactly when the configured ISA is RV64I or bit 25 (`shamt[5]`) is 1;
a 6-bit shamt under an RV32I configuration fails with
`ShiftOutOfRange`; and a successful 6-bit decode reports ISA RV64I
regardless of the mnemonic's table entry. -/
theorem claim_C3_opimm_shift (bin : Str) (cfg : Config)
    (h32 : bin.length = 32) (hb : IsBin bin)
    (hop : slice bin 6 7 = OPCODE.OP_IMM)
    (hf3 : slice bin 14 3 = "001".toList ∨ slice bin 14 3 = "101".toList) :
    ((cfg.ISA = CoptsIsa.RV64I ∨ slice bin 25 1 = ['1']) →
      ((cfg.ISA = CoptsIsa.RV32I →
        convertBinToAsm bin cfg = .error (.shiftOutOfRange "OP-IMM".toList
          (binToNat (slice bin 25 1 ++ slice bin 24 5)))) ∧
       (∀ res : InstrResult, convertBinToAsm bin cfg = .ok res →
         res.isa = "RV64I".toList ∧
         ∃ fr : Frag, res.asmFrags.getLast? = some fr ∧
           fr.bits = slice bin 25 1 ++ slice bin 24 5 ∧
           fr.bits.length = 6))) ∧
    (¬(cfg.ISA = CoptsIsa.RV64I ∨ slice bin 25 1 = ['1']) →
      ∀ res : InstrResult, convertBinToAsm bin cfg = .ok res →
        ∃ fr : Frag, res.asmFrags.getLast? = some fr ∧
          fr.bits = slice bin 24 5 ∧ fr.bits.length = 5) := by
  have hcv : convertBinToAsm bin cfg =
      (decodeOP_IMM bin OPCODE.OP_IMM cfg) >>= (fun r =>
        match tblLookup ISA r.mne with
        | none => Except.error DecErr.internalError
        | some entry =>
          let isa := r.isaOv.getD entry.isa
          if cfg.ISA == CoptsIsa.RV32I && isRV64 isa then
            Except.error (DecErr.isaMismatch isa)
          else
            Except.ok ⟨renderAsm r.asmFrags cfg.ABI, entry.fmt, isa, r.mne,
              r.asmFrags, r.binFrags⟩) := by
    rw [convertBinToAsm_eq h32 cfg, hop]
    rfl
  have hl25 : (slice bin 25 1).length = 1 :=
    @slice_length bin h32 25 1 (by omega) (by omega)
  have hb25 : IsBin (slice bin 25 1) := hb.slice 25 1
  have hl30 : (slice bin 30 1).length = 1 :=
    @slice_length bin h32 30 1 (by omega) (by omega)
  have hb30 : IsBin (slice bin 30 1) := hb.slice 30 1
  rcases cfg with ⟨cisa, cabi⟩
  rcases hf3 with hfc | hfc
  rcases cisa with _ | _
  · rcases bin1_cases hl25 hb25 with hs5 | hs5
    · have hext := extractIFields_eq h32
      rw [hfc, hs5] at hext
      have hde : decodeOP_IMM bin OPCODE.OP_IMM ⟨CoptsIsa.RV32I, cabi⟩ =
          (if ((('0' :: slice bin 30 1 ++ "0000".toList) ++ ['0']) ≠ (slice bin 31 12).take 7) then
            Except.error (DecErr.badShtyp "OP-IMM".toList)
          else Except.ok ⟨"slli".toList, none,
              [⟨"slli".toList, OPCODE.OP_IMM, "opcode".toList, false⟩,
               ⟨decReg (slice bin 11 5) false, slice bin 11 5, "rd".toList, false⟩,
               ⟨decReg (slice bin 19 5) false, slice bin 19 5, "rs1".toList, false⟩,
               ⟨intToDec (decImm (slice bin 24 5) false), slice bin 24 5, "shamt[4:0]".toList, false⟩],
              [⟨"slli".toList, (('0' :: slice bin 30 1 ++ "0000".toList) ++ ['0']), "shtyp[11:5]".toList, false⟩,
               ⟨intToDec (decImm (slice bin 24 5) false), slice bin 24 5, "shamt[4:0]".toList, false⟩,
               ⟨decReg (slice bin 19 5) false, slice bin 19 5, "rs1".toList, false⟩,
               ⟨"slli".toList, "001".toList, "funct3".toList, false⟩,
               ⟨decReg (slice bin 11 5) false, slice bin 11 5, "rd".toList, false⟩,
               ⟨"slli".toList, OPCODE.OP_IMM, "opcode".toList, false⟩]⟩) := by
        unfold decodeOP_IMM
        rw [hext, bindOk]
        rfl
      constructor
      · intro hcontra
        rcases hcontra with h | h
        · exact absurd h (by simp)
        · rw [hs5] at h
          exact absurd h (by decide)
      · intro _ res hok
        rw [hcv, hde] at hok
        by_cases hval : (('0' :: slice bin 30 1 ++ "0000".toList) ++ ['0']) = (slice bin 31 12).take 7
        · rw [if_neg (not_not_intro hval), bindOk] at hok
          obtain ⟨entry, hisa, hcond, hres⟩ := tail_cases
            (c := ⟨CoptsIsa.RV32I, cabi⟩)
            (r := ⟨"slli".toList, none,
              [⟨"slli".toList, OPCODE.OP_IMM, "opcode".toList, false⟩,
               ⟨decReg (slice bin 11 5) false, slice bin 11 5, "rd".toList, false⟩,
               ⟨decReg (slice bin 19 5) false, slice bin 19 5, "rs1".toList, false⟩,
               ⟨intToDec (decImm (slice bin 24 5) false), slice bin 24 5, "shamt[4:0]".toList, false⟩],
              [⟨"slli".toList, (('0' :: slice bin 30 1 ++ "0000".toList) ++ ['0']), "shtyp[11:5]".toList, false⟩,
               ⟨intToDec (decImm (slice bin 24 5) false), slice bin 24 5, "shamt[4:0]".toList, false⟩,
               ⟨decReg (slice bin 19 5) false, slice bin 19 5, "rs1".toList, false⟩,
               ⟨"slli".toList, "001".toList, "funct3".toList, false⟩,
               ⟨decReg (slice bin 11 5) false, slice bin 11 5, "rd".toList, false⟩,
               ⟨"slli".toList, OPCODE.OP_IMM, "opcode".toList, false⟩]⟩) hok
          subst hres
          exact ⟨⟨intToDec (decImm (slice bin 24 5) false), slice bin 24 5, "shamt[4:0]".toList, false⟩,
            rfl, rfl, @slice_length bin h32 24 5 (by omega) (by omega)⟩
        · rw [if_pos hval, bindErr] at hok
          exact absurd hok (by simp)
    · have hext := extractIFields_eq h32
      rw [hfc, hs5] at hext
      have hde : decodeOP_IMM bin OPCODE.OP_IMM ⟨CoptsIsa.RV32I, cabi⟩ =
          Except.error (DecErr.shiftOutOfRange "OP-IMM".toList
            (decImm (['1'] ++ slice bin 24 5) false)) := by
        unfold decodeOP_IMM
        rw [hext, bindOk]
        rfl
      constructor
      · intro _
        constructor
        · intro _
          rw [hcv, hde, bindErr, hs5]
          rfl
        · intro res hok
          rw [hcv, hde, bindErr] at hok
          exact absurd hok (by simp)
      · intro hcontra
        exact absurd (Or.inr hs5) hcontra
  · have hext := extractIFields_eq h32
    rw [hfc] at hext
    have hde : decodeOP_IMM bin OPCODE.OP_IMM ⟨CoptsIsa.RV64I, cabi⟩ =
        (if (('0' :: slice bin 30 1 ++ "0000".toList) ≠ (slice bin 31 12).take 6) then
          Except.error (DecErr.badShtyp "OP-IMM".toList)
        else Except.ok ⟨"slli".toList, some "RV64I".toList,
              [⟨"slli".toList, OPCODE.OP_IMM, "opcode".toList, false⟩,
               ⟨decReg (slice bin 11 5) false, slice bin 11 5, "rd".toList, false⟩,
               ⟨decReg (slice bin 19 5) false, slice bin 19 5, "rs1".toList, false⟩,
               ⟨intToDec (decImm (slice bin 25 1 ++ slice bin 24 5) false), slice bin 25 1 ++ slice bin 24 5, "shamt[5:0]".toList, false⟩],
              [⟨"slli".toList, ('0' :: slice bin 30 1 ++ "0000".toList), "shtyp[11:6]".toList, false⟩,
               ⟨intToDec (decImm (slice bin 25 1 ++ slice bin 24 5) false), slice bin 25 1 ++ slice bin 24 5, "shamt[5:0]".toList, false⟩,
               ⟨decReg (slice bin 19 5) false, slice bin 19 5, "rs1".toList, false⟩,
               ⟨"slli".toList, "001".toList, "funct3".toList, false⟩,
               ⟨decReg (slice bin 11 5) false, slice bin 11 5, "rd".toList, false⟩,
               ⟨"slli".toList, OPCODE.OP_IMM, "opcode".toList, false⟩]⟩) := by
      unfold decodeOP_IMM
      rw [hext, bindOk]
      rfl
    constructor
    · intro _
      constructor
      · intro hcontra
        exact absurd hcontra (by simp)
      · intro res hok
        rw [hcv, hde] at hok
        by_cases hval : ('0' :: slice bin 30 1 ++ "0000".toList) = (slice bin 31 12).take 6
        · rw [if_neg (not_not_intro hval), bindOk] at hok
          obtain ⟨entry, hisa, hcond, hres⟩ := tail_cases
            (c := ⟨CoptsIsa.RV64I, cabi⟩)
            (r := ⟨"slli".toList, some "RV64I".toList,
              [⟨"slli".toList, OPCODE.OP_IMM, "opcode".toList, false⟩,
               ⟨decReg (slice bin 11 5) false, slice bin 11 5, "rd".toList, false⟩,
               ⟨decReg (slice bin 19 5) false, slice bin 19 5, "rs1".toList, false⟩,
               ⟨intToDec (decImm (slice bin 25 1 ++ slice bin 24 5) false), slice bin 25 1 ++ slice bin 24 5, "shamt[5:0]".toList, false⟩],
              [⟨"slli".toList, ('0' :: slice bin 30 1 ++ "0000".toList), "shtyp[11:6]".toList, false⟩,
               ⟨intToDec (decImm (slice bin 25 1 ++ slice bin 24 5) false), slice bin 25 1 ++ slice bin 24 5, "shamt[5:0]".toList, false⟩,
               ⟨decReg (slice bin 19 5) false, slice bin 19 5, "rs1".toList, false⟩,
               ⟨"slli".toList, "001".toList, "funct3".toList, false⟩,
               ⟨decReg (slice bin 11 5) false, slice bin 11 5, "rd".toList, false⟩,
               ⟨"slli".toList, OPCODE.OP_IMM, "opcode".toList, false⟩]⟩) hok
          subst hres
          refine ⟨rfl, ⟨intToDec (decImm (slice bin 25 1 ++ slice bin 24 5) false), slice bin 25 1 ++ slice bin 24 5, "shamt[5:0]".toList, false⟩,
            rfl, rfl, ?_⟩
          rw [List.length_append, hl25,
            @slice_length bin h32 24 5 (by omega) (by omega)]
        · rw [if_pos hval, bindErr] at hok
          exact absurd hok (by simp)
    · intro hcontra
      exact absurd (Or.inl rfl) hcontra
  · rcases bin1_cases hl30 hb30 with hsh | hsh
    rcases cisa with _ | _
    · rcases bin1_cases hl25 hb25 with hs5 | hs5
      · have hext := extractIFields_eq h32
        rw [hfc, hsh, hs5] at hext
        have hde : decodeOP_IMM bin OPCODE.OP_IMM ⟨CoptsIsa.RV32I, cabi⟩ =
            (if (("000000".toList ++ ['0']) ≠ (slice bin 31 12).take 7) then
              Except.error (DecErr.badShtyp "OP-IMM".toList)
            else Except.ok ⟨"srli".toList, none,
              [⟨"srli".toList, OPCODE.OP_IMM, "opcode".toList, false⟩,
               ⟨decReg (slice bin 11 5) false, slice bin 11 5, "rd".toList, false⟩,
               ⟨decReg (slice bin 19 5) false, slice bin 19 5, "rs1".toList, false⟩,
               ⟨intToDec (decImm (slice bin 24 5) false), slice bin 24 5, "shamt[4:0]".toList, false⟩],
              [⟨"srli".toList, ("000000".toList ++ ['0']), "shtyp[11:5]".toList, false⟩,
               ⟨intToDec (decImm (slice bin 24 5) false), slice bin 24 5, "shamt[4:0]".toList, false⟩,
               ⟨decReg (slice bin 19 5) false, slice bin 19 5, "rs1".toList, false⟩,
               ⟨"srli".toList, "101".toList, "funct3".toList, false⟩,
               ⟨decReg (slice bin 11 5) false, slice bin 11 5, "rd".toList, false⟩,
               ⟨"srli".toList, OPCODE.OP_IMM, "opcode".toList, false⟩]⟩) := by
          unfold decodeOP_IMM
          rw [hext, bindOk]
          rfl
        constructor
        · intro hcontra
          rcases hcontra with h | h
          · exact absurd h (by simp)
          · rw [hs5] at h
            exact absurd h (by decide)
        · intro _ res hok
          rw [hcv, hde] at hok
          by_cases hval : ("000000".toList ++ ['0']) = (slice bin 31 12).take 7
          · rw [if_neg (not_not_intro hval), bindOk] at hok
            obtain ⟨entry, hisa, hcond, hres⟩ := tail_cases
              (c := ⟨CoptsIsa.RV32I, cabi⟩)
              (r := ⟨"srli".toList, none,
              [⟨"srli".toList, OPCODE.OP_IMM, "opcode".toList, false⟩,
               ⟨decReg (slice bin 11 5) false, slice bin 11 5, "rd".toList, false⟩,
               ⟨decReg (slice bin 19 5) false, slice bin 19 5, "rs1".toList, false⟩,
               ⟨intToDec (decImm (slice bin 24 5) false), slice bin 24 5, "shamt[4:0]".toList, false⟩],
              [⟨"srli".toList, ("000000".toList ++ ['0']), "shtyp[11:5]".toList, false⟩,
               ⟨intToDec (decImm (slice bin 24 5) false), slice bin 24 5, "shamt[4:0]".toList, false⟩,
               ⟨decReg (slice bin 19 5) false, slice bin 19 5, "rs1".toList, false⟩,
               ⟨"srli".toList, "101".toList, "funct3".toList, false⟩,
               ⟨decReg (slice bin 11 5) false, slice bin 11 5, "rd".toList, false⟩,
               ⟨"srli".toList, OPCODE.OP_IMM, "opcode".toList, false⟩]⟩) hok
            subst hres
            exact ⟨⟨intToDec (decImm (slice bin 24 5) false), slice bin 24 5, "shamt[4:0]".toList, false⟩,
              rfl, rfl, @slice_length bin h32 24 5 (by omega) (by omega)⟩
          · rw [if_pos hval, bindErr] at hok
            exact absurd hok (by simp)
      · have hext := extractIFields_eq h32
        rw [hfc, hsh, hs5] at hext
        have hde : decodeOP_IMM bin OPCODE.OP_IMM ⟨CoptsIsa.RV32I, cabi⟩ =
            Except.error (DecErr.shiftOutOfRange "OP-IMM".toList
              (decImm (['1'] ++ slice bin 24 5) false)) := by
          unfold decodeOP_IMM
          rw [hext, bindOk]
          rfl
        constructor
        · intro _
          constructor
          · intro _
            rw [hcv, hde, bindErr, hs5]
            rfl
          · intro res hok
            rw [hcv, hde, bindErr] at hok
            exact absurd hok (by simp)
        · intro hcontra
          exact absurd (Or.inr hs5) hcontra
    · have hext := extractIFields_eq h32
      rw [hfc, hsh] at hext
      have hde : decodeOP_IMM bin OPCODE.OP_IMM ⟨CoptsIsa.RV64I, cabi⟩ =
          (if (("000000".toList) ≠ (slice bin 31 12).take 6) then
            Except.error (DecErr.badShtyp "OP-IMM".toList)
          else Except.ok ⟨"srli".toList, some "RV64I".toList,
              [⟨"srli".toList, OPCODE.OP_IMM, "opcode".toList, false⟩,
               ⟨decReg (slice bin 11 5) false, slice bin 11 5, "rd".toList, false⟩,
               ⟨decReg (slice bin 19 5) false, slice bin 19 5, "rs1".toList, false⟩,
               ⟨intToDec (decImm (slice bin 25 1 ++ slice bin 24 5) false), slice bin 25 1 ++ slice bin 24 5, "shamt[5:0]".toList, false⟩],
              [⟨"srli".toList, ("000000".toList), "shtyp[11:6]".toList, false⟩,
               ⟨intToDec (decImm (slice bin 25 1 ++ slice bin 24 5) false), slice bin 25 1 ++ slice bin 24 5, "shamt[5:0]".toList, false⟩,
               ⟨decReg (slice bin 19 5) false, slice bin 19 5, "rs1".toList, false⟩,
               ⟨"srli".toList, "101".toList, "funct3".toList, false⟩,
               ⟨decReg (slice bin 11 5) false, slice bin 11 5, "rd".toList, false⟩,
               ⟨"srli".toList, OPCODE.OP_IMM, "opcode".toList, false⟩]⟩) := by
        unfold decodeOP_IMM
        rw [hext, bindOk]
        rfl
      constructor
      · intro _
        constructor
        · intro hcontra
          exact absurd hcontra (by simp)
        · intro res hok
          rw [hcv, hde] at hok
          by_cases hval : ("000000".toList) = (slice bin 31 12).take 6
          · rw [if_neg (not_not_intro hval), bindOk] at hok
            obtain ⟨entry, hisa, hcond, hres⟩ := tail_cases
              (c := ⟨CoptsIsa.RV64I, cabi⟩)
              (r := ⟨"srli".toList, some "RV64I".toList,
              [⟨"srli".toList, OPCODE.OP_IMM, "opcode".toList, false⟩,
               ⟨decReg (slice bin 11 5) false, slice bin 11 5, "rd".toList, false⟩,
               ⟨decReg (slice bin 19 5) false, slice bin 19 5, "rs1".toList, false⟩,
               ⟨intToDec (decImm (slice bin 25 1 ++ slice bin 24 5) false), slice bin 25 1 ++ slice bin 24 5, "shamt[5:0]".toList, false⟩],
              [⟨"srli".toList, ("000000".toList), "shtyp[11:6]".toList, false⟩,
               ⟨intToDec (decImm (slice bin 25 1 ++ slice bin 24 5) false), slice bin 25 1 ++ slice bin 24 5, "shamt[5:0]".toList, false⟩,
               ⟨decReg (slice bin 19 5) false, slice bin 19 5, "rs1".toList, false⟩,
               ⟨"srli".toList, "101".toList, "funct3".toList, false⟩,
               ⟨decReg (slice bin 11 5) false, slice bin 11 5, "rd".toList, false⟩,
               ⟨"srli".toList, OPCODE.OP_IMM, "opcode".toList, false⟩]⟩) hok
            subst hres
            refine ⟨rfl, ⟨intToDec (decImm (slice bin 25 1 ++ slice bin 24 5) false), slice bin 25 1 ++ slice bin 24 5, "shamt[5:0]".toList, false⟩,
              rfl, rfl, ?_⟩
            rw [List.length_append, hl25,
              @slice_length bin h32 24 5 (by omega) (by omega)]
          · rw [if_pos hval, bindErr] at hok
            exact absurd hok (by simp)
      · intro hcontra
        exact absurd (Or.inl rfl) hcontra
    rcases cisa with _ | _
    · rcases bin1_cases hl25 hb25 with hs5 | hs5
      · have hext := extractIFields_eq h32
        rw [hfc, hsh, hs5] at hext
        have hde : decodeOP_IMM bin OPCODE.OP_IMM ⟨CoptsIsa.RV32I, cabi⟩ =
            (if (("010000".toList ++ ['0']) ≠ (slice bin 31 12).take 7) then
              Except.error (DecErr.badShtyp "OP-IMM".toList)
            else Except.ok ⟨"srai".toList, none,
              [⟨"srai".toList, OPCODE.OP_IMM, "opcode".toList, false⟩,
               ⟨decReg (slice bin 11 5) false, slice bin 11 5, "rd".toList, false⟩,
               ⟨decReg (slice bin 19 5) false, slice bin 19 5, "rs1".toList, false⟩,
               ⟨intToDec (decImm (slice bin 24 5) false), slice bin 24 5, "shamt[4:0]".toList, false⟩],
              [⟨"srai".toList, ("010000".toList ++ ['0']), "shtyp[11:5]".toList, false⟩,
               ⟨intToDec (decImm (slice bin 24 5) false), slice bin 24 5, "shamt[4:0]".toList, false⟩,
               ⟨decReg (slice bin 19 5) false, slice bin 19 5, "rs1".toList, false⟩,
               ⟨"srai".toList, "101".toList, "funct3".toList, false⟩,
               ⟨decReg (slice bin 11 5) false, slice bin 11 5, "rd".toList, false⟩,
               ⟨"srai".toList, OPCODE.OP_IMM, "opcode".toList, false⟩]⟩) := by
          unfold decodeOP_IMM
          rw [hext, bindOk]
          rfl
        constructor
        · intro hcontra
          rcases hcontra with h | h
          · exact absurd h (by simp)
          · rw [hs5] at h
            exact absurd h (by decide)
        · intro _ res hok
          rw [hcv, hde] at hok
          by_cases hval : ("010000".toList ++ ['0']) = (slice bin 31 12).take 7
          · rw [if_neg (not_not_intro hval), bindOk] at hok
            obtain ⟨entry, hisa, hcond, hres⟩ := tail_cases
              (c := ⟨CoptsIsa.RV32I, cabi⟩)
              (r := ⟨"srai".toList, none,
              [⟨"srai".toList, OPCODE.OP_IMM, "opcode".toList, false⟩,
               ⟨decReg (slice bin 11 5) false, slice bin 11 5, "rd".toList, false⟩,
               ⟨decReg (slice bin 19 5) false, slice bin 19 5, "rs1".toList, false⟩,
               ⟨intToDec (decImm (slice bin 24 5) false), slice bin 24 5, "shamt[4:0]".toList, false⟩],
              [⟨"srai".toList, ("010000".toList ++ ['0']), "shtyp[11:5]".toList, false⟩,
               ⟨intToDec (decImm (slice bin 24 5) false), slice bin 24 5, "shamt[4:0]".toList, false⟩,
               ⟨decReg (slice bin 19 5) false, slice bin 19 5, "rs1".toList, false⟩,
               ⟨"srai".toList, "101".toList, "funct3".toList, false⟩,
               ⟨decReg (slice bin 11 5) false, slice bin 11 5, "rd".toList, false⟩,
               ⟨"srai".toList, OPCODE.OP_IMM, "opcode".toList, false⟩]⟩) hok
            subst hres
            exact ⟨⟨intToDec (decImm (slice bin 24 5) false), slice bin 24 5, "shamt[4:0]".toList, false⟩,
              rfl, rfl, @slice_length bin h32 24 5 (by omega) (by omega)⟩
          · rw [if_pos hval, bindErr] at hok
            exact absurd hok (by simp)
      · have hext := extractIFields_eq h32
        rw [hfc, hsh, hs5] at hext
        have hde : decodeOP_IMM bin OPCODE.OP_IMM ⟨CoptsIsa.RV32I, cabi⟩ =
            Except.error (DecErr.shiftOutOfRange "OP-IMM".toList
              (decImm (['1'] ++ slice bin 24 5) false)) := by
          unfold decodeOP_IMM
          rw [hext, bindOk]
          rfl
        constructor
        · intro _
          constructor
          · intro _
            rw [hcv, hde, bindErr, hs5]
            rfl
          · intro res hok
            rw [hcv, hde, bindErr] at hok
            exact absurd hok (by simp)
        · intro hcontra
          exact absurd (Or.inr hs5) hcontra
    · have hext := extractIFields_eq h32
      rw [hfc, hsh] at hext
      have hde : decodeOP_IMM bin OPCODE.OP_IMM ⟨CoptsIsa.RV64I, cabi⟩ =
          (if (("010000".toList) ≠ (slice bin 31 12).take 6) then
            Except.error (DecErr.badShtyp "OP-IMM".toList)
          else Except.ok ⟨"srai".toList, some "RV64I".toList,
              [⟨"srai".toList, OPCODE.OP_IMM, "opcode".toList, false⟩,
               ⟨decReg (slice bin 11 5) false, slice bin 11 5, "rd".toList, false⟩,
               ⟨decReg (slice bin 19 5) false, slice bin 19 5, "rs1".toList, false⟩,
               ⟨intToDec (decImm (slice bin 25 1 ++ slice bin 24 5) false), slice bin 25 1 ++ slice bin 24 5, "shamt[5:0]".toList, false⟩],
              [⟨"srai".toList, ("010000".toList), "shtyp[11:6]".toList, false⟩,
               ⟨intToDec (decImm (slice bin 25 1 ++ slice bin 24 5) false), slice bin 25 1 ++ slice bin 24 5, "shamt[5:0]".toList, false⟩,
               ⟨decReg (slice bin 19 5) false, slice bin 19 5, "rs1".toList, false⟩,
               ⟨"srai".toList, "101".toList, "funct3".toList, false⟩,
               ⟨decReg (slice bin 11 5) false, slice bin 11 5, "rd".toList, false⟩,
               ⟨"srai".toList, OPCODE.OP_IMM, "opcode".toList, false⟩]⟩) := by
        unfold decodeOP_IMM
        rw [hext, bindOk]
        rfl
      constructor
      · intro _
        constructor
        · intro hcontra
          exact absurd hcontra (by simp)
        · intro res hok
          rw [hcv, hde] at hok
          by_cases hval : ("010000".toList) = (slice bin 31 12).take 6
          · rw [if_neg (not_not_intro hval), bindOk] at hok
            obtain ⟨entry, hisa, hcond, hres⟩ := tail_cases
              (c := ⟨CoptsIsa.RV64I, cabi⟩)
              (r := ⟨"srai".toList, some "RV64I".toList,
              [⟨"srai".toList, OPCODE.OP_IMM, "opcode".toList, false⟩,
               ⟨decReg (slice bin 11 5) false, slice bin 11 5, "rd".toList, false⟩,
               ⟨decReg (slice bin 19 5) false, slice bin 19 5, "rs1".toList, false⟩,
               ⟨intToDec (decImm (slice bin 25 1 ++ slice bin 24 5) false), slice bin 25 1 ++ slice bin 24 5, "shamt[5:0]".toList, false⟩],
              [⟨"srai".toList, ("010000".toList), "shtyp[11:6]".toList, false⟩,
               ⟨intToDec (decImm (slice bin 25 1 ++ slice bin 24 5) false), slice bin 25 1 ++ slice bin 24 5, "shamt[5:0]".toList, false⟩,
               ⟨decReg (slice bin 19 5) false, slice bin 19 5, "rs1".toList, false⟩,
               ⟨"srai".toList, "101".toList, "funct3".toList, false⟩,
               ⟨decReg (slice bin 11 5) false, slice bin 11 5, "rd".toList, false⟩,
               ⟨"srai".toList, OPCODE.OP_IMM, "opcode".toList, false⟩]⟩) hok
            subst hres
            refine ⟨rfl, ⟨intToDec (decImm (slice bin 25 1 ++ slice bin 24 5) false), slice bin 25 1 ++ slice bin 24 5, "shamt[5:0]".toList, false⟩,
              rfl, rfl, ?_⟩
            rw [List.length_append, hl25,
              @slice_length bin h32 24 5 (by omega) (by omega)]
          · rw [if_pos hval, bindErr] at hok
            exact absurd hok (by simp)
      · intro hcontra
        exact absurd (Or.inl rfl) hcontra

/-- The word `slli x1, x1, 40` (0x02809093): a 6-bit shamt. -/
def wSlli40 : Str := "00000010100000001001000010010011".toList

/-- C3, witness: the theorem evaluated on the concrete word
0x02809093 (`slli x1, x1, 40`): RV32I rejects it with
`ShiftOutOfRange`; RV64I decodes it with reported ISA RV64I. -/
theorem claim_C3_witness :
    convertBinToAsm wSlli40 cfgRV32 =
      .error (.shiftOutOfRange "OP-IMM".toList 40) ∧
    (convertBinToAsm wSlli40 cfgRV64).map InstrResult.isa =
      .ok "RV64I".toList := by
  constructor
  · have h := ((claim_C3_opimm_shift wSlli40 cfgRV32 (by decide) (by decide)
      (by decide) (Or.inl (by decide))).1 (Or.inr (by decide))).1 (by decide)
    rw [h]
    decide
  · have hOk : (convertBinToAsm wSlli40 cfgRV64).isOk = true := by decide
    rcases hcomp : convertBinToAsm wSlli40 cfgRV64 with e | res
    · rw [hcomp] at hOk
      simp [Except.isOk, Except.toBool] at hOk
    · have h := (((claim_C3_opimm_shift wSlli40 cfgRV64 (by decide) (by decide)
        (by decide) (Or.inl (by decide))).1 (Or.inl (by decide))).2 res
        hcomp).1
      rw [mapOk, h]

/-- On a 32-character word whose bit 25 is 1, the top seven characters
end in '1'. -/
theorem take7_bit25 {bin : Str} (_h32 : bin.length = 32)
    (hs5 : slice bin 25 1 = ['1']) :
    (slice bin 31 12).take 7 = bin.take 6 ++ ['1'] := by
  rw [← slice_take 31 12 7 (by omega), slice_31_take,
    show (7 : Nat) = 6 + 1 from rfl, List.take_add]
  rw [← hs5]
  rfl

/-- C4: for OP-IMM-32 shift words, the shift amount comes from the
5-bit field `shamt[4:0]` only, and any such word with bit 25
(`shamt[5]`) set is rejected (the shtyp validation fails, `BadShtyp`)
rather than decoded. -/
theorem claim_C4_opimm32_shift (bin : Str) (cfg : Config)
    (h32 : bin.length = 32) (hb : IsBin bin)
    (hop : slice bin 6 7 = OPCODE.OP_IMM_32)
    (hf3 : slice bin 14 3 = "001".toList ∨ slice bin 14 3 = "101".toList) :
    (slice bin 25 1 = ['1'] →
      convertBinToAsm bin cfg = .error (.badShtyp "OP-IMM-32".toList)) ∧
    (∀ res : InstrResult, convertBinToAsm bin cfg = .ok res →
      ∃ fr : Frag, res.asmFrags.getLast? = some fr ∧
        fr.bits = slice bin 24 5 ∧ fr.bits.length = 5) := by
  have hcv : convertBinToAsm bin cfg =
      (decodeOP_IMM bin OPCODE.OP_IMM_32 cfg) >>= (fun r =>
        match tblLookup ISA r.mne with
        | none => Except.error DecErr.internalError
        | some entry =>
          let isa := r.isaOv.getD entry.isa
          if cfg.ISA == CoptsIsa.RV32I && isRV64 isa then
            Except.error (DecErr.isaMismatch isa)
          else
            Except.ok ⟨renderAsm r.asmFrags cfg.ABI, entry.fmt, isa, r.mne,
              r.asmFrags, r.binFrags⟩) := by
    rw [convertBinToAsm_eq h32 cfg, hop]
    rfl
  have hl30 : (slice bin 30 1).length = 1 :=
    @slice_length bin h32 30 1 (by omega) (by omega)
  have hb30 : IsBin (slice bin 30 1) := hb.slice 30 1
  rcases hf3 with hfc | hfc
  · have hext := extractIFields_eq h32
    rw [hfc] at hext
    have hde : decodeOP_IMM bin OPCODE.OP_IMM_32 cfg =
        (if ((('0' :: slice bin 30 1 ++ "0000".toList) ++ ['0']) ≠ (slice bin 31 12).take 7) then
          Except.error (DecErr.badShtyp "OP-IMM-32".toList)
        else Except.ok ⟨"slliw".toList, none,
            [⟨"slliw".toList, OPCODE.OP_IMM_32, "opcode".toList, false⟩,
             ⟨decReg (slice bin 11 5) false, slice bin 11 5, "rd".toList, false⟩,
             ⟨decReg (slice bin 19 5) false, slice bin 19 5, "rs1".toList, false⟩,
             ⟨intToDec (decImm (slice bin 24 5) false), slice bin 24 5, "shamt[4:0]".toList, false⟩],
            [⟨"slliw".toList, (('0' :: slice bin 30 1 ++ "0000".toList) ++ ['0']), "shtyp[11:5]".toList, false⟩,
             ⟨intToDec (decImm (slice bin 24 5) false), slice bin 24 5, "shamt[4:0]".toList, false⟩,
             ⟨decReg (slice bin 19 5) false, slice bin 19 5, "rs1".toList, false⟩,
             ⟨"slliw".toList, "001".toList, "funct3".toList, false⟩,
             ⟨decReg (slice bin 11 5) false, slice bin 11 5, "rd".toList, false⟩,
             ⟨"slliw".toList, OPCODE.OP_IMM_32, "opcode".toList, false⟩]⟩) := by
      unfold decodeOP_IMM
      rw [hext, bindOk]
      rfl
    constructor
    · intro hs5
      have hval : ((('0' :: slice bin 30 1 ++ "0000".toList) ++ ['0'])) ≠ (slice bin 31 12).take 7 := by
        intro heq
        have h := congrArg List.getLast? heq
        rw [List.getLast?_concat, take7_bit25 h32 hs5,
          List.getLast?_concat] at h
        exact absurd h (by decide)
      rw [hcv, hde, if_pos hval, bindErr]
    · intro res hok
      rw [hcv, hde] at hok
      by_cases hval : (('0' :: slice bin 30 1 ++ "0000".toList) ++ ['0']) = (slice bin 31 12).take 7
      · rw [if_neg (not_not_intro hval), bindOk] at hok
        obtain ⟨entry, hisa, hcond, hres⟩ := tail_cases (c := cfg)
          (r := ⟨"slliw".toList, none,
            [⟨"slliw".toList, OPCODE.OP_IMM_32, "opcode".toList, false⟩,
             ⟨decReg (slice bin 11 5) false, slice bin 11 5, "rd".toList, false⟩,
             ⟨decReg (slice bin 19 5) false, slice bin 19 5, "rs1".toList, false⟩,
             ⟨intToDec (decImm (slice bin 24 5) false), slice bin 24 5, "shamt[4:0]".toList, false⟩],
            [⟨"slliw".toList, (('0' :: slice bin 30 1 ++ "0000".toList) ++ ['0']), "shtyp[11:5]".toList, false⟩,
             ⟨intToDec (decImm (slice bin 24 5) false), slice bin 24 5, "shamt[4:0]".toList, false⟩,
             ⟨decReg (slice bin 19 5) false, slice bin 19 5, "rs1".toList, false⟩,
             ⟨"slliw".toList, "001".toList, "funct3".toList, false⟩,
             ⟨decReg (slice bin 11 5) false, slice bin 11 5, "rd".toList, false⟩,
             ⟨"slliw".toList, OPCODE.OP_IMM_32, "opcode".toList, false⟩]⟩) hok
        subst hres
        exact ⟨⟨intToDec (decImm (slice bin 24 5) false), slice bin 24 5, "shamt[4:0]".toList, false⟩,
          rfl, rfl, @slice_length bin h32 24 5 (by omega) (by omega)⟩
      · rw [if_pos hval, bindErr] at hok
        exact absurd hok (by simp)
  · rcases bin1_cases hl30 hb30 with hsh | hsh
    · have hext := extractIFields_eq h32
      rw [hfc, hsh] at hext
      have hde : decodeOP_IMM bin OPCODE.OP_IMM_32 cfg =
          (if (("000000".toList ++ ['0']) ≠ (slice bin 31 12).take 7) then
            Except.error (DecErr.badShtyp "OP-IMM-32".toList)
          else Except.ok ⟨"srliw".toList, none,
            [⟨"srliw".toList, OPCODE.OP_IMM_32, "opcode".toList, false⟩,
             ⟨decReg (slice bin 11 5) false, slice bin 11 5, "rd".toList, false⟩,
             ⟨decReg (slice bin 19 5) false, slice bin 19 5, "rs1".toList, false⟩,
             ⟨intToDec (decImm (slice bin 24 5) false), slice bin 24 5, "shamt[4:0]".toList, false⟩],
            [⟨"srliw".toList, ("000000".toList ++ ['0']), "shtyp[11:5]".toList, false⟩,
             ⟨intToDec (decImm (slice bin 24 5) false), slice bin 24 5, "shamt[4:0]".toList, false⟩,
             ⟨decReg (slice bin 19 5) false, slice bin 19 5, "rs1".toList, false⟩,
             ⟨"srliw".toList, "101".toList, "funct3".toList, false⟩,
             ⟨decReg (slice bin 11 5) false, slice bin 11 5, "rd".toList, false⟩,
             ⟨"srliw".toList, OPCODE.OP_IMM_32, "opcode".toList, false⟩]⟩) := by
        unfold decodeOP_IMM
        rw [hext, bindOk]
        rfl
      constructor
      · intro hs5
        have hval : (("000000".toList ++ ['0'])) ≠ (slice bin 31 12).take 7 := by
          intro heq
          have h := congrArg List.getLast? heq
          rw [List.getLast?_concat, take7_bit25 h32 hs5,
            List.getLast?_concat] at h
          exact absurd h (by decide)
        rw [hcv, hde, if_pos hval, bindErr]
      · intro res hok
        rw [hcv, hde] at hok
        by_cases hval : ("000000".toList ++ ['0']) = (slice bin 31 12).take 7
        · rw [if_neg (not_not_intro hval), bindOk] at hok
          obtain ⟨entry, hisa, hcond, hres⟩ := tail_cases (c := cfg)
            (r := ⟨"srliw".toList, none,
            [⟨"srliw".toList, OPCODE.OP_IMM_32, "opcode".toList, false⟩,
             ⟨decReg (slice bin 11 5) false, slice bin 11 5, "rd".toList, false⟩,
             ⟨decReg (slice bin 19 5) false, slice bin 19 5, "rs1".toList, false⟩,
             ⟨intToDec (decImm (slice bin 24 5) false), slice bin 24 5, "shamt[4:0]".toList, false⟩],
            [⟨"srliw".toList, ("000000".toList ++ ['0']), "shtyp[11:5]".toList, false⟩,
             ⟨intToDec (decImm (slice bin 24 5) false), slice bin 24 5, "shamt[4:0]".toList, false⟩,
             ⟨decReg (slice bin 19 5) false, slice bin 19 5, "rs1".toList, false⟩,
             ⟨"srliw".toList, "101".toList, "funct3".toList, false⟩,
             ⟨decReg (slice bin 11 5) false, slice bin 11 5, "rd".toList, false⟩,
             ⟨"srliw".toList, OPCODE.OP_IMM_32, "opcode".toList, false⟩]⟩) hok
          subst hres
          exact ⟨⟨intToDec (decImm (slice bin 24 5) false), slice bin 24 5, "shamt[4:0]".toList, false⟩,
            rfl, rfl, @slice_length bin h32 24 5 (by omega) (by omega)⟩
        · rw [if_pos hval, bindErr] at hok
          exact absurd hok (by simp)
    · have hext := extractIFields_eq h32
      rw [hfc, hsh] at hext
      have hde : decodeOP_IMM bin OPCODE.OP_IMM_32 cfg =
          (if (("010000".toList ++ ['0']) ≠ (slice bin 31 12).take 7) then
            Except.error (DecErr.badShtyp "OP-IMM-32".toList)
          else Except.ok ⟨"sraiw".toList, none,
            [⟨"sraiw".toList, OPCODE.OP_IMM_32, "opcode".toList, false⟩,
             ⟨decReg (slice bin 11 5) false, slice bin 11 5, "rd".toList, false⟩,
             ⟨decReg (slice bin 19 5) false, slice bin 19 5, "rs1".toList, false⟩,
             ⟨intToDec (decImm (slice bin 24 5) false), slice bin 24 5, "shamt[4:0]".toList, false⟩],
            [⟨"sraiw".toList, ("010000".toList ++ ['0']), "shtyp[11:5]".toList, false⟩,
             ⟨intToDec (decImm (slice bin 24 5) false), slice bin 24 5, "shamt[4:0]".toList, false⟩,
             ⟨decReg (slice bin 19 5) false, slice bin 19 5, "rs1".toList, false⟩,
             ⟨"sraiw".toList, "101".toList, "funct3".toList, false⟩,
             ⟨decReg (slice bin 11 5) false, slice bin 11 5, "rd".toList, false⟩,
             ⟨"sraiw".toList, OPCODE.OP_IMM_32, "opcode".toList, false⟩]⟩) := by
        unfold decodeOP_IMM
        rw [hext, bindOk]
        rfl
      constructor
      · intro hs5
        have hval : (("010000".toList ++ ['0'])) ≠ (slice bin 31 12).take 7 := by
          intro heq
          have h := congrArg List.getLast? heq
          rw [List.getLast?_concat, take7_bit25 h32 hs5,
            List.getLast?_concat] at h
          exact absurd h (by decide)
        rw [hcv, hde, if_pos hval, bindErr]
      · intro res hok
        rw [hcv, hde] at hok
        by_cases hval : ("010000".toList ++ ['0']) = (slice bin 31 12).take 7
        · rw [if_neg (not_not_intro hval), bindOk] at hok
          obtain ⟨entry, hisa, hcond, hres⟩ := tail_cases (c := cfg)
            (r := ⟨"sraiw".toList, none,
            [⟨"sraiw".toList, OPCODE.OP_IMM_32, "opcode".toList, false⟩,
             ⟨decReg (slice bin 11 5) false, slice bin 11 5, "rd".toList, false⟩,
             ⟨decReg (slice bin 19 5) false, slice bin 19 5, "rs1".toList, false⟩,
             ⟨intToDec (decImm (slice bin 24 5) false), slice bin 24 5, "shamt[4:0]".toList, false⟩],
            [⟨"sraiw".toList, ("010000".toList ++ ['0']), "shtyp[11:5]".toList, false⟩,
             ⟨intToDec (decImm (slice bin 24 5) false), slice bin 24 5, "shamt[4:0]".toList, false⟩,
             ⟨decReg (slice bin 19 5) false, slice bin 19 5, "rs1".toList, false⟩,
             ⟨"sraiw".toList, "101".toList, "funct3".toList, false⟩,
             ⟨decReg (slice bin 11 5) false, slice bin 11 5, "rd".toList, false⟩,
             ⟨"sraiw".toList, OPCODE.OP_IMM_32, "opcode".toList, false⟩]⟩) hok
          subst hres
          exact ⟨⟨intToDec (decImm (slice bin 24 5) false), slice bin 24 5, "shamt[4:0]".toList, false⟩,
            rfl, rfl, @slice_length bin h32 24 5 (by omega) (by omega)⟩
        · rw [if_pos hval, bindErr] at hok
          exact absurd hok (by simp)

/-- The OP-IMM-32 shift word `slliw` with bit 25 set (0x02009093 with
OP-IMM-32 opcode): rejected. -/
def wSlliwBad : Str := "00000010000000001001000010011011".toList

/-- A valid `slliw x1, x1, 2` word (funct3 001, shamt 00010). -/
def wSlliw : Str := "00000000001000001001000010011011".toList

/-- C4, witness: the theorem evaluated on concrete OP-IMM-32 shift
words: bit 25 set is rejected; a valid word's shamt fragment is the
5-bit field. -/
theorem claim_C4_witness :
    convertBinToAsm wSlliwBad cfgRV64 =
      .error (.badShtyp "OP-IMM-32".toList) ∧
    (convertBinToAsm wSlliw cfgRV64).map
      (fun r => r.asmFrags.getLast?.map Frag.bits) =
      .ok (some "00010".toList) := by
  constructor
  · exact (claim_C4_opimm32_shift wSlliwBad cfgRV64 (by decide) (by decide)
      (by decide) (Or.inl (by decide))).1 (by decide)
  · have hOk : (convertBinToAsm wSlliw cfgRV64).isOk = true := by decide
    rcases hcomp : convertBinToAsm wSlliw cfgRV64 with e | res
    · rw [hcomp] at hOk
      simp [Except.isOk, Except.toBool] at hOk
    · obtain ⟨fr, hlast, hbits, _⟩ := (claim_C4_opimm32_shift wSlliw cfgRV64
        (by decide) (by decide) (by decide) (Or.inl (by decide))).2 res hcomp
      rw [mapOk, hlast, Option.map_some', hbits]
      decide

/-- Trimming fixes a text that starts with a non-whitespace character
and ends in a closing parenthesis. -/
theorem trimStr_wrap (ch : Char) (t : Str) (hws : isWsChar ch = false) :
    trimStr ((ch :: t) ++ [')']) = (ch :: t) ++ [')'] := by
  apply trimStr_eq_self
  · intro x hx
    rw [List.cons_append, List.head?_cons] at hx
    cases hx
    exact hws
  · intro x hx
    rw [List.getLast?_concat] at hx
    cases hx
    decide

/-- `renderAsm` on the LOAD fragment shape (opcode, rd, immediate,
memory base register): mnemonic, space, rd token, comma-space,
immediate token, and the base register in parentheses with no
separator. -/
theorem renderAsm_load_shape (ch : Char) (cs a b c : Str)
    (bits0 bits1 bits2 bits3 : Str) (hws : isWsChar ch = false) :
    renderAsm [⟨ch :: cs, bits0, "opcode".toList, false⟩,
               ⟨a, bits1, "rd".toList, false⟩,
               ⟨b, bits2, "imm[11:0]".toList, false⟩,
               ⟨c, bits3, "rs1".toList, true⟩] false =
      (ch :: cs) ++ ' ' :: (a ++ ',' :: ' ' :: (b ++ '(' :: (c ++ [')']))) := by
  show trimStr (ch :: (cs ++ (' ' :: (a ++
    (',' :: ' ' :: (b ++ ('(' :: ((c ++ [')']) ++ [])))))))) = _
  have hflat : ch :: (cs ++ (' ' :: (a ++
      (',' :: ' ' :: (b ++ ('(' :: ((c ++ [')']) ++ []))))))) =
      (ch :: (cs ++ (' ' :: (a ++ (',' :: ' ' :: (b ++ ('(' :: c))))))) ++
        [')'] := by
    simp [List.append_assoc]
  rw [hflat, trimStr_wrap ch _ hws]
  simp [List.append_assoc]

/-- C10: in every successful LOAD / LOAD-FP decode with ABI naming
off, the assembly fragment list starts with the opcode fragment whose
token is the mnemonic, and the rendered assembly is the mnemonic, a
space, the destination register, ", ", the immediate, and the memory
base register in parentheses appended without a separator. -/
theorem claim_C10_render (bin : Str) (cfg : Config) (h32 : bin.length = 32)
    (hb : IsBin bin) (habi : cfg.ABI = false)
    (hop : slice bin 6 7 = OPCODE.LOAD ∨ slice bin 6 7 = OPCODE.LOAD_FP)
    (res : InstrResult) (hok : convertBinToAsm bin cfg = .ok res) :
    ∃ fr rest, res.asmFrags = fr :: rest ∧ fr.asm = res.mne ∧
      fr.field = "opcode".toList ∧
      res.asm = res.mne ++ ' ' ::
        (decReg (slice bin 11 5) (slice bin 6 7 == OPCODE.LOAD_FP) ++
         ',' :: ' ' :: (intToDec (decImm (slice bin 31 12) true) ++
         '(' :: (decReg (slice bin 19 5) false ++ [')']))) := by
  have hlen3 : (slice bin 14 3).length = 3 :=
    @slice_length bin h32 14 3 (by omega) (by omega)
  have hb3 : IsBin (slice bin 14 3) := hb.slice 14 3
  rcases hop with hop | hop
  · have hcv : convertBinToAsm bin cfg =
        (decodeLOAD bin OPCODE.LOAD) >>= (fun r =>
          match tblLookup ISA r.mne with
          | none => Except.error DecErr.internalError
          | some entry =>
            let isa := r.isaOv.getD entry.isa
            if cfg.ISA == CoptsIsa.RV32I && isRV64 isa then
              Except.error (DecErr.isaMismatch isa)
            else
              Except.ok ⟨renderAsm r.asmFrags cfg.ABI, entry.fmt, isa, r.mne,
                r.asmFrags, r.binFrags⟩) := by
      rw [convertBinToAsm_eq h32 cfg, hop]
      rfl
    rcases bin3_cases hlen3 hb3 with hfc | hfc | hfc | hfc | hfc | hfc | hfc | hfc
    · have hext := extractIFields_eq h32
      rw [hfc] at hext
      have hde : decodeLOAD bin OPCODE.LOAD = Except.ok ⟨"lb".toList, none,
          [⟨"lb".toList, OPCODE.LOAD, "opcode".toList, false⟩,
           ⟨decReg (slice bin 11 5) false, slice bin 11 5, "rd".toList, false⟩,
           ⟨intToDec (decImm (slice bin 31 12) true), slice bin 31 12, "imm[11:0]".toList, false⟩,
           ⟨decReg (slice bin 19 5) false, slice bin 19 5, "rs1".toList, true⟩],
          [⟨intToDec (decImm (slice bin 31 12) true), slice bin 31 12, "imm[11:0]".toList, false⟩,
           ⟨decReg (slice bin 19 5) false, slice bin 19 5, "rs1".toList, true⟩,
           ⟨"lb".toList, "000".toList, "funct3".toList, false⟩,
           ⟨decReg (slice bin 11 5) false, slice bin 11 5, "rd".toList, false⟩,
           ⟨"lb".toList, OPCODE.LOAD, "opcode".toList, false⟩]⟩ := by
        unfold decodeLOAD
        rw [hext, bindOk]
        rfl
      rw [hcv, hde, bindOk] at hok
      obtain ⟨entry, hisa, hcond, hres⟩ := tail_cases (c := cfg)
        (r := ⟨"lb".toList, none,
          [⟨"lb".toList, OPCODE.LOAD, "opcode".toList, false⟩,
           ⟨decReg (slice bin 11 5) false, slice bin 11 5, "rd".toList, false⟩,
           ⟨intToDec (decImm (slice bin 31 12) true), slice bin 31 12, "imm[11:0]".toList, false⟩,
           ⟨decReg (slice bin 19 5) false, slice bin 19 5, "rs1".toList, true⟩],
          [⟨intToDec (decImm (slice bin 31 12) true), slice bin 31 12, "imm[11:0]".toList, false⟩,
           ⟨decReg (slice bin 19 5) false, slice bin 19 5, "rs1".toList, true⟩,
           ⟨"lb".toList, "000".toList, "funct3".toList, false⟩,
           ⟨decReg (slice bin 11 5) false, slice bin 11 5, "rd".toList, false⟩,
           ⟨"lb".toList, OPCODE.LOAD, "opcode".toList, false⟩]⟩) hok
      subst hres
      refine ⟨⟨"lb".toList, OPCODE.LOAD, "opcode".toList, false⟩,
        [⟨decReg (slice bin 11 5) false, slice bin 11 5, "rd".toList, false⟩,
         ⟨intToDec (decImm (slice bin 31 12) true), slice bin 31 12, "imm[11:0]".toList, false⟩,
         ⟨decReg (slice bin 19 5) false, slice bin 19 5, "rs1".toList, true⟩],
        rfl, rfl, rfl, ?_⟩
      rw [habi, hop]
      exact renderAsm_load_shape 'l' ("b".toList)
        (decReg (slice bin 11 5) false)
        (intToDec (decImm (slice bin 31 12) true))
        (decReg (slice bin 19 5) false)
        OPCODE.LOAD (slice bin 11 5) (slice bin 31 12) (slice bin 19 5)
        (by decide)
    · have hext := extractIFields_eq h32
      rw [hfc] at hext
      have hde : decodeLOAD bin OPCODE.LOAD = Except.ok ⟨"lh".toList, none,
          [⟨"lh".toList, OPCODE.LOAD, "opcode".toList, false⟩,
           ⟨decReg (slice bin 11 5) false, slice bin 11 5, "rd".toList, false⟩,
           ⟨intToDec (decImm (slice bin 31 12) true), slice bin 31 12, "imm[11:0]".toList, false⟩,
           ⟨decReg (slice bin 19 5) false, slice bin 19 5, "rs1".toList, true⟩],
          [⟨intToDec (decImm (slice bin 31 12) true), slice bin 31 12, "imm[11:0]".toList, false⟩,
           ⟨decReg (slice bin 19 5) false, slice bin 19 5, "rs1".toList, true⟩,
           ⟨"lh".toList, "001".toList, "funct3".toList, false⟩,
           ⟨decReg (slice bin 11 5) false, slice bin 11 5, "rd".toList, false⟩,
           ⟨"lh".toList, OPCODE.LOAD, "opcode".toList, false⟩]⟩ := by
        unfold decodeLOAD
        rw [hext, bindOk]
        rfl
      rw [hcv, hde, bindOk] at hok
      obtain ⟨entry, hisa, hcond, hres⟩ := tail_cases (c := cfg)
        (r := ⟨"lh".toList, none,
          [⟨"lh".toList, OPCODE.LOAD, "opcode".toList, false⟩,
           ⟨decReg (slice bin 11 5) false, slice bin 11 5, "rd".toList, false⟩,
           ⟨intToDec (decImm (slice bin 31 12) true), slice bin 31 12, "imm[11:0]".toList, false⟩,
           ⟨decReg (slice bin 19 5) false, slice bin 19 5, "rs1".toList, true⟩],
          [⟨intToDec (decImm (slice bin 31 12) true), slice bin 31 12, "imm[11:0]".toList, false⟩,
           ⟨decReg (slice bin 19 5) false, slice bin 19 5, "rs1".toList, true⟩,
           ⟨"lh".toList, "001".toList, "funct3".toList, false⟩,
           ⟨decReg (slice bin 11 5) false, slice bin 11 5, "rd".toList, false⟩,
           ⟨"lh".toList, OPCODE.LOAD, "opcode".toList, false⟩]⟩) hok
      subst hres
      refine ⟨⟨"lh".toList, OPCODE.LOAD, "opcode".toList, false⟩,
        [⟨decReg (slice bin 11 5) false, slice bin 11 5, "rd".toList, false⟩,
         ⟨intToDec (decImm (slice bin 31 12) true), slice bin 31 12, "imm[11:0]".toList, false⟩,
         ⟨decReg (slice bin 19 5) false, slice bin 19 5, "rs1".toList, true⟩],
        rfl, rfl, rfl, ?_⟩
      rw [habi, hop]
      exact renderAsm_load_shape 'l' ("h".toList)
        (decReg (slice bin 11 5) false)
        (intToDec (decImm (slice bin 31 12) true))
        (decReg (slice bin 19 5) false)
        OPCODE.LOAD (slice bin 11 5) (slice bin 31 12) (slice bin 19 5)
        (by decide)
    · have hext := extractIFields_eq h32
      rw [hfc] at hext
      have hde : decodeLOAD bin OPCODE.LOAD = Except.ok ⟨"lw".toList, none,
          [⟨"lw".toList, OPCODE.LOAD, "opcode".toList, false⟩,
           ⟨decReg (slice bin 11 5) false, slice bin 11 5, "rd".toList, false⟩,
           ⟨intToDec (decImm (slice bin 31 12) true), slice bin 31 12, "imm[11:0]".toList, false⟩,
           ⟨decReg (slice bin 19 5) false, slice bin 19 5, "rs1".toList, true⟩],
          [⟨intToDec (decImm (slice bin 31 12) true), slice bin 31 12, "imm[11:0]".toList, false⟩,
           ⟨decReg (slice bin 19 5) false, slice bin 19 5, "rs1".toList, true⟩,
           ⟨"lw".toList, "010".toList, "funct3".toList, false⟩,
           ⟨decReg (slice bin 11 5) false, slice bin 11 5, "rd".toList, false⟩,
           ⟨"lw".toList, OPCODE.LOAD, "opcode".toList, false⟩]⟩ := by
        unfold decodeLOAD
        rw [hext, bindOk]
        rfl
      rw [hcv, hde, bindOk] at hok
      obtain ⟨entry, hisa, hcond, hres⟩ := tail_cases (c := cfg)
        (r := ⟨"lw".toList, none,
          [⟨"lw".toList, OPCODE.LOAD, "opcode".toList, false⟩,
           ⟨decReg (slice bin 11 5) false, slice bin 11 5, "rd".toList, false⟩,
           ⟨intToDec (decImm (slice bin 31 12) true), slice bin 31 12, "imm[11:0]".toList, false⟩,
           ⟨decReg (slice bin 19 5) false, slice bin 19 5, "rs1".toList, true⟩],
          [⟨intToDec (decImm (slice bin 31 12) true), slice bin 31 12, "imm[11:0]".toList, false⟩,
           ⟨decReg (slice bin 19 5) false, slice bin 19 5, "rs1".toList, true⟩,
           ⟨"lw".toList, "010".toList, "funct3".toList, false⟩,
           ⟨decReg (slice bin 11 5) false, slice bin 11 5, "rd".toList, false⟩,
           ⟨"lw".toList, OPCODE.LOAD, "opcode".toList, false⟩]⟩) hok
      subst hres
      refine ⟨⟨"lw".toList, OPCODE.LOAD, "opcode".toList, false⟩,
        [⟨decReg (slice bin 11 5) false, slice bin 11 5, "rd".toList, false⟩,
         ⟨intToDec (decImm (slice bin 31 12) true), slice bin 31 12, "imm[11:0]".toList, false⟩,
         ⟨decReg (slice bin 19 5) false, slice bin 19 5, "rs1".toList, true⟩],
        rfl, rfl, rfl, ?_⟩
      rw [habi, hop]
      exact renderAsm_load_shape 'l' ("w".toList)
        (decReg (slice bin 11 5) false)
        (intToDec (decImm (slice bin 31 12) true))
        (decReg (slice bin 19 5) false)
        OPCODE.LOAD (slice bin 11 5) (slice bin 31 12) (slice bin 19 5)
        (by decide)
    · have hext := extractIFields_eq h32
      rw [hfc] at hext
      have hde : decodeLOAD bin OPCODE.LOAD = Except.ok ⟨"ld".toList, none,
          [⟨"ld".toList, OPCODE.LOAD, "opcode".toList, false⟩,
           ⟨decReg (slice bin 11 5) false, slice bin 11 5, "rd".toList, false⟩,
           ⟨intToDec (decImm (slice bin 31 12) true), slice bin 31 12, "imm[11:0]".toList, false⟩,
           ⟨decReg (slice bin 19 5) false, slice bin 19 5, "rs1".toList, true⟩],
          [⟨intToDec (decImm (slice bin 31 12) true), slice bin 31 12, "imm[11:0]".toList, false⟩,
           ⟨decReg (slice bin 19 5) false, slice bin 19 5, "rs1".toList, true⟩,
           ⟨"ld".toList, "011".toList, "funct3".toList, false⟩,
           ⟨decReg (slice bin 11 5) false, slice bin 11 5, "rd".toList, false⟩,
           ⟨"ld".toList, OPCODE.LOAD, "opcode".toList, false⟩]⟩ := by
        unfold decodeLOAD
        rw [hext, bindOk]
        rfl
      rw [hcv, hde, bindOk] at hok
      obtain ⟨entry, hisa, hcond, hres⟩ := tail_cases (c := cfg)
        (r := ⟨"ld".toList, none,
          [⟨"ld".toList, OPCODE.LOAD, "opcode".toList, false⟩,
           ⟨decReg (slice bin 11 5) false, slice bin 11 5, "rd".toList, false⟩,
           ⟨intToDec (decImm (slice bin 31 12) true), slice bin 31 12, "imm[11:0]".toList, false⟩,
           ⟨decReg (slice bin 19 5) false, slice bin 19 5, "rs1".toList, true⟩],
          [⟨intToDec (decImm (slice bin 31 12) true), slice bin 31 12, "imm[11:0]".toList, false⟩,
           ⟨decReg (slice bin 19 5) false, slice bin 19 5, "rs1".toList, true⟩,
           ⟨"ld".toList, "011".toList, "funct3".toList, false⟩,
           ⟨decReg (slice bin 11 5) false, slice bin 11 5, "rd".toList, false⟩,
           ⟨"ld".toList, OPCODE.LOAD, "opcode".toList, false⟩]⟩) hok
      subst hres
      refine ⟨⟨"ld".toList, OPCODE.LOAD, "opcode".toList, false⟩,
        [⟨decReg (slice bin 11 5) false, slice bin 11 5, "rd".toList, false⟩,
         ⟨intToDec (decImm (slice bin 31 12) true), slice bin 31 12, "imm[11:0]".toList, false⟩,
         ⟨decReg (slice bin 19 5) false, slice bin 19 5, "rs1".toList, true⟩],
        rfl, rfl, rfl, ?_⟩
      rw [habi, hop]
      exact renderAsm_load_shape 'l' ("d".toList)
        (decReg (slice bin 11 5) false)
        (intToDec (decImm (slice bin 31 12) true))
        (decReg (slice bin 19 5) false)
        OPCODE.LOAD (slice bin 11 5) (slice bin 31 12) (slice bin 19 5)
        (by decide)
    · have hext := extractIFields_eq h32
      rw [hfc] at hext
      have hde : decodeLOAD bin OPCODE.LOAD = Except.ok ⟨"lbu".toList, none,
          [⟨"lbu".toList, OPCODE.LOAD, "opcode".toList, false⟩,
           ⟨decReg (slice bin 11 5) false, slice bin 11 5, "rd".toList, false⟩,
           ⟨intToDec (decImm (slice bin 31 12) true), slice bin 31 12, "imm[11:0]".toList, false⟩,
           ⟨decReg (slice bin 19 5) false, slice bin 19 5, "rs1".toList, true⟩],
          [⟨intToDec (decImm (slice bin 31 12) true), slice bin 31 12, "imm[11:0]".toList, false⟩,
           ⟨decReg (slice bin 19 5) false, slice bin 19 5, "rs1".toList, true⟩,
           ⟨"lbu".toList, "100".toList, "funct3".toList, false⟩,
           ⟨decReg (slice bin 11 5) false, slice bin 11 5, "rd".toList, false⟩,
           ⟨"lbu".toList, OPCODE.LOAD, "opcode".toList, false⟩]⟩ := by
        unfold decodeLOAD
        rw [hext, bindOk]
        rfl
      rw [hcv, hde, bindOk] at hok
      obtain ⟨entry, hisa, hcond, hres⟩ := tail_cases (c := cfg)
        (r := ⟨"lbu".toList, none,
          [⟨"lbu".toList, OPCODE.LOAD, "opcode".toList, false⟩,
           ⟨decReg (slice bin 11 5) false, slice bin 11 5, "rd".toList, false⟩,
           ⟨intToDec (decImm (slice bin 31 12) true), slice bin 31 12, "imm[11:0]".toList, false⟩,
           ⟨decReg (slice bin 19 5) false, slice bin 19 5, "rs1".toList, true⟩],
          [⟨intToDec (decImm (slice bin 31 12) true), slice bin 31 12, "imm[11:0]".toList, false⟩,
           ⟨decReg (slice bin 19 5) false, slice bin 19 5, "rs1".toList, true⟩,
           ⟨"lbu".toList, "100".toList, "funct3".toList, false⟩,
           ⟨decReg (slice bin 11 5) false, slice bin 11 5, "rd".toList, false⟩,
           ⟨"lbu".toList, OPCODE.LOAD, "opcode".toList, false⟩]⟩) hok
      subst hres
      refine ⟨⟨"lbu".toList, OPCODE.LOAD, "opcode".toList, false⟩,
        [⟨decReg (slice bin 11 5) false, slice bin 11 5, "rd".toList, false⟩,
         ⟨intToDec (decImm (slice bin 31 12) true), slice bin 31 12, "imm[11:0]".toList, false⟩,
         ⟨decReg (slice bin 19 5) false, slice bin 19 5, "rs1".toList, true⟩],
        rfl, rfl, rfl, ?_⟩
      rw [habi, hop]
      exact renderAsm_load_shape 'l' ("bu".toList)
        (decReg (slice bin 11 5) false)
        (intToDec (decImm (slice bin 31 12) true))
        (decReg (slice bin 19 5) false)
        OPCODE.LOAD (slice bin 11 5) (slice bin 31 12) (slice bin 19 5)
        (by decide)
    · have hext := extractIFields_eq h32
      rw [hfc] at hext
      have hde : decodeLOAD bin OPCODE.LOAD = Except.ok ⟨"lhu".toList, none,
          [⟨"lhu".toList, OPCODE.LOAD, "opcode".toList, false⟩,
           ⟨decReg (slice bin 11 5) false, slice bin 11 5, "rd".toList, false⟩,
           ⟨intToDec (decImm (slice bin 31 12) true), slice bin 31 12, "imm[11:0]".toList, false⟩,
           ⟨decReg (slice bin 19 5) false, slice bin 19 5, "rs1".toList, true⟩],
          [⟨intToDec (decImm (slice bin 31 12) true), slice bin 31 12, "imm[11:0]".toList, false⟩,
           ⟨decReg (slice bin 19 5) false, slice bin 19 5, "rs1".toList, true⟩,
           ⟨"lhu".toList, "101".toList, "funct3".toList, false⟩,
           ⟨decReg (slice bin 11 5) false, slice bin 11 5, "rd".toList, false⟩,
           ⟨"lhu".toList, OPCODE.LOAD, "opcode".toList, false⟩]⟩ := by
        unfold decodeLOAD
        rw [hext, bindOk]
        rfl
      rw [hcv, hde, bindOk] at hok
      obtain ⟨entry, hisa, hcond, hres⟩ := tail_cases (c := cfg)
        (r := ⟨"lhu".toList, none,
          [⟨"lhu".toList, OPCODE.LOAD, "opcode".toList, false⟩,
           ⟨decReg (slice bin 11 5) false, slice bin 11 5, "rd".toList, false⟩,
           ⟨intToDec (decImm (slice bin 31 12) true), slice bin 31 12, "imm[11:0]".toList, false⟩,
           ⟨decReg (slice bin 19 5) false, slice bin 19 5, "rs1".toList, true⟩],
          [⟨intToDec (decImm (slice bin 31 12) true), slice bin 31 12, "imm[11:0]".toList, false⟩,
           ⟨decReg (slice bin 19 5) false, slice bin 19 5, "rs1".toList, true⟩,
           ⟨"lhu".toList, "101".toList, "funct3".toList, false⟩,
           ⟨decReg (slice bin 11 5) false, slice bin 11 5, "rd".toList, false⟩,
           ⟨"lhu".toList, OPCODE.LOAD, "opcode".toList, false⟩]⟩) hok
      subst hres
      refine ⟨⟨"lhu".toList, OPCODE.LOAD, "opcode".toList, false⟩,
        [⟨decReg (slice bin 11 5) false, slice bin 11 5, "rd".toList, false⟩,
         ⟨intToDec (decImm (slice bin 31 12) true), slice bin 31 12, "imm[11:0]".toList, false⟩,
         ⟨decReg (slice bin 19 5) false, slice bin 19 5, "rs1".toList, true⟩],
        rfl, rfl, rfl, ?_⟩
      rw [habi, hop]
      exact renderAsm_load_shape 'l' ("hu".toList)
        (decReg (slice bin 11 5) false)
        (intToDec (decImm (slice bin 31 12) true))
        (decReg (slice bin 19 5) false)
        OPCODE.LOAD (slice bin 11 5) (slice bin 31 12) (slice bin 19 5)
        (by decide)
    · have hext := extractIFields_eq h32
      rw [hfc] at hext
      have hde : decodeLOAD bin OPCODE.LOAD = Except.ok ⟨"lwu".toList, none,
          [⟨"lwu".toList, OPCODE.LOAD, "opcode".toList, false⟩,
           ⟨decReg (slice bin 11 5) false, slice bin 11 5, "rd".toList, false⟩,
           ⟨intToDec (decImm (slice bin 31 12) true), slice bin 31 12, "imm[11:0]".toList, false⟩,
           ⟨decReg (slice bin 19 5) false, slice bin 19 5, "rs1".toList, true⟩],
          [⟨intToDec (decImm (slice bin 31 12) true), slice bin 31 12, "imm[11:0]".toList, false⟩,
           ⟨decReg (slice bin 19 5) false, slice bin 19 5, "rs1".toList, true⟩,
           ⟨"lwu".toList, "110".toList, "funct3".toList, false⟩,
           ⟨decReg (slice bin 11 5) false, slice bin 11 5, "rd".toList, false⟩,
           ⟨"lwu".toList, OPCODE.LOAD, "opcode".toList, false⟩]⟩ := by
        unfold decodeLOAD
        rw [hext, bindOk]
        rfl
      rw [hcv, hde, bindOk] at hok
      obtain ⟨entry, hisa, hcond, hres⟩ := tail_cases (c := cfg)
        (r := ⟨"lwu".toList, none,
          [⟨"lwu".toList, OPCODE.LOAD, "opcode".toList, false⟩,
           ⟨decReg (slice bin 11 5) false, slice bin 11 5, "rd".toList, false⟩,
           ⟨intToDec (decImm (slice bin 31 12) true), slice bin 31 12, "imm[11:0]".toList, false⟩,
           ⟨decReg (slice bin 19 5) false, slice bin 19 5, "rs1".toList, true⟩],
          [⟨intToDec (decImm (slice bin 31 12) true), slice bin 31 12, "imm[11:0]".toList, false⟩,
           ⟨decReg (slice bin 19 5) false, slice bin 19 5, "rs1".toList, true⟩,
           ⟨"lwu".toList, "110".toList, "funct3".toList, false⟩,
           ⟨decReg (slice bin 11 5) false, slice bin 11 5, "rd".toList, false⟩,
           ⟨"lwu".toList, OPCODE.LOAD, "opcode".toList, false⟩]⟩) hok
      subst hres
      refine ⟨⟨"lwu".toList, OPCODE.LOAD, "opcode".toList, false⟩,
        [⟨decReg (slice bin 11 5) false, slice bin 11 5, "rd".toList, false⟩,
         ⟨intToDec (decImm (slice bin 31 12) true), slice bin 31 12, "imm[11:0]".toList, false⟩,
         ⟨decReg (slice bin 19 5) false, slice bin 19 5, "rs1".toList, true⟩],
        rfl, rfl, rfl, ?_⟩
      rw [habi, hop]
      exact renderAsm_load_shape 'l' ("wu".toList)
        (decReg (slice bin 11 5) false)
        (intToDec (decImm (slice bin 31 12) true))
        (decReg (slice bin 19 5) false)
        OPCODE.LOAD (slice bin 11 5) (slice bin 31 12) (slice bin 19 5)
        (by decide)
    · have hext := extractIFields_eq h32
      rw [hfc] at hext
      have hde : decodeLOAD bin OPCODE.LOAD =
          Except.error (DecErr.invalidFunct "LOAD".toList) := by
        unfold decodeLOAD
        rw [hext, bindOk]
        rfl
      rw [hcv, hde, bindErr] at hok
      exact absurd hok (by simp)
  · have hcv : convertBinToAsm bin cfg =
        (decodeLOAD bin OPCODE.LOAD_FP) >>= (fun r =>
          match tblLookup ISA r.mne with
          | none => Except.error DecErr.internalError
          | some entry =>
            let isa := r.isaOv.getD entry.isa
            if cfg.ISA == CoptsIsa.RV32I && isRV64 isa then
              Except.error (DecErr.isaMismatch isa)
            else
              Except.ok ⟨renderAsm r.asmFrags cfg.ABI, entry.fmt, isa, r.mne,
                r.asmFrags, r.binFrags⟩) := by
      rw [convertBinToAsm_eq h32 cfg, hop]
      rfl
    rcases bin3_cases hlen3 hb3 with hfc | hfc | hfc | hfc | hfc | hfc | hfc | hfc
    · have hext := extractIFields_eq h32
      rw [hfc] at hext
      have hde : decodeLOAD bin OPCODE.LOAD_FP =
          Except.error (DecErr.invalidFunct "LOAD-FP".toList) := by
        unfold decodeLOAD
        rw [hext, bindOk]
        rfl
      rw [hcv, hde, bindErr] at hok
      exact absurd hok (by simp)
    · have hext := extractIFields_eq h32
      rw [hfc] at hext
      have hde : decodeLOAD bin OPCODE.LOAD_FP =
          Except.error (DecErr.invalidFunct "LOAD-FP".toList) := by
        unfold decodeLOAD
        rw [hext, bindOk]
        rfl
      rw [hcv, hde, bindErr] at hok
      exact absurd hok (by simp)
    · have hext := extractIFields_eq h32
      rw [hfc] at hext
      have hde : decodeLOAD bin OPCODE.LOAD_FP = Except.ok ⟨"flw".toList, none,
          [⟨"flw".toList, OPCODE.LOAD_FP, "opcode".toList, false⟩,
           ⟨decReg (slice bin 11 5) true, slice bin 11 5, "rd".toList, false⟩,
           ⟨intToDec (decImm (slice bin 31 12) true), slice bin 31 12, "imm[11:0]".toList, false⟩,
           ⟨decReg (slice bin 19 5) false, slice bin 19 5, "rs1".toList, true⟩],
          [⟨intToDec (decImm (slice bin 31 12) true), slice bin 31 12, "imm[11:0]".toList, false⟩,
           ⟨decReg (slice bin 19 5) false, slice bin 19 5, "rs1".toList, true⟩,
           ⟨"flw".toList, "010".toList, "funct3".toList, false⟩,
           ⟨decReg (slice bin 11 5) true, slice bin 11 5, "rd".toList, false⟩,
           ⟨"flw".toList, OPCODE.LOAD_FP, "opcode".toList, false⟩]⟩ := by
        unfold decodeLOAD
        rw [hext, bindOk]
        rfl
      rw [hcv, hde, bindOk] at hok
      obtain ⟨entry, hisa, hcond, hres⟩ := tail_cases (c := cfg)
        (r := ⟨"flw".toList, none,
          [⟨"flw".toList, OPCODE.LOAD_FP, "opcode".toList, false⟩,
           ⟨decReg (slice bin 11 5) true, slice bin 11 5, "rd".toList, false⟩,
           ⟨intToDec (decImm (slice bin 31 12) true), slice bin 31 12, "imm[11:0]".toList, false⟩,
           ⟨decReg (slice bin 19 5) false, slice bin 19 5, "rs1".toList, true⟩],
          [⟨intToDec (decImm (slice bin 31 12) true), slice bin 31 12, "imm[11:0]".toList, false⟩,
           ⟨decReg (slice bin 19 5) false, slice bin 19 5, "rs1".toList, true⟩,
           ⟨"flw".toList, "010".toList, "funct3".toList, false⟩,
           ⟨decReg (slice bin 11 5) true, slice bin 11 5, "rd".toList, false⟩,
           ⟨"flw".toList, OPCODE.LOAD_FP, "opcode".toList, false⟩]⟩) hok
      subst hres
      refine ⟨⟨"flw".toList, OPCODE.LOAD_FP, "opcode".toList, false⟩,
        [⟨decReg (slice bin 11 5) true, slice bin 11 5, "rd".toList, false⟩,
         ⟨intToDec (decImm (slice bin 31 12) true), slice bin 31 12, "imm[11:0]".toList, false⟩,
         ⟨decReg (slice bin 19 5) false, slice bin 19 5, "rs1".toList, true⟩],
        rfl, rfl, rfl, ?_⟩
      rw [habi, hop]
      exact renderAsm_load_shape 'f' ("lw".toList)
        (decReg (slice bin 11 5) true)
        (intToDec (decImm (slice bin 31 12) true))
        (decReg (slice bin 19 5) false)
        OPCODE.LOAD_FP (slice bin 11 5) (slice bin 31 12) (slice bin 19 5)
        (by decide)
    · have hext := extractIFields_eq h32
      rw [hfc] at hext
      have hde : decodeLOAD bin OPCODE.LOAD_FP = Except.ok ⟨"fld".toList, none,
          [⟨"fld".toList, OPCODE.LOAD_FP, "opcode".toList, false⟩,
           ⟨decReg (slice bin 11 5) true, slice bin 11 5, "rd".toList, false⟩,
           ⟨intToDec (decImm (slice bin 31 12) true), slice bin 31 12, "imm[11:0]".toList, false⟩,
           ⟨decReg (slice bin 19 5) false, slice bin 19 5, "rs1".toList, true⟩],
          [⟨intToDec (decImm (slice bin 31 12) true), slice bin 31 12, "imm[11:0]".toList, false⟩,
           ⟨decReg (slice bin 19 5) false, slice bin 19 5, "rs1".toList, true⟩,
           ⟨"fld".toList, "011".toList, "funct3".toList, false⟩,
           ⟨decReg (slice bin 11 5) true, slice bin 11 5, "rd".toList, false⟩,
           ⟨"fld".toList, OPCODE.LOAD_FP, "opcode".toList, false⟩]⟩ := by
        unfold decodeLOAD
        rw [hext, bindOk]
        rfl
      rw [hcv, hde, bindOk] at hok
      obtain ⟨entry, hisa, hcond, hres⟩ := tail_cases (c := cfg)
        (r := ⟨"fld".toList, none,
          [⟨"fld".toList, OPCODE.LOAD_FP, "opcode".toList, false⟩,
           ⟨decReg (slice bin 11 5) true, slice bin 11 5, "rd".toList, false⟩,
           ⟨intToDec (decImm (slice bin 31 12) true), slice bin 31 12, "imm[11:0]".toList, false⟩,
           ⟨decReg (slice bin 19 5) false, slice bin 19 5, "rs1".toList, true⟩],
          [⟨intToDec (decImm (slice bin 31 12) true), slice bin 31 12, "imm[11:0]".toList, false⟩,
           ⟨decReg (slice bin 19 5) false, slice bin 19 5, "rs1".toList, true⟩,
           ⟨"fld".toList, "011".toList, "funct3".toList, false⟩,
           ⟨decReg (slice bin 11 5) true, slice bin 11 5, "rd".toList, false⟩,
           ⟨"fld".toList, OPCODE.LOAD_FP, "opcode".toList, false⟩]⟩) hok
      subst hres
      refine ⟨⟨"fld".toList, OPCODE.LOAD_FP, "opcode".toList, false⟩,
        [⟨decReg (slice bin 11 5) true, slice bin 11 5, "rd".toList, false⟩,
         ⟨intToDec (decImm (slice bin 31 12) true), slice bin 31 12, "imm[11:0]".toList, false⟩,
         ⟨decReg (slice bin 19 5) false, slice bin 19 5, "rs1".toList, true⟩],
        rfl, rfl, rfl, ?_⟩
      rw [habi, hop]
      exact renderAsm_load_shape 'f' ("ld".toList)
        (decReg (slice bin 11 5) true)
        (intToDec (decImm (slice bin 31 12) true))
        (decReg (slice bin 19 5) false)
        OPCODE.LOAD_FP (slice bin 11 5) (slice bin 31 12) (slice bin 19 5)
        (by decide)
    · have hext := extractIFields_eq h32
      rw [hfc] at hext
      have hde : decodeLOAD bin OPCODE.LOAD_FP =
          Except.error (DecErr.invalidFunct "LOAD-FP".toList) := by
        unfold decodeLOAD
        rw [hext, bindOk]
        rfl
      rw [hcv, hde, bindErr] at hok
      exact absurd hok (by simp)
    · have hext := extractIFields_eq h32
      rw [hfc] at hext
      have hde : decodeLOAD bin OPCODE.LOAD_FP =
          Except.error (DecErr.invalidFunct "LOAD-FP".toList) := by
        unfold decodeLOAD
        rw [hext, bindOk]
        rfl
      rw [hcv, hde, bindErr] at hok
      exact absurd hok (by simp)
    · have hext := extractIFields_eq h32
      rw [hfc] at hext
      have hde : decodeLOAD bin OPCODE.LOAD_FP =
          Except.error (DecErr.invalidFunct "LOAD-FP".toList) := by
        unfold decodeLOAD
        rw [hext, bindOk]
        rfl
      rw [hcv, hde, bindErr] at hok
      exact absurd hok (by simp)
    · have hext := extractIFields_eq h32
      rw [hfc] at hext
      have hde : decodeLOAD bin OPCODE.LOAD_FP =
          Except.error (DecErr.invalidFunct "LOAD-FP".toList) := by
        unfold decodeLOAD
        rw [hext, bindOk]
        rfl
      rw [hcv, hde, bindErr] at hok
      exact absurd hok (by simp)

/-- The word `lw x5, -4(x2)` (0xffc12283). -/
def wLw : Str := "11111111110000010010001010000011".toList

/-- C10, witness: the theorem evaluated on the concrete word
0xffc12283: the rendered assembly is "lw x5, -4(x2)". -/
theorem claim_C10_witness :
    (convertBinToAsm wLw cfgRV32).map (fun r => r.asm) =
      .ok "lw x5, -4(x2)".toList := by
  have hOk : (convertBinToAsm wLw cfgRV32).isOk = true := by decide
  rcases hcomp : convertBinToAsm wLw cfgRV32 with e | res
  · rw [hcomp] at hOk
    simp [Except.isOk, Except.toBool] at hOk
  · obtain ⟨fr, rest, hfr, hfa, hff, hasm⟩ := claim_C10_render wLw cfgRV32
      (by decide) (by decide) rfl (Or.inl (by decide)) res hcomp
    have hmne : res.mne = "lw".toList := by
      have h2 : (convertBinToAsm wLw cfgRV32).map InstrResult.mne =
          .ok "lw".toList := by decide
      rw [hcomp, mapOk] at h2
      exact Except.ok.inj h2
    rw [mapOk, hasm, hmne]
    decide

/-- The word `csrrw x0, mtvec, x5` (0x30529073). -/
def wCsrrw : Str := "00110000010100101001000001110011".toList

/-- C7, witness: the theorem evaluated on the concrete word
0x30529073 (`csrrw x0, mtvec, x5`): known CSR name, register source. -/
theorem claim_C7_witness :
    (convertBinToAsm wCsrrw cfgRV32).map (fun r => r.asmFrags.map Frag.asm) =
      .ok ["csrrw".toList, "x0".toList, "mtvec".toList, "x5".toList] := by
  have hOk : (convertBinToAsm wCsrrw cfgRV32).isOk = true := by decide
  rcases hcomp : convertBinToAsm wCsrrw cfgRV32 with e | res
  · rw [hcomp] at hOk
    simp [Except.isOk, Except.toBool] at hOk
  · obtain ⟨csrFr, srcFr, hfr, _, hasm, _, h0, _⟩ := claim_C7_zicsr wCsrrw
      cfgRV32 (by decide) (by decide) (by decide) (by decide) res hcomp
    have hmne : res.mne = "csrrw".toList := by
      have h2 : (convertBinToAsm wCsrrw cfgRV32).map InstrResult.mne =
          .ok "csrrw".toList := by decide
      rw [hcomp, mapOk] at h2
      exact Except.ok.inj h2
    rw [mapOk, hfr, h0 (by decide)]
    simp only [List.map_cons, List.map_nil]
    rw [hmne, hasm]
    decide

/-- The word `fence iorw, iorw` (0x0ff0000f). -/
def wFence : Str := "00001111111100000000000000001111".toList

/-- The all-zero-mask fence word 0x0000000f. -/
def wFenceZero : Str := "00000000000000000000000000001111".toList

/-- C8, witness: the theorem evaluated on the concrete words
0x0ff0000f (`fence iorw, iorw`) and 0x0000000f (empty masks →
`InvalidFence`). -/
theorem claim_C8_witness :
    convertBinToAsm wFenceZero cfgRV32 = .error .invalidFence ∧
    (convertBinToAsm wFence cfgRV32).map (fun r => r.asmFrags.map Frag.asm) =
      .ok ["fence".toList, "iorw".toList, "iorw".toList] := by
  constructor
  · exact (claim_C8_fence wFenceZero cfgRV32 (by decide) (by decide)
      (by decide) (by decide) (by decide)).1 (Or.inl (by decide))
  · have hOk : (convertBinToAsm wFence cfgRV32).isOk = true := by decide
    rcases hcomp : convertBinToAsm wFence cfgRV32 with e | res
    · rw [hcomp] at hOk
      simp [Except.isOk, Except.toBool] at hOk
    · have hmap := (claim_C8_fence wFence cfgRV32 (by decide) (by decide)
        (by decide) (by decide) (by decide)).2 res hcomp
        '1' '1' '1' '1' '1' '1' '1' '1' (by decide) (by decide)
      rw [mapOk, hmap]
      decide

end Rvcodec
